import Mathlib

/-!
# Topology editing in liblwgeom (lwgeom_topo.c)

A shallow embedding of the backend wrappers and of the two editing operations
`lwt_AddIsoNode` and `lwt_ModEdgeSplit`, and what can be proved of them.

## The embedding

* The backend is a record of callbacks over an arbitrary backend state `σ`;
  every callback receives the state and returns the new state with its
  results, so a backend may answer and mutate in any way it likes.
* Geometries are values of an arbitrary type `G`; the geometry helpers used by
  the split (`lwgeom_split`, `lwgeom_as_lwcollection`, `lwgeom_as_lwline`) are
  parameters.
* A `World` threads the backend state together with two ghost lists: the
  backend calls made so far (with their arguments and answers) and the
  messages raised through `lwerror`. An operation succeeds when it raises
  nothing and fails when it raises a message.
* `lwerror` records its message and returns to the caller, which is the
  behaviour every `return -1` that follows a call of it provides for.
* Identifiers (`LWT_ELEMID`) and C `int`s are mathematical integers; the code
  negates identifiers, which is assumed not to overflow.
* Every callback is taken to be registered (the `CHECKCB` test passes).
* Each operation is cut into its consecutive blocks of lines, one definition
  per block, each handing over to the next.

## What stands beside the embedding

* `SplitRun` records the values of a run of `lwt_ModEdgeSplit` that raises
  nothing; `lwt_ModEdgeSplit_success` and `lwt_ModEdgeSplit_of_follows` show
  that these runs are exactly the ones `SplitRun.Follows` describes.
* `ImplementsEdgeTable` says what the conditional update and its fellow
  callbacks must do to a backend's edge table; `refBackend` is a backend that
  does it, over a store of two tables and two counters.
* `SplitRun.ReachesUpdate` and `SplitRun.ReachesNotify` describe the runs
  that get as far as the update of the old edge and as the notification,
  whatever these answer; `SplitRun.trace` computes the values of a run from
  the callbacks, for concrete runs.
* `ReferencesResolve` and `ReferencesResolveAbs` say that every next-edge
  reference of an edge table names a row of the table.
* `Geo1` is a small geometry on an integer axis, used for concrete runs, with
  a few backends that misbehave in one way each.

## The minimum bounding circle (lwboundingcircle.c)

The namespace `LwBoundingCircle` embeds `calculate_mbc` and the functions it
calls.

* The C `double` is an arbitrary type `F`; its constants, arithmetic and
  comparison, the constants and the macro of the liblwgeom headers and the
  function `distance2d_pt_pt` are the fields of a record `Liblwgeom F`, so
  that what is proved holds for every arithmetic, that of the machine
  included.
* A pointer to a point is an `Option`; reading through NULL ends the run
  (`Ending.nullDeref`), as does reading `points[i]` beyond the points given.
* `calculate_mbc` takes fuel that bounds the depth of its recursion and
  answers `none` when the recursion goes deeper; `calculate_mbc_fuel_le` shows
  that more fuel never changes an answer.
* A ghost log records every evaluation of `calculate_mbc_from_support` and
  every recursive call.
* `Frac` and `fracEnv` give an exact arithmetic for concrete runs.
-/

set_option autoImplicit false

namespace LwTopo

/-! ## Data model -/

/-- The identifier type of nodes, edges and faces. -/
abbrev LWT_ELEMID := Int

/-- A node record: the three fields the code reads and writes. -/
structure LWT_ISO_NODE (G : Type) where
  node_id : LWT_ELEMID
  containing_face : LWT_ELEMID
  geom : G
deriving DecidableEq, Repr

/-- An edge record: the eight fields the code reads and writes. -/
structure LWT_ISO_EDGE (G : Type) where
  edge_id : LWT_ELEMID
  start_node : LWT_ELEMID
  end_node : LWT_ELEMID
  face_left : LWT_ELEMID
  face_right : LWT_ELEMID
  next_left : LWT_ELEMID
  next_right : LWT_ELEMID
  geom : G
deriving DecidableEq, Repr

/-- Modelled from the spec: the `LWT_COL_EDGE_*` field masks are declared in
liblwgeom_topo.h, which is not among the sources. A mask is represented as the
set of edge columns it selects, one flag per column. -/
structure EdgeFields where
  edge_id : Bool := false
  start_node : Bool := false
  end_node : Bool := false
  face_left : Bool := false
  face_right : Bool := false
  next_left : Bool := false
  next_right : Bool := false
  geom : Bool := false
deriving DecidableEq, Repr

/-- The literal mask `0`: no column. -/
instance : Zero EdgeFields := ⟨{}⟩

/-- Bitwise or of two masks: the union of the columns. -/
instance : OrOp EdgeFields :=
  ⟨fun a b =>
    { edge_id := a.edge_id || b.edge_id
      start_node := a.start_node || b.start_node
      end_node := a.end_node || b.end_node
      face_left := a.face_left || b.face_left
      face_right := a.face_right || b.face_right
      next_left := a.next_left || b.next_left
      next_right := a.next_right || b.next_right
      geom := a.geom || b.geom }⟩

/-- Modelled from the spec: mask selecting the `edge_id` column. -/
def LWT_COL_EDGE_EDGE_ID : EdgeFields := { edge_id := true }
/-- Modelled from the spec: mask selecting the `start_node` column. -/
def LWT_COL_EDGE_START_NODE : EdgeFields := { start_node := true }
/-- Modelled from the spec: mask selecting the `end_node` column. -/
def LWT_COL_EDGE_END_NODE : EdgeFields := { end_node := true }
/-- Modelled from the spec: mask selecting the `next_left` column. -/
def LWT_COL_EDGE_NEXT_LEFT : EdgeFields := { next_left := true }
/-- Modelled from the spec: mask selecting the `next_right` column. -/
def LWT_COL_EDGE_NEXT_RIGHT : EdgeFields := { next_right := true }
/-- Modelled from the spec: mask selecting the `geom` column. -/
def LWT_COL_EDGE_GEOM : EdgeFields := { geom := true }
/-- Modelled from the spec: mask selecting every edge column. -/
def LWT_COL_EDGE_ALL : EdgeFields :=
  { edge_id := true, start_node := true, end_node := true, face_left := true,
    face_right := true, next_left := true, next_right := true, geom := true }

/-! ## Errors and the backend interface -/

/-- One variadic argument of an `lwerror` call. -/
inductive ErrArg where
  | str (s : String)
  | int (i : Int)
deriving DecidableEq, Repr

/-- A message raised through `lwerror`: the format string and its arguments. -/
structure LwError where
  fmt : String
  args : List ErrArg
deriving DecidableEq, Repr

/-- A backend call, as seen from the engine: the callback, the arguments it
was given and, last, what it answered (rows or record after the call, value of
`numelems` on exit, return value). -/
inductive BeCall (G : Type) where
  | lastErrorMessage (msg : String)
  | getNodeWithinDistance2D (pt : G) (dist numelems fields limit : Int)
      (rows : List (LWT_ISO_NODE G)) (numelems_out : Int)
  | insertNodes (node : LWT_ISO_NODE G) (numelems : Int)
      (node_out : LWT_ISO_NODE G) (ret : Int)
  | getNextEdgeId (ret : LWT_ELEMID)
  | getEdgeById (ids : List LWT_ELEMID) (numelems : Int) (fields : EdgeFields)
      (row : Option (LWT_ISO_EDGE G)) (numelems_out : Int)
  | getEdgeWithinDistance2D (pt : G) (dist numelems fields limit : Int)
      (rows : List (LWT_ISO_EDGE G)) (numelems_out : Int)
  | insertEdges (edge : LWT_ISO_EDGE G) (numelems : Int)
      (edge_out : LWT_ISO_EDGE G) (ret : Int)
  | updateEdges (sel_edge : LWT_ISO_EDGE G) (sel_fields : EdgeFields)
      (upd_edge : LWT_ISO_EDGE G) (upd_fields : EdgeFields)
      (exc_edge : Option (LWT_ISO_EDGE G)) (exc_fields : EdgeFields)
      (ret : Int)
  | getFaceContainingPoint (pt : G) (ret : LWT_ELEMID)
  | updateTopoGeomEdgeSplit (split_edge new_edge1 new_edge2 : LWT_ELEMID)
      (ret : Int)
deriving DecidableEq, Repr

/-- The callbacks a backend registers (`LWT_BE_CALLBACKS`), over backend state
`σ`. An `int* numelems` parameter is passed as its value on entry and returned
as its value on exit; a record passed through a non-const pointer is returned
as it stands after the call; a returned row pointer is `none` for NULL. The
distance and the field mask of the two distance queries are the integers
passed, which are always 0 here. -/
structure LWT_BE_CALLBACKS (σ G : Type) where
  lastErrorMessage : σ → String
  getNodeWithinDistance2D :
    σ → G → Int → Int → Int → Int → σ × List (LWT_ISO_NODE G) × Int
  insertNodes : σ → LWT_ISO_NODE G → Int → σ × LWT_ISO_NODE G × Int
  getNextEdgeId : σ → σ × LWT_ELEMID
  getEdgeById :
    σ → List LWT_ELEMID → Int → EdgeFields → σ × Option (LWT_ISO_EDGE G) × Int
  getEdgeWithinDistance2D :
    σ → G → Int → Int → Int → Int → σ × List (LWT_ISO_EDGE G) × Int
  insertEdges : σ → LWT_ISO_EDGE G → Int → σ × LWT_ISO_EDGE G × Int
  updateEdges :
    σ → LWT_ISO_EDGE G → EdgeFields → LWT_ISO_EDGE G → EdgeFields →
      Option (LWT_ISO_EDGE G) → EdgeFields → σ × Int
  getFaceContainingPoint : σ → G → σ × LWT_ELEMID
  updateTopoGeomEdgeSplit : σ → LWT_ELEMID → LWT_ELEMID → LWT_ELEMID → σ × Int

/-- The geometry helpers the split uses; none of them is among the sources, so
they are parameters. `none` stands for a NULL result. -/
structure GeomOps (G : Type) where
  lwgeom_split : G → G → Option G
  lwgeom_as_lwcollection : G → Option (List G)
  lwgeom_as_lwline : G → Option G

/-- The backend state together with the calls made so far and the messages
raised so far. -/
structure World (σ G : Type) where
  be : σ
  calls : List (BeCall G)
  errors : List LwError

/-- The world in which an operation starts on backend state `s`. -/
def World.init {σ G : Type} (s : σ) : World σ G := ⟨s, [], []⟩

/-- How `lwt_ModEdgeSplit` ends: by returning a value, or by reading a field
of the NULL `oldedge`. -/
inductive Outcome where
  | ret (v : LWT_ELEMID)
  | nullDeref
deriving DecidableEq, Repr

section Engine

variable {σ G : Type}

/-- The error reporter: records the message and returns. -/
def lwerror (w : World σ G) (fmt : String) (args : List ErrArg) : World σ G :=
  { w with errors := w.errors ++ [⟨fmt, args⟩] }

/-! ## Backend wrappers -/

def lwt_be_lastErrorMessage (cb : LWT_BE_CALLBACKS σ G) (w : World σ G) :
    World σ G × String :=
  ({ w with calls := w.calls ++ [BeCall.lastErrorMessage (cb.lastErrorMessage w.be)] },
    cb.lastErrorMessage w.be)

def lwt_be_getNodeWithinDistance2D (cb : LWT_BE_CALLBACKS σ G) (w : World σ G)
    (pt : G) (dist numelems fields limit : Int) :
    World σ G × List (LWT_ISO_NODE G) × Int :=
  let r := cb.getNodeWithinDistance2D w.be pt dist numelems fields limit
  ({ w with be := r.1
            calls := w.calls ++
              [BeCall.getNodeWithinDistance2D pt dist numelems fields limit
                r.2.1 r.2.2] },
    r.2.1, r.2.2)

def lwt_be_insertNodes (cb : LWT_BE_CALLBACKS σ G) (w : World σ G)
    (node : LWT_ISO_NODE G) (numelems : Int) :
    World σ G × LWT_ISO_NODE G × Int :=
  let r := cb.insertNodes w.be node numelems
  ({ w with be := r.1, calls := w.calls ++ [BeCall.insertNodes node numelems r.2.1 r.2.2] },
    r.2.1, r.2.2)

def lwt_be_getNextEdgeId (cb : LWT_BE_CALLBACKS σ G) (w : World σ G) :
    World σ G × LWT_ELEMID :=
  let r := cb.getNextEdgeId w.be
  ({ w with be := r.1, calls := w.calls ++ [BeCall.getNextEdgeId r.2] }, r.2)

def lwt_be_getEdgeById (cb : LWT_BE_CALLBACKS σ G) (w : World σ G)
    (ids : List LWT_ELEMID) (numelems : Int) (fields : EdgeFields) :
    World σ G × Option (LWT_ISO_EDGE G) × Int :=
  let r := cb.getEdgeById w.be ids numelems fields
  ({ w with be := r.1
            calls := w.calls ++
              [BeCall.getEdgeById ids numelems fields r.2.1 r.2.2] },
    r.2.1, r.2.2)

def lwt_be_getEdgeWithinDistance2D (cb : LWT_BE_CALLBACKS σ G) (w : World σ G)
    (pt : G) (dist numelems fields limit : Int) :
    World σ G × List (LWT_ISO_EDGE G) × Int :=
  let r := cb.getEdgeWithinDistance2D w.be pt dist numelems fields limit
  ({ w with be := r.1
            calls := w.calls ++
              [BeCall.getEdgeWithinDistance2D pt dist numelems fields limit
                r.2.1 r.2.2] },
    r.2.1, r.2.2)

def lwt_be_insertEdges (cb : LWT_BE_CALLBACKS σ G) (w : World σ G)
    (edge : LWT_ISO_EDGE G) (numelems : Int) :
    World σ G × LWT_ISO_EDGE G × Int :=
  let r := cb.insertEdges w.be edge numelems
  ({ w with be := r.1, calls := w.calls ++ [BeCall.insertEdges edge numelems r.2.1 r.2.2] },
    r.2.1, r.2.2)

def lwt_be_updateEdges (cb : LWT_BE_CALLBACKS σ G) (w : World σ G)
    (sel_edge : LWT_ISO_EDGE G) (sel_fields : EdgeFields)
    (upd_edge : LWT_ISO_EDGE G) (upd_fields : EdgeFields)
    (exc_edge : Option (LWT_ISO_EDGE G)) (exc_fields : EdgeFields) :
    World σ G × Int :=
  let r := cb.updateEdges w.be sel_edge sel_fields upd_edge upd_fields
    exc_edge exc_fields
  ({ w with be := r.1
            calls := w.calls ++
              [BeCall.updateEdges sel_edge sel_fields upd_edge upd_fields
                exc_edge exc_fields r.2] },
    r.2)

def lwt_be_getFaceContainingPoint (cb : LWT_BE_CALLBACKS σ G) (w : World σ G)
    (pt : G) : World σ G × LWT_ELEMID :=
  let r := cb.getFaceContainingPoint w.be pt
  ({ w with be := r.1, calls := w.calls ++ [BeCall.getFaceContainingPoint pt r.2] },
    r.2)

def lwt_be_updateTopoGeomEdgeSplit (cb : LWT_BE_CALLBACKS σ G) (w : World σ G)
    (split_edge new_edge1 new_edge2 : LWT_ELEMID) : World σ G × Int :=
  let r := cb.updateTopoGeomEdgeSplit w.be split_edge new_edge1 new_edge2
  ({ w with be := r.1
            calls := w.calls ++
              [BeCall.updateTopoGeomEdgeSplit split_edge new_edge1 new_edge2
                r.2] },
    r.2)

/-- The variable `exists` starts at 0, is handed to the distance query with
distance 0, field mask 0 and limit -1, and is returned as the query left it. -/
def lwt_be_ExistsCoincidentNode (cb : LWT_BE_CALLBACKS σ G) (w : World σ G)
    (pt : G) : World σ G × Int :=
  let r := lwt_be_getNodeWithinDistance2D cb w pt 0 0 0 (-1)
  (r.1, r.2.2)

def lwt_be_ExistsEdgeIntersectingPoint (cb : LWT_BE_CALLBACKS σ G)
    (w : World σ G) (pt : G) : World σ G × Int :=
  let r := lwt_be_getEdgeWithinDistance2D cb w pt 0 0 0 (-1)
  (r.1, r.2.2)

/-! ## lwt_AddIsoNode -/

/-- Lines 272-283 of `lwt_AddIsoNode`: build the node record, insert it, return
the identifier found in the record after the insert. -/
def lwt_AddIsoNode_insert (cb : LWT_BE_CALLBACKS σ G) (w : World σ G)
    (face : LWT_ELEMID) (pt : G) : World σ G × LWT_ELEMID :=
  let node : LWT_ISO_NODE G := { node_id := -1, containing_face := face, geom := pt }
  let r := lwt_be_insertNodes cb w node 1
  if r.2.2 = 0 then
    let m := lwt_be_lastErrorMessage cb r.1
    (lwerror m.1 "Backend error: %s" [ErrArg.str m.2], -1)
  else
    (r.1, r.2.1.node_id)

/-- Lines 263-270 of `lwt_AddIsoNode`: default the face, or validate it. -/
def lwt_AddIsoNode_validate (cb : LWT_BE_CALLBACKS σ G) (w : World σ G)
    (face : LWT_ELEMID) (pt : G) (skipISOChecks : Int)
    (foundInFace : LWT_ELEMID) : World σ G × LWT_ELEMID :=
  if face = -1 then
    lwt_AddIsoNode_insert cb w foundInFace pt
  else if skipISOChecks = 0 ∧ foundInFace ≠ face then
    (lwerror w "SQL/MM Spatial exception - within face % (not %)"
      [ErrArg.int foundInFace, ErrArg.int face], -1)
  else
    lwt_AddIsoNode_insert cb w face pt

/-- Lines 250-261 of `lwt_AddIsoNode`: resolve the containing face when the
face is unspecified or checks are enabled; `foundInFace` stays -1 otherwise. -/
def lwt_AddIsoNode_face (cb : LWT_BE_CALLBACKS σ G) (w : World σ G)
    (face : LWT_ELEMID) (pt : G) (skipISOChecks : Int) :
    World σ G × LWT_ELEMID :=
  if face = -1 ∨ skipISOChecks = 0 then
    let r := lwt_be_getFaceContainingPoint cb w pt
    if r.2 = -2 then
      let m := lwt_be_lastErrorMessage cb r.1
      (lwerror m.1 "Backend error: %s" [ErrArg.str m.2], -1)
    else if r.2 = -1 then
      (lwerror r.1 "SQL/MM Spatial exception - edge crosses node" [], -1)
    else
      lwt_AddIsoNode_validate cb r.1 face pt skipISOChecks r.2
  else
    lwt_AddIsoNode_validate cb w face pt skipISOChecks (-1)

/-- The operation `lwt_AddIsoNode(topo, face, pt, skipISOChecks)`: the world
after it and the value it returns. -/
def lwt_AddIsoNode (cb : LWT_BE_CALLBACKS σ G) (w : World σ G)
    (face : LWT_ELEMID) (pt : G) (skipISOChecks : Int) :
    World σ G × LWT_ELEMID :=
  if skipISOChecks = 0 then
    let c := lwt_be_ExistsCoincidentNode cb w pt
    if c.2 ≠ 0 then
      (lwerror c.1 "SQL/MM Spatial exception - coincident node" [], -1)
    else
      let e := lwt_be_ExistsEdgeIntersectingPoint cb c.1 pt
      if e.2 ≠ 0 then
        (lwerror e.1 "SQL/MM Spatial exception - edge crosses node" [], -1)
      else
        lwt_AddIsoNode_face cb e.1 face pt skipISOChecks
  else
    lwt_AddIsoNode_face cb w face pt skipISOChecks

/-! ## lwt_ModEdgeSplit -/

/-- The contents of the automatic variables `seledge`, `updedge` and `excedge`
of `lwt_ModEdgeSplit` on entry: they are declared without initialiser, so
their fields hold whatever they hold until the code assigns them. -/
structure Locals (G : Type) where
  seledge : LWT_ISO_EDGE G
  updedge : LWT_ISO_EDGE G
  excedge : LWT_ISO_EDGE G

/-- Lines 461-473 of `lwt_ModEdgeSplit`: notify the composition of
TopoGeometries, return the new node id. -/
def lwt_ModEdgeSplit_notify (cb : LWT_BE_CALLBACKS σ G) (w : World σ G)
    (oldedge newedge1 : LWT_ISO_EDGE G) (node : LWT_ISO_NODE G) :
    World σ G × Outcome :=
  let r := lwt_be_updateTopoGeomEdgeSplit cb w oldedge.edge_id
    newedge1.edge_id (-1)
  if r.2 = 0 then
    let m := lwt_be_lastErrorMessage cb r.1
    (lwerror m.1 "Backend error: %s" [ErrArg.str m.2], Outcome.ret (-1))
  else
    (r.1, Outcome.ret node.node_id)

/-- Lines 432-459 of `lwt_ModEdgeSplit`: the two updates of the next-edge
references. `updedge` arrives as the update of the old edge left it. -/
def lwt_ModEdgeSplit_relink (cb : LWT_BE_CALLBACKS σ G) (w : World σ G)
    (loc : Locals G) (oldedge newedge1 : LWT_ISO_EDGE G)
    (node : LWT_ISO_NODE G) (updedge : LWT_ISO_EDGE G) :
    World σ G × Outcome :=
  let updedge := { updedge with next_right := -newedge1.edge_id }
  let excedge := { loc.excedge with edge_id := newedge1.edge_id }
  let seledge := { loc.seledge with next_right := -oldedge.edge_id }
  let seledge := { seledge with start_node := oldedge.end_node }
  let r := lwt_be_updateEdges cb w
    seledge (LWT_COL_EDGE_NEXT_RIGHT ||| LWT_COL_EDGE_START_NODE)
    updedge LWT_COL_EDGE_NEXT_RIGHT
    (some excedge) LWT_COL_EDGE_EDGE_ID
  if r.2 = -1 then
    let m := lwt_be_lastErrorMessage cb r.1
    (lwerror m.1 "Backend error: %s" [ErrArg.str m.2], Outcome.ret (-1))
  else
    let updedge := { updedge with next_left := -newedge1.edge_id }
    let excedge := { excedge with edge_id := newedge1.edge_id }
    let seledge := { seledge with next_left := -oldedge.edge_id }
    let seledge := { seledge with end_node := oldedge.end_node }
    let r2 := lwt_be_updateEdges cb r.1
      seledge (LWT_COL_EDGE_NEXT_LEFT ||| LWT_COL_EDGE_END_NODE)
      updedge LWT_COL_EDGE_NEXT_LEFT
      (some excedge) LWT_COL_EDGE_EDGE_ID
    if r2.2 = -1 then
      let m := lwt_be_lastErrorMessage cb r2.1
      (lwerror m.1 "Backend error: %s" [ErrArg.str m.2], Outcome.ret (-1))
    else
      lwt_ModEdgeSplit_notify cb r2.1 oldedge newedge1 node

/-- Lines 407-430 of `lwt_ModEdgeSplit`: update the old edge in place. -/
def lwt_ModEdgeSplit_updateOld (cb : LWT_BE_CALLBACKS σ G) (geo : GeomOps G)
    (w : World σ G) (loc : Locals G) (oldedge newedge1 : LWT_ISO_EDGE G)
    (node : LWT_ISO_NODE G) (oldedge_geom : G) : World σ G × Outcome :=
  match geo.lwgeom_as_lwline oldedge_geom with
  | none =>
    (lwerror w "second geometry in lwgeom_split output is not a line" [],
      Outcome.ret (-1))
  | some line =>
    let updedge := { loc.updedge with geom := line }
    let updedge := { updedge with next_left := newedge1.edge_id }
    let updedge := { updedge with end_node := node.node_id }
    let r := lwt_be_updateEdges cb w
      oldedge LWT_COL_EDGE_EDGE_ID
      updedge (LWT_COL_EDGE_GEOM ||| LWT_COL_EDGE_NEXT_LEFT ||| LWT_COL_EDGE_END_NODE)
      none 0
    if r.2 = -1 then
      let m := lwt_be_lastErrorMessage cb r.1
      (lwerror m.1 "Backend error: %s" [ErrArg.str m.2], Outcome.ret (-1))
    else if r.2 = 0 then
      (lwerror r.1 "Edge being splitted (%d) disappeared during operations?"
        [ErrArg.int oldedge.edge_id], Outcome.ret (-1))
    else if r.2 > 1 then
      (lwerror r.1 "More than a single edge found with id %d !"
        [ErrArg.int oldedge.edge_id], Outcome.ret (-1))
    else
      lwt_ModEdgeSplit_relink cb r.1 loc oldedge newedge1 node updedge

/-- Lines 376-405 of `lwt_ModEdgeSplit`: allocate the new edge id, fill the
new edge record, insert it. -/
def lwt_ModEdgeSplit_insertEdge (cb : LWT_BE_CALLBACKS σ G) (geo : GeomOps G)
    (w : World σ G) (loc : Locals G) (oldedge : LWT_ISO_EDGE G)
    (node : LWT_ISO_NODE G) (oldedge_geom newedge_geom : G) :
    World σ G × Outcome :=
  let n := lwt_be_getNextEdgeId cb w
  if n.2 = -1 then
    let m := lwt_be_lastErrorMessage cb n.1
    (lwerror m.1 "Backend error: %s" [ErrArg.str m.2], Outcome.ret (-1))
  else
    match geo.lwgeom_as_lwline newedge_geom with
    | none =>
      (lwerror n.1 "first geometry in lwgeom_split output is not a line" [],
        Outcome.ret (-1))
    | some line =>
      let newedge1 : LWT_ISO_EDGE G :=
        { edge_id := n.2
          start_node := node.node_id
          end_node := oldedge.end_node
          face_left := oldedge.face_left
          face_right := oldedge.face_right
          next_left :=
            if oldedge.next_left = -oldedge.edge_id then -n.2
            else oldedge.next_left
          next_right := -oldedge.edge_id
          geom := line }
      let r := lwt_be_insertEdges cb n.1 newedge1 1
      if r.2.2 = -1 then
        let m := lwt_be_lastErrorMessage cb r.1
        (lwerror m.1 "Backend error: %s" [ErrArg.str m.2], Outcome.ret (-1))
      else if r.2.2 = 0 then
        (lwerror r.1 "Insertion of split edge failed (no reason)" [],
          Outcome.ret (-1))
      else
        lwt_ModEdgeSplit_updateOld cb geo r.1 loc oldedge r.2.1 node
          oldedge_geom

/-- Lines 360-374 of `lwt_ModEdgeSplit`: add the new node, getting its id
back. -/
def lwt_ModEdgeSplit_addNode (cb : LWT_BE_CALLBACKS σ G) (geo : GeomOps G)
    (w : World σ G) (loc : Locals G) (oldedge : LWT_ISO_EDGE G) (pt : G)
    (oldedge_geom newedge_geom : G) : World σ G × Outcome :=
  let node : LWT_ISO_NODE G :=
    { node_id := -1, containing_face := -1, geom := pt }
  let r := lwt_be_insertNodes cb w node 1
  if r.2.2 = 0 then
    let m := lwt_be_lastErrorMessage cb r.1
    (lwerror m.1 "Backend error: %s" [ErrArg.str m.2], Outcome.ret (-1))
  else if r.2.1.node_id = -1 then
    (lwerror r.1
      "Backend coding error: insertNodes callback did not return node_id" [],
      Outcome.ret (-1))
  else
    lwt_ModEdgeSplit_insertEdge cb geo r.1 loc oldedge r.2.1
      oldedge_geom newedge_geom

/-- Lines 340-358 of `lwt_ModEdgeSplit`: split the edge by the point. The
expression `oldedge->geom` reads through `oldedge`, which is NULL when the
fetch returned no row and the code fell through. -/
def lwt_ModEdgeSplit_split (cb : LWT_BE_CALLBACKS σ G) (geo : GeomOps G)
    (w : World σ G) (loc : Locals G) (oldedge : Option (LWT_ISO_EDGE G))
    (pt : G) : World σ G × Outcome :=
  match oldedge with
  | none => (w, Outcome.nullDeref)
  | some oldedge =>
    match geo.lwgeom_split oldedge.geom pt with
    | none => (lwerror w "could not split edge by point ?" [], Outcome.ret (-1))
    | some split =>
      match geo.lwgeom_as_lwcollection split with
      | none =>
        (lwerror w "lwgeom_as_lwcollection returned NULL" [], Outcome.ret (-1))
      | some split_col =>
        match split_col with
        | oldedge_geom :: newedge_geom :: _ =>
          lwt_ModEdgeSplit_addNode cb geo w loc oldedge pt
            oldedge_geom newedge_geom
        | _ =>
          (lwerror w "SQL/MM Spatial exception - point not on edge" [],
            Outcome.ret (-1))

/-- Lines 325-338 of `lwt_ModEdgeSplit`: the coincident node check. -/
def lwt_ModEdgeSplit_checks (cb : LWT_BE_CALLBACKS σ G) (geo : GeomOps G)
    (w : World σ G) (loc : Locals G) (oldedge : Option (LWT_ISO_EDGE G))
    (pt : G) (skipISOChecks : Int) : World σ G × Outcome :=
  if skipISOChecks = 0 then
    let c := lwt_be_ExistsCoincidentNode cb w pt
    if c.2 ≠ 0 then
      (lwerror c.1 "SQL/MM Spatial exception - coincident node" [],
        Outcome.ret (-1))
    else
      lwt_ModEdgeSplit_split cb geo c.1 loc oldedge pt
  else
    lwt_ModEdgeSplit_split cb geo w loc oldedge pt

/-- The operation `lwt_ModEdgeSplit(topo, edge, pt, skipISOChecks)`: the
world after it and how it ends. Lines 297-322 fetch the edge; the last branch
of the NULL case raises its message and has no `return`, so control goes on
to the coincident node check with `oldedge` NULL. -/
def lwt_ModEdgeSplit (cb : LWT_BE_CALLBACKS σ G) (geo : GeomOps G)
    (w : World σ G) (loc : Locals G) (edge : LWT_ELEMID) (pt : G)
    (skipISOChecks : Int) : World σ G × Outcome :=
  let r := lwt_be_getEdgeById cb w [edge] 1 LWT_COL_EDGE_ALL
  match r.2.1 with
  | none =>
    if r.2.2 = -1 then
      let m := lwt_be_lastErrorMessage cb r.1
      (lwerror m.1 "Backend error: %s" [ErrArg.str m.2], Outcome.ret (-1))
    else if r.2.2 = 0 then
      (lwerror r.1 "SQL/MM Spatial exception - non-existent edge" [],
        Outcome.ret (-1))
    else
      let w1 := lwerror r.1
        ("Backend coding error: getEdgeById callback returned NULL " ++
         "but numelements output parameter has value %d " ++
         "(expected 0 or 1)") [ErrArg.int r.2.2]
      lwt_ModEdgeSplit_checks cb geo w1 loc none pt skipISOChecks
  | some oldedge =>
    lwt_ModEdgeSplit_checks cb geo r.1 loc (some oldedge) pt skipISOChecks

end Engine

/-! ## Reading a call log -/

/-- Whether a logged call is a call of `insertNodes`. -/
def BeCall.isInsertNodes {G : Type} : BeCall G → Bool
  | BeCall.insertNodes _ _ _ _ => true
  | _ => false

/-- Whether a logged call is one of the mutating callbacks: `insertNodes`,
`insertEdges`, `updateEdges`, `updateTopoGeomEdgeSplit`. -/
def BeCall.isMutation {G : Type} : BeCall G → Bool
  | BeCall.insertNodes _ _ _ _ => true
  | BeCall.insertEdges _ _ _ _ => true
  | BeCall.updateEdges _ _ _ _ _ _ _ => true
  | BeCall.updateTopoGeomEdgeSplit _ _ _ _ => true
  | _ => false

/-- The number of `insertNodes` calls in a log. -/
def insertNodesCalls {G : Type} (calls : List (BeCall G)) : Nat :=
  calls.countP BeCall.isInsertNodes

/-- The number of mutating calls in a log. -/
def mutationCalls {G : Type} (calls : List (BeCall G)) : Nat :=
  calls.countP BeCall.isMutation

/-! ## A reference backend -/

/-- Modelled from the spec: backend implementations are not among the sources.
The store of the reference backend: the node and edge tables and the next
identifiers it hands out. -/
structure RefStore (G : Type) where
  nodes : List (LWT_ISO_NODE G)
  edges : List (LWT_ISO_EDGE G)
  next_node_id : LWT_ELEMID
  next_edge_id : LWT_ELEMID
deriving DecidableEq, Repr

/-- Modelled from the spec: the geometric answers the reference backend needs,
which the spec leaves to the backend: whether a point lies within a distance
of a geometry, and the face that contains a point. -/
structure RefGeom (G : Type) where
  dwithin : G → G → Int → Bool
  face : G → LWT_ELEMID

/-- Modelled from the spec: a row matches a record under a mask when it agrees
with the record on every masked column. -/
def edgeMatches {G : Type} [DecidableEq G] (r : LWT_ISO_EDGE G)
    (fields : EdgeFields) (row : LWT_ISO_EDGE G) : Bool :=
  (!fields.edge_id || decide (row.edge_id = r.edge_id)) &&
  (!fields.start_node || decide (row.start_node = r.start_node)) &&
  (!fields.end_node || decide (row.end_node = r.end_node)) &&
  (!fields.face_left || decide (row.face_left = r.face_left)) &&
  (!fields.face_right || decide (row.face_right = r.face_right)) &&
  (!fields.next_left || decide (row.next_left = r.next_left)) &&
  (!fields.next_right || decide (row.next_right = r.next_right)) &&
  (!fields.geom || decide (row.geom = r.geom))

/-- Modelled from the spec: applying only the masked fields of the update
record to a row. -/
def edgeApply {G : Type} (upd : LWT_ISO_EDGE G) (fields : EdgeFields)
    (row : LWT_ISO_EDGE G) : LWT_ISO_EDGE G :=
  { edge_id := if fields.edge_id then upd.edge_id else row.edge_id
    start_node := if fields.start_node then upd.start_node else row.start_node
    end_node := if fields.end_node then upd.end_node else row.end_node
    face_left := if fields.face_left then upd.face_left else row.face_left
    face_right := if fields.face_right then upd.face_right else row.face_right
    next_left := if fields.next_left then upd.next_left else row.next_left
    next_right := if fields.next_right then upd.next_right else row.next_right
    geom := if fields.geom then upd.geom else row.geom }

/-- Modelled from the spec: the rows the conditional update touches: those
matching the selector and not matching the exclusion (no exclusion record, no
exclusion). -/
def edgeSelected {G : Type} [DecidableEq G]
    (sel : LWT_ISO_EDGE G) (sel_fields : EdgeFields)
    (exc : Option (LWT_ISO_EDGE G)) (exc_fields : EdgeFields)
    (row : LWT_ISO_EDGE G) : Bool :=
  edgeMatches sel sel_fields row &&
  !(match exc with
    | some x => edgeMatches x exc_fields row
    | none => false)

/-- Modelled from the spec: what the conditional update makes of one row: a
row that is selected gets the masked fields of the update record, any other
row stays as it is. -/
def updateEdgeRow {G : Type} [DecidableEq G]
    (sel : LWT_ISO_EDGE G) (sel_fields : EdgeFields)
    (upd : LWT_ISO_EDGE G) (upd_fields : EdgeFields)
    (exc : Option (LWT_ISO_EDGE G)) (exc_fields : EdgeFields)
    (row : LWT_ISO_EDGE G) : LWT_ISO_EDGE G :=
  if edgeSelected sel sel_fields exc exc_fields row
  then edgeApply upd upd_fields row else row

/-- Modelled from the spec: the conditional update over an edge table: every
row matching the selector and not matching the exclusion gets the masked
fields of the update record; the count of updated rows is returned. -/
def updateEdgesRows {G : Type} [DecidableEq G] (rows : List (LWT_ISO_EDGE G))
    (sel : LWT_ISO_EDGE G) (sel_fields : EdgeFields)
    (upd : LWT_ISO_EDGE G) (upd_fields : EdgeFields)
    (exc : Option (LWT_ISO_EDGE G)) (exc_fields : EdgeFields) :
    List (LWT_ISO_EDGE G) × Int :=
  (rows.map (updateEdgeRow sel sel_fields upd upd_fields exc exc_fields),
    ((rows.filter (edgeSelected sel sel_fields exc exc_fields)).length : Int))

/-- Modelled from the spec: the reference backend. It answers distance queries
from its tables, stores what is inserted (assigning the next node id to a node
that comes without one), hands out edge ids from a counter, fetches an edge by
id, applies the conditional update as specified, and accepts the edge split
notification. -/
def refBackend {G : Type} [DecidableEq G] (geo : RefGeom G) :
    LWT_BE_CALLBACKS (RefStore G) G where
  lastErrorMessage := fun _ => ""
  getNodeWithinDistance2D := fun s pt dist _ _ _ =>
    let rows := s.nodes.filter (fun n => geo.dwithin pt n.geom dist)
    (s, rows, (rows.length : Int))
  insertNodes := fun s node _ =>
    let stored : LWT_ISO_NODE G :=
      if node.node_id = -1 then { node with node_id := s.next_node_id } else node
    ({ s with nodes := s.nodes ++ [stored], next_node_id := s.next_node_id + 1 },
      stored, 1)
  getNextEdgeId := fun s =>
    ({ s with next_edge_id := s.next_edge_id + 1 }, s.next_edge_id)
  getEdgeById := fun s ids _ _ =>
    match s.edges.find? (fun e => decide (e.edge_id ∈ ids)) with
    | some e => (s, some e, 1)
    | none => (s, none, 0)
  getEdgeWithinDistance2D := fun s pt dist _ _ _ =>
    let rows := s.edges.filter (fun e => geo.dwithin pt e.geom dist)
    (s, rows, (rows.length : Int))
  insertEdges := fun s edge _ =>
    ({ s with edges := s.edges ++ [edge] }, edge, 1)
  updateEdges := fun s sel sel_fields upd upd_fields exc exc_fields =>
    let r := updateEdgesRows s.edges sel sel_fields upd upd_fields exc exc_fields
    ({ s with edges := r.1 }, r.2)
  getFaceContainingPoint := fun s pt => (s, geo.face pt)
  updateTopoGeomEdgeSplit := fun s _ _ _ => (s, 1)

/-- Modelled from the spec: what the spec asks of a backend as far as its
edge table goes, the table being read off the backend state by `edgesOf`:
a fetch by id answers a row of the table with one of the ids asked for; an
accepted insert of an edge that comes with its id appends the record and
leaves it as passed; a conditional update that reports no fault has updated
the table as specified and returns the count; no other callback changes the
table. -/
structure ImplementsEdgeTable {σ G : Type} [DecidableEq G]
    (cb : LWT_BE_CALLBACKS σ G) (edgesOf : σ → List (LWT_ISO_EDGE G)) :
    Prop where
  fetch_row : ∀ s ids n f s1 e k,
    cb.getEdgeById s ids n f = (s1, some e, k) →
      e ∈ edgesOf s ∧ e.edge_id ∈ ids
  fetch_keeps : ∀ s ids n f, edgesOf (cb.getEdgeById s ids n f).1 = edgesOf s
  nodeQuery_keeps : ∀ s pt d n f l,
    edgesOf (cb.getNodeWithinDistance2D s pt d n f l).1 = edgesOf s
  edgeQuery_keeps : ∀ s pt d n f l,
    edgesOf (cb.getEdgeWithinDistance2D s pt d n f l).1 = edgesOf s
  face_keeps : ∀ s pt, edgesOf (cb.getFaceContainingPoint s pt).1 = edgesOf s
  insertNodes_keeps : ∀ s node n,
    edgesOf (cb.insertNodes s node n).1 = edgesOf s
  nextId_keeps : ∀ s, edgesOf (cb.getNextEdgeId s).1 = edgesOf s
  insertEdges_stores : ∀ s e n, e.edge_id ≠ -1 →
    (cb.insertEdges s e n).2.2 ≠ -1 → (cb.insertEdges s e n).2.2 ≠ 0 →
      edgesOf (cb.insertEdges s e n).1 = edgesOf s ++ [e] ∧
      (cb.insertEdges s e n).2.1 = e
  updateEdges_applies : ∀ s sel sf upd uf exc ef,
    (cb.updateEdges s sel sf upd uf exc ef).2 ≠ -1 →
      edgesOf (cb.updateEdges s sel sf upd uf exc ef).1 =
        (updateEdgesRows (edgesOf s) sel sf upd uf exc ef).1 ∧
      (cb.updateEdges s sel sf upd uf exc ef).2 =
        (updateEdgesRows (edgesOf s) sel sf upd uf exc ef).2
  notify_keeps : ∀ s a b c,
    edgesOf (cb.updateTopoGeomEdgeSplit s a b c).1 = edgesOf s

/-! ## A small concrete geometry, for examples -/

/-- Geometries on an integer axis: a point, a segment between two abscissas,
a collection of segments. -/
inductive Geo1 where
  | point (x : Int)
  | segment (a b : Int)
  | coll (segs : List (Int × Int))
deriving DecidableEq, Repr

/-- Splitting a segment at a point strictly inside it gives the two halves;
at any other point it gives the segment back, alone. -/
def geo1Ops : GeomOps Geo1 where
  lwgeom_split := fun g p =>
    match g, p with
    | Geo1.segment a b, Geo1.point x =>
      if a < x ∧ x < b then some (Geo1.coll [(a, x), (x, b)])
      else some (Geo1.coll [(a, b)])
    | _, _ => none
  lwgeom_as_lwcollection := fun g =>
    match g with
    | Geo1.coll segs => some (segs.map (fun ab => Geo1.segment ab.1 ab.2))
    | _ => none
  lwgeom_as_lwline := fun g =>
    match g with
    | Geo1.segment a b => some (Geo1.segment a b)
    | _ => none

/-- A splitter that cuts every segment in three, whatever the point. -/
def geo1Thirds : GeomOps Geo1 :=
  { geo1Ops with
    lwgeom_split := fun g _ =>
      match g with
      | Geo1.segment a b =>
        some (Geo1.coll [(a, a + 1), (a + 1, a + 2), (a + 2, b)])
      | _ => none }

/-- The geometric answers on the integer axis: a point is within distance 0
of a point it equals and of a segment it lies on; every point lies in the
universe face 0. -/
def geo1Ref : RefGeom Geo1 where
  dwithin := fun p g _ =>
    match p, g with
    | Geo1.point x, Geo1.point y => decide (x = y)
    | Geo1.point x, Geo1.segment a b => decide (a ≤ x ∧ x ≤ b)
    | _, _ => false
  face := fun _ => 0

/-- A reference backend whose `insertNodes` declines every insert. -/
def decliningBackend : LWT_BE_CALLBACKS (RefStore Geo1) Geo1 :=
  { refBackend geo1Ref with insertNodes := fun s node _ => (s, node, 0) }

/-- An empty store. -/
def emptyStore : RefStore Geo1 :=
  { nodes := [], edges := [], next_node_id := 1, next_edge_id := 1 }

/-- A store with one node at abscissa 5. -/
def oneNodeStore : RefStore Geo1 :=
  { nodes := [{ node_id := 1, containing_face := 0, geom := Geo1.point 5 }]
    edges := [], next_node_id := 2, next_edge_id := 1 }

/-- A store with two nodes and the edge 1 between them, a segment from 0 to
10 that is alone on both of its sides. -/
def oneEdgeStore : RefStore Geo1 :=
  { nodes := [{ node_id := 1, containing_face := -1, geom := Geo1.point 0 },
              { node_id := 2, containing_face := -1, geom := Geo1.point 10 }]
    edges := [{ edge_id := 1, start_node := 1, end_node := 2, face_left := 0,
                face_right := 0, next_left := -1, next_right := 1,
                geom := Geo1.segment 0 10 }]
    next_node_id := 3, next_edge_id := 2 }

/-- A store with three nodes on a line and two edges: edge 1 from node 1 to
node 2 (a segment from 0 to 10) and edge 2 from node 2 to node 3 (a segment
from 10 to 20). Walking edge 2 backwards leads on to edge 1 backwards, so the
`next_right` of edge 2 is -1. -/
def twoEdgeStore : RefStore Geo1 :=
  { nodes := [{ node_id := 1, containing_face := -1, geom := Geo1.point 0 },
              { node_id := 2, containing_face := -1, geom := Geo1.point 10 },
              { node_id := 3, containing_face := -1, geom := Geo1.point 20 }]
    edges := [{ edge_id := 1, start_node := 1, end_node := 2, face_left := 0,
                face_right := 0, next_left := 2, next_right := 1,
                geom := Geo1.segment 0 10 },
              { edge_id := 2, start_node := 2, end_node := 3, face_left := 0,
                face_right := 0, next_left := -2, next_right := -1,
                geom := Geo1.segment 10 20 }]
    next_node_id := 4, next_edge_id := 3 }

/-- Some contents for the uninitialised locals of `lwt_ModEdgeSplit`. -/
def someLocals : Locals Geo1 :=
  let e : LWT_ISO_EDGE Geo1 :=
    { edge_id := 77, start_node := 77, end_node := 77, face_left := 77,
      face_right := 77, next_left := 77, next_right := 77,
      geom := Geo1.point 77 }
  { seledge := e, updedge := e, excedge := e }

/-! ## Outcomes of lwt_AddIsoNode -/


/-- The two ways a run of `lwt_AddIsoNode`, or of the rest of it, that starts
in world `w` can end in `r`, as far as `insertNodes` is concerned: nothing
raised and one more `insertNodes` call; or -1 returned and one message `e`
raised, with no further `insertNodes` call, or with one that answered 0 and
`e` the backend error. -/
def AddIsoNodeEnds {σ G : Type} (w : World σ G) (r : World σ G × LWT_ELEMID) :
    Prop :=
  (r.1.errors = w.errors ∧
    insertNodesCalls r.1.calls = insertNodesCalls w.calls + 1) ∨
  (r.2 = -1 ∧ ∃ e, r.1.errors = w.errors ++ [e] ∧
    (insertNodesCalls r.1.calls = insertNodesCalls w.calls ∨
     (insertNodesCalls r.1.calls = insertNodesCalls w.calls + 1 ∧
      ∃ node out msg, BeCall.insertNodes node 1 out 0 ∈ r.1.calls ∧
        e = ⟨"Backend error: %s", [ErrArg.str msg]⟩)))

/-! ## The successful run of lwt_ModEdgeSplit -/

/-- The values a run of `lwt_ModEdgeSplit` that raises nothing goes through:
the backend state after each call and what each call answered, and the pieces
of the split. -/
structure SplitRun (σ G : Type) where
  s_fetch : σ
  oldedge : LWT_ISO_EDGE G
  fetched : Int
  s_check : σ
  node_rows : List (LWT_ISO_NODE G)
  split : G
  oldedge_geom : G
  newedge_geom : G
  others : List G
  s_node : σ
  node : LWT_ISO_NODE G
  node_ret : Int
  s_id : σ
  new_id : LWT_ELEMID
  new_line : G
  s_ins : σ
  newedge1 : LWT_ISO_EDGE G
  ins_ret : Int
  old_line : G
  s_upd : σ
  upd_ret : Int
  s_right : σ
  right_ret : Int
  s_left : σ
  left_ret : Int
  s_final : σ
  notify_ret : Int

section SplitRunDefs

variable {σ G : Type}

/-- The record `newedge1` as lines 377-390 fill it, before the insert. -/
def SplitRun.newedge0 (t : SplitRun σ G) : LWT_ISO_EDGE G :=
  { edge_id := t.new_id
    start_node := t.node.node_id
    end_node := t.oldedge.end_node
    face_left := t.oldedge.face_left
    face_right := t.oldedge.face_right
    next_left :=
      if t.oldedge.next_left = -t.oldedge.edge_id then -t.new_id
      else t.oldedge.next_left
    next_right := -t.oldedge.edge_id
    geom := t.new_line }

/-- The record `updedge` at the update of the old edge (lines 408-416). -/
def SplitRun.updedge1 (t : SplitRun σ G) (loc : Locals G) : LWT_ISO_EDGE G :=
  { loc.updedge with
    geom := t.old_line
    next_left := t.newedge1.edge_id
    end_node := t.node.node_id }

/-- The record `updedge` at the first re-pointing update (line 434). -/
def SplitRun.updedge2 (t : SplitRun σ G) (loc : Locals G) : LWT_ISO_EDGE G :=
  { t.updedge1 loc with next_right := -t.newedge1.edge_id }

/-- The record `updedge` at the second re-pointing update (line 447). -/
def SplitRun.updedge3 (t : SplitRun σ G) (loc : Locals G) : LWT_ISO_EDGE G :=
  { t.updedge2 loc with next_left := -t.newedge1.edge_id }

/-- The record `excedge` at both re-pointing updates (lines 435, 448). -/
def SplitRun.excedge (t : SplitRun σ G) (loc : Locals G) : LWT_ISO_EDGE G :=
  { loc.excedge with edge_id := t.newedge1.edge_id }

/-- The record `seledge` at the first re-pointing update (lines 436-437). -/
def SplitRun.seledge2 (t : SplitRun σ G) (loc : Locals G) : LWT_ISO_EDGE G :=
  { loc.seledge with
    next_right := -t.oldedge.edge_id
    start_node := t.oldedge.end_node }

/-- The record `seledge` at the second re-pointing update (lines 449-450). -/
def SplitRun.seledge3 (t : SplitRun σ G) (loc : Locals G) : LWT_ISO_EDGE G :=
  { t.seledge2 loc with
    next_left := -t.oldedge.edge_id
    end_node := t.oldedge.end_node }

/-- The reading part of a run on backend state `s` (lines 297-358): the edge
is fetched, the coincident node query, when made, reports 0, and the split
has at least two members. -/
def SplitRun.Reads (t : SplitRun σ G) (cb : LWT_BE_CALLBACKS σ G)
    (geo : GeomOps G) (s : σ) (edge : LWT_ELEMID) (pt : G)
    (skipISOChecks : Int) : Prop :=
  cb.getEdgeById s [edge] 1 LWT_COL_EDGE_ALL
    = (t.s_fetch, some t.oldedge, t.fetched) ∧
  (if skipISOChecks = 0 then
    cb.getNodeWithinDistance2D t.s_fetch pt 0 0 0 (-1)
      = (t.s_check, t.node_rows, 0)
   else t.s_check = t.s_fetch) ∧
  geo.lwgeom_split t.oldedge.geom pt = some t.split ∧
  geo.lwgeom_as_lwcollection t.split
    = some (t.oldedge_geom :: t.newedge_geom :: t.others)

/-- The writing part of a run (lines 360-473), from backend state `t.s_check`
on: each call answers what `t` records, from the state the previous call
left, and every test on the way passes. -/
def SplitRun.Writes (t : SplitRun σ G) (cb : LWT_BE_CALLBACKS σ G)
    (geo : GeomOps G) (loc : Locals G) (pt : G) : Prop :=
  cb.insertNodes t.s_check ⟨-1, -1, pt⟩ 1 = (t.s_node, t.node, t.node_ret) ∧
  t.node_ret ≠ 0 ∧ t.node.node_id ≠ -1 ∧
  cb.getNextEdgeId t.s_node = (t.s_id, t.new_id) ∧ t.new_id ≠ -1 ∧
  geo.lwgeom_as_lwline t.newedge_geom = some t.new_line ∧
  cb.insertEdges t.s_id t.newedge0 1 = (t.s_ins, t.newedge1, t.ins_ret) ∧
  t.ins_ret ≠ -1 ∧ t.ins_ret ≠ 0 ∧
  geo.lwgeom_as_lwline t.oldedge_geom = some t.old_line ∧
  cb.updateEdges t.s_ins t.oldedge LWT_COL_EDGE_EDGE_ID (t.updedge1 loc)
      (LWT_COL_EDGE_GEOM ||| LWT_COL_EDGE_NEXT_LEFT ||| LWT_COL_EDGE_END_NODE)
      none 0
    = (t.s_upd, t.upd_ret) ∧
  t.upd_ret ≠ -1 ∧ t.upd_ret ≠ 0 ∧ ¬ t.upd_ret > 1 ∧
  cb.updateEdges t.s_upd (t.seledge2 loc)
      (LWT_COL_EDGE_NEXT_RIGHT ||| LWT_COL_EDGE_START_NODE) (t.updedge2 loc)
      LWT_COL_EDGE_NEXT_RIGHT (some (t.excedge loc)) LWT_COL_EDGE_EDGE_ID
    = (t.s_right, t.right_ret) ∧
  t.right_ret ≠ -1 ∧
  cb.updateEdges t.s_right (t.seledge3 loc)
      (LWT_COL_EDGE_NEXT_LEFT ||| LWT_COL_EDGE_END_NODE) (t.updedge3 loc)
      LWT_COL_EDGE_NEXT_LEFT (some (t.excedge loc)) LWT_COL_EDGE_EDGE_ID
    = (t.s_left, t.left_ret) ∧
  t.left_ret ≠ -1 ∧
  cb.updateTopoGeomEdgeSplit t.s_left t.oldedge.edge_id t.newedge1.edge_id (-1)
    = (t.s_final, t.notify_ret) ∧
  t.notify_ret ≠ 0

/-- The values of `t` are those of a run on backend state `s` that raises
nothing. -/
def SplitRun.Follows (t : SplitRun σ G) (cb : LWT_BE_CALLBACKS σ G)
    (geo : GeomOps G) (s : σ) (loc : Locals G) (edge : LWT_ELEMID) (pt : G)
    (skipISOChecks : Int) : Prop :=
  t.Reads cb geo s edge pt skipISOChecks ∧ t.Writes cb geo loc pt

/-- The backend calls of the reading part of the run `t`, in order. -/
def SplitRun.readCalls (t : SplitRun σ G) (edge : LWT_ELEMID) (pt : G)
    (skipISOChecks : Int) : List (BeCall G) :=
  [BeCall.getEdgeById [edge] 1 LWT_COL_EDGE_ALL (some t.oldedge) t.fetched] ++
  (if skipISOChecks = 0 then
    [BeCall.getNodeWithinDistance2D pt 0 0 0 (-1) t.node_rows 0]
   else [])

/-- The backend calls of the writing part of the run `t`, in order. -/
def SplitRun.writeCalls (t : SplitRun σ G) (loc : Locals G) (pt : G) :
    List (BeCall G) :=
  [BeCall.insertNodes ⟨-1, -1, pt⟩ 1 t.node t.node_ret,
   BeCall.getNextEdgeId t.new_id,
   BeCall.insertEdges t.newedge0 1 t.newedge1 t.ins_ret,
   BeCall.updateEdges t.oldedge LWT_COL_EDGE_EDGE_ID (t.updedge1 loc)
     (LWT_COL_EDGE_GEOM ||| LWT_COL_EDGE_NEXT_LEFT ||| LWT_COL_EDGE_END_NODE)
     none 0 t.upd_ret,
   BeCall.updateEdges (t.seledge2 loc)
     (LWT_COL_EDGE_NEXT_RIGHT ||| LWT_COL_EDGE_START_NODE) (t.updedge2 loc)
     LWT_COL_EDGE_NEXT_RIGHT (some (t.excedge loc)) LWT_COL_EDGE_EDGE_ID
     t.right_ret,
   BeCall.updateEdges (t.seledge3 loc)
     (LWT_COL_EDGE_NEXT_LEFT ||| LWT_COL_EDGE_END_NODE) (t.updedge3 loc)
     LWT_COL_EDGE_NEXT_LEFT (some (t.excedge loc)) LWT_COL_EDGE_EDGE_ID
     t.left_ret,
   BeCall.updateTopoGeomEdgeSplit t.oldedge.edge_id t.newedge1.edge_id (-1)
     t.notify_ret]

/-- The backend calls of the run `t`, in order. -/
def SplitRun.calls (t : SplitRun σ G) (loc : Locals G) (edge : LWT_ELEMID)
    (pt : G) (skipISOChecks : Int) : List (BeCall G) :=
  t.readCalls edge pt skipISOChecks ++ t.writeCalls loc pt

/-- What the three conditional updates of the run `t` (lines 417, 438, 451),
applied as specified one after the other, make of one row of the edge
table. -/
def SplitRun.rowAfter [DecidableEq G] (t : SplitRun σ G) (loc : Locals G)
    (row : LWT_ISO_EDGE G) : LWT_ISO_EDGE G :=
  updateEdgeRow (t.seledge3 loc)
    (LWT_COL_EDGE_NEXT_LEFT ||| LWT_COL_EDGE_END_NODE) (t.updedge3 loc)
    LWT_COL_EDGE_NEXT_LEFT (some (t.excedge loc)) LWT_COL_EDGE_EDGE_ID
    (updateEdgeRow (t.seledge2 loc)
      (LWT_COL_EDGE_NEXT_RIGHT ||| LWT_COL_EDGE_START_NODE) (t.updedge2 loc)
      LWT_COL_EDGE_NEXT_RIGHT (some (t.excedge loc)) LWT_COL_EDGE_EDGE_ID
      (updateEdgeRow t.oldedge LWT_COL_EDGE_EDGE_ID (t.updedge1 loc)
        (LWT_COL_EDGE_GEOM ||| LWT_COL_EDGE_NEXT_LEFT ||| LWT_COL_EDGE_END_NODE)
        none 0 row))

end SplitRunDefs

/-! ## References between edges -/

/-- The reference `ref` resolves in the table: its magnitude is the
`edge_id` of a row. -/
def RefResolves {G : Type} (table : List (LWT_ISO_EDGE G)) (ref : LWT_ELEMID) :
    Prop :=
  ∃ e ∈ table, e.edge_id = (ref.natAbs : Int)

/-- Every `next_left` and `next_right` of the table resolves in the table. -/
def ReferencesResolve {G : Type} (table : List (LWT_ISO_EDGE G)) : Prop :=
  ∀ e ∈ table, RefResolves table e.next_left ∧ RefResolves table e.next_right

/-- The reference `ref` resolves in the table when the sign of the `edge_id`
is left aside too: its magnitude is the magnitude of the `edge_id` of a row.
On a table of positive ids this is `RefResolves`. -/
def RefResolvesAbs {G : Type} (table : List (LWT_ISO_EDGE G))
    (ref : LWT_ELEMID) : Prop :=
  ∃ e ∈ table, e.edge_id.natAbs = ref.natAbs

/-- Every `next_left` and `next_right` of the table resolves in the table,
signs of ids left aside. -/
def ReferencesResolveAbs {G : Type} (table : List (LWT_ISO_EDGE G)) : Prop :=
  ∀ e ∈ table,
    RefResolvesAbs table e.next_left ∧ RefResolvesAbs table e.next_right

/-! ## More backends and stores, for examples -/

/-- The geometric answers of `geo1Ref`, except for the containing face: a
point left of the origin gets the fault sentinel -2, a point right of 100
lies in no face (-1), any other point lies in the universe face 0. -/
def geo1Faulty : RefGeom Geo1 where
  dwithin := geo1Ref.dwithin
  face := fun g =>
    match g with
    | Geo1.point x => if x < 0 then -2 else if 100 < x then -1 else 0
    | _ => 0

/-- A reference backend whose node query reports the error count -1. -/
def failingQueryBackend : LWT_BE_CALLBACKS (RefStore Geo1) Geo1 :=
  { refBackend geo1Ref with
    getNodeWithinDistance2D := fun s _ _ _ _ _ => (s, [], -1) }

/-- A store with three nodes on a line and two edges that meet head on at
node 2: edge 1 from node 1 to node 2 (a segment from 0 to 10) and edge 2 from
node 3 to node 2 (a segment from 10 to 20). Walking either edge forwards leads
on to the other backwards, so the `next_left` of edge 2 is -1. -/
def facingEdgeStore : RefStore Geo1 :=
  { nodes := [{ node_id := 1, containing_face := -1, geom := Geo1.point 0 },
              { node_id := 2, containing_face := -1, geom := Geo1.point 10 },
              { node_id := 3, containing_face := -1, geom := Geo1.point 20 }]
    edges := [{ edge_id := 1, start_node := 1, end_node := 2, face_left := 0,
                face_right := 0, next_left := -2, next_right := 1,
                geom := Geo1.segment 0 10 },
              { edge_id := 2, start_node := 3, end_node := 2, face_left := 0,
                face_right := 0, next_left := -1, next_right := 2,
                geom := Geo1.segment 10 20 }]
    next_node_id := 4, next_edge_id := 3 }

/-! ## Runs that stop on the way -/

/-- Whether a logged call is a call of `updateEdges`. -/
def BeCall.isUpdateEdges {G : Type} : BeCall G → Bool
  | BeCall.updateEdges _ _ _ _ _ _ _ => true
  | _ => false

/-- Whether a logged call is a call of `updateTopoGeomEdgeSplit`. -/
def BeCall.isUpdateTopoGeomEdgeSplit {G : Type} : BeCall G → Bool
  | BeCall.updateTopoGeomEdgeSplit _ _ _ _ => true
  | _ => false

section SplitRunStops

variable {σ G : Type}

/-- The run `t` on backend state `s` gets as far as the update of the old
edge in place (line 417): every step before it passes, and the update answers
what `t` records. Nothing is asked of the answer. -/
def SplitRun.ReachesUpdate (t : SplitRun σ G) (cb : LWT_BE_CALLBACKS σ G)
    (geo : GeomOps G) (s : σ) (loc : Locals G) (edge : LWT_ELEMID) (pt : G)
    (skipISOChecks : Int) : Prop :=
  t.Reads cb geo s edge pt skipISOChecks ∧
  cb.insertNodes t.s_check ⟨-1, -1, pt⟩ 1 = (t.s_node, t.node, t.node_ret) ∧
  t.node_ret ≠ 0 ∧ t.node.node_id ≠ -1 ∧
  cb.getNextEdgeId t.s_node = (t.s_id, t.new_id) ∧ t.new_id ≠ -1 ∧
  geo.lwgeom_as_lwline t.newedge_geom = some t.new_line ∧
  cb.insertEdges t.s_id t.newedge0 1 = (t.s_ins, t.newedge1, t.ins_ret) ∧
  t.ins_ret ≠ -1 ∧ t.ins_ret ≠ 0 ∧
  geo.lwgeom_as_lwline t.oldedge_geom = some t.old_line ∧
  cb.updateEdges t.s_ins t.oldedge LWT_COL_EDGE_EDGE_ID (t.updedge1 loc)
      (LWT_COL_EDGE_GEOM ||| LWT_COL_EDGE_NEXT_LEFT ||| LWT_COL_EDGE_END_NODE)
      none 0
    = (t.s_upd, t.upd_ret)

/-- The run `t` on backend state `s` gets as far as the notification
(line 462): every step before it passes, and the notification answers what
`t` records. Nothing is asked of the answer. -/
def SplitRun.ReachesNotify (t : SplitRun σ G) (cb : LWT_BE_CALLBACKS σ G)
    (geo : GeomOps G) (s : σ) (loc : Locals G) (edge : LWT_ELEMID) (pt : G)
    (skipISOChecks : Int) : Prop :=
  t.ReachesUpdate cb geo s loc edge pt skipISOChecks ∧
  t.upd_ret ≠ -1 ∧ t.upd_ret ≠ 0 ∧ ¬ t.upd_ret > 1 ∧
  cb.updateEdges t.s_upd (t.seledge2 loc)
      (LWT_COL_EDGE_NEXT_RIGHT ||| LWT_COL_EDGE_START_NODE) (t.updedge2 loc)
      LWT_COL_EDGE_NEXT_RIGHT (some (t.excedge loc)) LWT_COL_EDGE_EDGE_ID
    = (t.s_right, t.right_ret) ∧
  t.right_ret ≠ -1 ∧
  cb.updateEdges t.s_right (t.seledge3 loc)
      (LWT_COL_EDGE_NEXT_LEFT ||| LWT_COL_EDGE_END_NODE) (t.updedge3 loc)
      LWT_COL_EDGE_NEXT_LEFT (some (t.excedge loc)) LWT_COL_EDGE_EDGE_ID
    = (t.s_left, t.left_ret) ∧
  t.left_ret ≠ -1 ∧
  cb.updateTopoGeomEdgeSplit t.s_left t.oldedge.edge_id t.newedge1.edge_id (-1)
    = (t.s_final, t.notify_ret)

/-- The backend calls of the run `t` up to the update of the old edge in
place, that call included, in order. -/
def SplitRun.callsToUpdate (t : SplitRun σ G) (loc : Locals G)
    (edge : LWT_ELEMID) (pt : G) (skipISOChecks : Int) : List (BeCall G) :=
  t.readCalls edge pt skipISOChecks ++
  [BeCall.insertNodes ⟨-1, -1, pt⟩ 1 t.node t.node_ret,
   BeCall.getNextEdgeId t.new_id,
   BeCall.insertEdges t.newedge0 1 t.newedge1 t.ins_ret,
   BeCall.updateEdges t.oldedge LWT_COL_EDGE_EDGE_ID (t.updedge1 loc)
     (LWT_COL_EDGE_GEOM ||| LWT_COL_EDGE_NEXT_LEFT ||| LWT_COL_EDGE_END_NODE)
     none 0 t.upd_ret]

/-- The values a run on backend state `s` goes through if every step passes,
computed by asking the callbacks in the order of the code; `E0` and `g0` stand
in where the fetch or a geometry helper answers nothing. Whether the run does
get that far is what `ReachesUpdate`, `ReachesNotify` and `Follows` say of
these values. -/
def SplitRun.trace (cb : LWT_BE_CALLBACKS σ G) (geo : GeomOps G) (s : σ)
    (loc : Locals G) (edge : LWT_ELEMID) (pt : G) (skipISOChecks : Int)
    (E0 : LWT_ISO_EDGE G) (g0 : G) : SplitRun σ G :=
  let f := cb.getEdgeById s [edge] 1 LWT_COL_EDGE_ALL
  let E := f.2.1.getD E0
  let c := cb.getNodeWithinDistance2D f.1 pt 0 0 0 (-1)
  let s_check := if skipISOChecks = 0 then c.1 else f.1
  let split := (geo.lwgeom_split E.geom pt).getD g0
  let col := (geo.lwgeom_as_lwcollection split).getD []
  let n := cb.insertNodes s_check ⟨-1, -1, pt⟩ 1
  let i := cb.getNextEdgeId n.1
  let t0 : SplitRun σ G :=
    { s_fetch := f.1, oldedge := E, fetched := f.2.2, s_check := s_check
      node_rows := c.2.1, split := split
      oldedge_geom := col.headD g0, newedge_geom := col.tail.headD g0
      others := col.drop 2
      s_node := n.1, node := n.2.1, node_ret := n.2.2
      s_id := i.1, new_id := i.2
      new_line := (geo.lwgeom_as_lwline (col.tail.headD g0)).getD g0
      s_ins := i.1, newedge1 := E0, ins_ret := 0
      old_line := (geo.lwgeom_as_lwline (col.headD g0)).getD g0
      s_upd := i.1, upd_ret := 0, s_right := i.1, right_ret := 0
      s_left := i.1, left_ret := 0, s_final := i.1, notify_ret := 0 }
  let e := cb.insertEdges i.1 t0.newedge0 1
  let t1 : SplitRun σ G :=
    { t0 with s_ins := e.1, newedge1 := e.2.1, ins_ret := e.2.2 }
  let u := cb.updateEdges e.1 E LWT_COL_EDGE_EDGE_ID (t1.updedge1 loc)
    (LWT_COL_EDGE_GEOM ||| LWT_COL_EDGE_NEXT_LEFT ||| LWT_COL_EDGE_END_NODE)
    none 0
  let r := cb.updateEdges u.1 (t1.seledge2 loc)
    (LWT_COL_EDGE_NEXT_RIGHT ||| LWT_COL_EDGE_START_NODE) (t1.updedge2 loc)
    LWT_COL_EDGE_NEXT_RIGHT (some (t1.excedge loc)) LWT_COL_EDGE_EDGE_ID
  let l := cb.updateEdges r.1 (t1.seledge3 loc)
    (LWT_COL_EDGE_NEXT_LEFT ||| LWT_COL_EDGE_END_NODE) (t1.updedge3 loc)
    LWT_COL_EDGE_NEXT_LEFT (some (t1.excedge loc)) LWT_COL_EDGE_EDGE_ID
  let m := cb.updateTopoGeomEdgeSplit l.1 E.edge_id t1.newedge1.edge_id (-1)
  { t1 with
    s_upd := u.1, upd_ret := u.2, s_right := r.1, right_ret := r.2
    s_left := l.1, left_ret := l.2, s_final := m.1, notify_ret := m.2 }

end SplitRunStops

/-- A reference backend whose `updateEdges` updates as specified and reports
the count -2 whatever it has updated. -/
def miscountingBackend : LWT_BE_CALLBACKS (RefStore Geo1) Geo1 :=
  { refBackend geo1Ref with
    updateEdges := fun s sel sf upd uf exc ef =>
      (((refBackend geo1Ref).updateEdges s sel sf upd uf exc ef).1, -2) }

/-- A reference backend whose `updateEdges` updates nothing and reports the
count passed at its creation. -/
def idleUpdateBackend (count : Int) : LWT_BE_CALLBACKS (RefStore Geo1) Geo1 :=
  { refBackend geo1Ref with
    updateEdges := fun s _ _ _ _ _ _ => (s, count) }

/-- A reference backend whose `getEdgeById` answers no row and the count 5. -/
def strayCountBackend : LWT_BE_CALLBACKS (RefStore Geo1) Geo1 :=
  { refBackend geo1Ref with
    getEdgeById := fun s _ _ _ => (s, none, 5) }

/-- A reference backend whose `updateTopoGeomEdgeSplit` reports failure. -/
def unnotifiedBackend : LWT_BE_CALLBACKS (RefStore Geo1) Geo1 :=
  { refBackend geo1Ref with
    updateTopoGeomEdgeSplit := fun s _ _ _ => (s, 0) }

/-- The two-edge store with a next edge id that is already taken, by
edge 2. -/
def reusedIdStore : RefStore Geo1 :=
  { twoEdgeStore with next_edge_id := 2 }

/-- The values of the run that splits edge 1 of the one-edge store at
abscissa 4, with checks enabled, over the backend `cb`. -/
def oneEdgeTrace (cb : LWT_BE_CALLBACKS (RefStore Geo1) Geo1) :
    SplitRun (RefStore Geo1) Geo1 :=
  SplitRun.trace cb geo1Ops oneEdgeStore someLocals 1 (Geo1.point 4) 0
    someLocals.seledge (Geo1.point 0)

end LwTopo

/-! ## Minimum bounding circle (lwboundingcircle.c) -/

namespace LwBoundingCircle

/-- A point of the plane (`POINT2D`); `F` stands for the C `double`. -/
structure POINT2D (F : Type) where
  x : F
  y : F
deriving DecidableEq, Repr

/-- A circle (`LW_BOUNDINGCIRCLE`). -/
structure LW_BOUNDINGCIRCLE (F : Type) where
  center : POINT2D F
  radius : F
deriving DecidableEq, Repr

/-- The points that constrain the circle (`SUPPORTING_POINTS`); `none` is a
NULL pointer. -/
structure SUPPORTING_POINTS (F : Type) where
  p1 : Option (POINT2D F)
  p2 : Option (POINT2D F)
  p3 : Option (POINT2D F)
deriving DecidableEq, Repr

/-- What `lwboundingcircle.c` uses and does not define: the constants
`LW_SUCCESS`, `LW_FAILURE`, `LW_TRUE` and `LW_FALSE` and the macro `FP_MAX` of
the liblwgeom headers, the function `distance2d_pt_pt`, and the constants,
the arithmetic and the comparison of the C `double` that the file writes
`0.0`, `0.5`, `2`, `+`, `-`, `*`, `/` and `>`. None of them is among the
sources, so they are parameters: what is proved holds whatever they are. -/
structure Liblwgeom (F : Type) where
  LW_SUCCESS : Int
  LW_FAILURE : Int
  LW_TRUE : Int
  LW_FALSE : Int
  zero : F
  half : F
  two : F
  add : F → F → F
  sub : F → F → F
  mul : F → F → F
  div : F → F → F
  gt : F → F → Bool
  FP_MAX : F → F → F
  distance2d_pt_pt : POINT2D F → POINT2D F → F

/-- How a function of `lwboundingcircle.c` ends: by returning a value, by
reading through a NULL supporting point, or by reading `points[i]` beyond the
points it was given. -/
inductive Ending where
  | ret (v : Int)
  | nullDeref
  | outOfBounds
deriving DecidableEq, Repr

/-- What a run of `calculate_mbc` leaves in a ghost log: each evaluation of
`calculate_mbc_from_support`, with the support it was given and how it ended;
and each recursive call, with the `max_n` of the calling activation, the index
`i` passed as the new `max_n`, the support of the calling activation, what
`add_supporting_point` returned and the support it made. -/
inductive MbcEvent (F : Type) where
  | fromSupport (support : SUPPORTING_POINTS F) (ending : Ending)
  | recurse (max_n i : Nat) (support : SUPPORTING_POINTS F) (added : Int)
      (next_support : SUPPORTING_POINTS F)
deriving DecidableEq, Repr

/-- The circle `mbc` points to, together with the ghost log. -/
structure MbcWorld (F : Type) where
  mbc : LW_BOUNDINGCIRCLE F
  log : List (MbcEvent F)
deriving DecidableEq, Repr

section Circle

variable {F : Type}

def supporting_points_create : SUPPORTING_POINTS F :=
  { p1 := none, p2 := none, p3 := none }

def lwboundingcircle_clear (env : Liblwgeom F) (_c : LW_BOUNDINGCIRCLE F) :
    LW_BOUNDINGCIRCLE F :=
  { radius := env.zero, center := { x := env.zero, y := env.zero } }

/-- The counter `N` is a `uint32_t` that is incremented at most three
times. -/
def num_supporting_points (support : SUPPORTING_POINTS F) : Nat :=
  let N := 0
  let N := if support.p1.isSome then N + 1 else N
  let N := if support.p2.isSome then N + 1 else N
  let N := if support.p3.isSome then N + 1 else N
  N

/-- The support after the call and the value returned. -/
def add_supporting_point (env : Liblwgeom F) (support : SUPPORTING_POINTS F)
    (p : POINT2D F) : SUPPORTING_POINTS F × Int :=
  match num_supporting_points support with
  | 0 => ({ support with p1 := some p }, env.LW_SUCCESS)
  | 1 => ({ support with p2 := some p }, env.LW_SUCCESS)
  | 2 => ({ support with p3 := some p }, env.LW_SUCCESS)
  | _ => (support, env.LW_FAILURE)

/-- The circle is passed by pointer; `none` is a NULL pointer. -/
def point_inside_circle (env : Liblwgeom F) (p : POINT2D F)
    (c : Option (LW_BOUNDINGCIRCLE F)) : Int :=
  match c with
  | none => env.LW_FALSE
  | some c =>
    if env.gt (env.distance2d_pt_pt p c.center) c.radius then env.LW_FALSE
    else env.LW_TRUE

def det (env : Liblwgeom F) (m00 m01 m10 m11 : F) : F :=
  env.sub (env.mul m00 m11) (env.mul m01 m10)

def circumcenter (env : Liblwgeom F) (a b c : POINT2D F) : POINT2D F :=
  let cx := c.x
  let cy := c.y
  let ax := env.sub a.x cx
  let ay := env.sub a.y cy
  let bx := env.sub b.x cx
  let bY := env.sub b.y cy
  let denom := env.mul env.two (det env ax ay bx bY)
  let numx := det env ay (env.add (env.mul ax ax) (env.mul ay ay)) bY
    (env.add (env.mul bx bx) (env.mul bY bY))
  let numy := det env ax (env.add (env.mul ax ax) (env.mul ay ay)) bx
    (env.add (env.mul bx bx) (env.mul bY bY))
  { x := env.sub cx (env.div numx denom), y := env.add cy (env.div numy denom) }

/-- The circle after the call; `none` when `support->p1` is NULL and is read
through. -/
def calculate_mbc_1 (env : Liblwgeom F) (support : SUPPORTING_POINTS F)
    (_mbc : LW_BOUNDINGCIRCLE F) : Option (LW_BOUNDINGCIRCLE F) :=
  match support.p1 with
  | none => none
  | some p1 => some { radius := env.zero, center := { x := p1.x, y := p1.y } }

/-- The circle after the call; `none` when a NULL supporting point is read
through. -/
def calculate_mbc_2 (env : Liblwgeom F) (support : SUPPORTING_POINTS F)
    (_mbc : LW_BOUNDINGCIRCLE F) : Option (LW_BOUNDINGCIRCLE F) :=
  match support.p1, support.p2 with
  | some p1, some p2 =>
    let center : POINT2D F :=
      { x := env.mul env.half (env.add p1.x p2.x)
        y := env.mul env.half (env.add p1.y p2.y) }
    let d1 := env.distance2d_pt_pt center p1
    let d2 := env.distance2d_pt_pt center p2
    some { center := center, radius := env.FP_MAX d1 d2 }
  | _, _ => none

/-- The circle after the call; `none` when a NULL supporting point is read
through. -/
def calculate_mbc_3 (env : Liblwgeom F) (support : SUPPORTING_POINTS F)
    (_mbc : LW_BOUNDINGCIRCLE F) : Option (LW_BOUNDINGCIRCLE F) :=
  match support.p1, support.p2, support.p3 with
  | some p1, some p2, some p3 =>
    let center := circumcenter env p1 p2 p3
    let d1 := env.distance2d_pt_pt center p1
    let d2 := env.distance2d_pt_pt center p2
    let d3 := env.distance2d_pt_pt center p3
    some { center := center, radius := env.FP_MAX (env.FP_MAX d1 d2) d3 }
  | _, _, _ => none

/-- The circle after the call and how the call ends. -/
def calculate_mbc_from_support (env : Liblwgeom F)
    (support : SUPPORTING_POINTS F) (mbc : LW_BOUNDINGCIRCLE F) :
    LW_BOUNDINGCIRCLE F × Ending :=
  match num_supporting_points support with
  | 0 => (mbc, Ending.ret env.LW_SUCCESS)
  | 1 =>
    match calculate_mbc_1 env support mbc with
    | some m => (m, Ending.ret env.LW_SUCCESS)
    | none => (mbc, Ending.nullDeref)
  | 2 =>
    match calculate_mbc_2 env support mbc with
    | some m => (m, Ending.ret env.LW_SUCCESS)
    | none => (mbc, Ending.nullDeref)
  | 3 =>
    match calculate_mbc_3 env support mbc with
    | some m => (m, Ending.ret env.LW_SUCCESS)
    | none => (mbc, Ending.nullDeref)
  | _ => (mbc, Ending.ret env.LW_FAILURE)

/-- One pass through the body of the `for` loop of `calculate_mbc`
(lines 176-192), at index `i`. The state of the loop is the world and, once
the function has ended inside the loop, how; `none` is a recursive call that
ran out of fuel. `recur` is the recursive call of `calculate_mbc` on the same
points. -/
def calculate_mbc_body (env : Liblwgeom F)
    (recur : Nat → SUPPORTING_POINTS F → MbcWorld F →
      Option (MbcWorld F × Ending))
    (points : List (POINT2D F)) (max_n : Nat) (support : SUPPORTING_POINTS F)
    (st : Option (MbcWorld F × Option Ending)) (i : Nat) :
    Option (MbcWorld F × Option Ending) :=
  match st with
  | none => none
  | some (w, some e) => some (w, some e)
  | some (w, none) =>
    match points[i]? with
    | none => some (w, some Ending.outOfBounds)
    | some p =>
      if point_inside_circle env p (some w.mbc) = 0 then
        let a := add_supporting_point env support p
        let next_support := a.1
        let w1 : MbcWorld F :=
          { w with log := w.log ++
              [MbcEvent.recurse max_n i support a.2 next_support] }
        match recur i next_support w1 with
        | none => none
        | some (w2, Ending.ret v) =>
          if v = 0 then some (w2, some (Ending.ret env.LW_FAILURE))
          else some (w2, none)
        | some (w2, e) => some (w2, some e)
      else
        some (w, none)

/-- The function `calculate_mbc(points, max_n, support, mbc)` with `fuel`
bounding the depth of its recursion: the world after the call and how the call
ends, or `none` when the recursion goes deeper than `fuel`. The loop runs `i`
through `0, ..., max_n - 1`: neither `i` nor `max_n` is assigned in its body,
and `i++` does not wrap, `i` being below `max_n`, a `uint32_t` like it. -/
def calculate_mbc (env : Liblwgeom F) :
    Nat → List (POINT2D F) → Nat → SUPPORTING_POINTS F → MbcWorld F →
      Option (MbcWorld F × Ending)
  | 0, _, _, _, _ => none
  | fuel + 1, points, max_n, support, w =>
    let r := calculate_mbc_from_support env support w.mbc
    let w1 : MbcWorld F :=
      { mbc := r.1, log := w.log ++ [MbcEvent.fromSupport support r.2] }
    match r.2 with
    | Ending.ret v =>
      if v = 0 then some (w1, Ending.ret env.LW_FAILURE)
      else if num_supporting_points support = 3 then
        some (w1, Ending.ret env.LW_SUCCESS)
      else
        match (List.range max_n).foldl
          (calculate_mbc_body env (calculate_mbc env fuel points) points max_n
            support) (some (w1, none)) with
        | none => none
        | some (w2, none) => some (w2, Ending.ret env.LW_SUCCESS)
        | some (w2, some e) => some (w2, e)
    | e => some (w1, e)

end Circle

section CircleProperties

variable {F : Type}

/-- The support is filled in order: no supporting point is set after one
that is NULL. This is how `add_supporting_point` fills a support that starts
empty. -/
def SUPPORTING_POINTS.Filled (support : SUPPORTING_POINTS F) : Prop :=
  (support.p1 = none → support.p2 = none) ∧
  (support.p2 = none → support.p3 = none)

/-- What the log of a run is checked for, event by event: an evaluation of
`calculate_mbc_from_support` was given at most three points and returned
`LW_SUCCESS`; a recursive call was made at an index below the `max_n` of the
calling activation, from a support of fewer than three points, and
`add_supporting_point` returned `LW_SUCCESS` and made a support of one point
more. -/
def MbcEvent.Sound (env : Liblwgeom F) : MbcEvent F → Prop
  | MbcEvent.fromSupport support ending =>
    num_supporting_points support ≤ 3 ∧ ending = Ending.ret env.LW_SUCCESS
  | MbcEvent.recurse max_n i support added next_support =>
    i < max_n ∧ num_supporting_points support < 3 ∧
    added = env.LW_SUCCESS ∧
    num_supporting_points next_support = num_supporting_points support + 1

end CircleProperties

/-! ## An exact arithmetic, for examples -/

/-- A fraction that is not reduced; a denominator that is not positive marks
a value that is not a number. -/
structure Frac where
  num : Int
  den : Int
deriving DecidableEq, Repr

/-- The fraction of an integer. -/
def Frac.ofInt (n : Int) : Frac := { num := n, den := 1 }

/-- An interpretation of what `lwboundingcircle.c` takes from outside, over
fractions: the constants are those of `liblwgeom.h`, `FP_MAX` is the greater
of its arguments, the arithmetic is exact, a division by zero gives a value
that is not a number, a comparison with such a value is false, and the
distance of two points is taken squared, which orders distances the same
way. -/
def fracEnv : Liblwgeom Frac where
  LW_SUCCESS := 1
  LW_FAILURE := 0
  LW_TRUE := 1
  LW_FALSE := 0
  zero := Frac.ofInt 0
  half := { num := 1, den := 2 }
  two := Frac.ofInt 2
  add := fun a b => { num := a.num * b.den + b.num * a.den, den := a.den * b.den }
  sub := fun a b => { num := a.num * b.den - b.num * a.den, den := a.den * b.den }
  mul := fun a b => { num := a.num * b.num, den := a.den * b.den }
  div := fun a b =>
    if b.num < 0 then { num := -(a.num * b.den), den := a.den * (-b.num) }
    else { num := a.num * b.den, den := a.den * b.num }
  gt := fun a b =>
    decide (0 < a.den ∧ 0 < b.den ∧ b.num * a.den < a.num * b.den)
  FP_MAX := fun a b =>
    if 0 < a.den ∧ 0 < b.den ∧ b.num * a.den < a.num * b.den then a else b
  distance2d_pt_pt := fun p q =>
    { num := (p.x.num * q.x.den - q.x.num * p.x.den) ^ 2 * (p.y.den * q.y.den) ^ 2
        + (p.y.num * q.y.den - q.y.num * p.y.den) ^ 2 * (p.x.den * q.x.den) ^ 2
      den := (p.x.den * q.x.den) ^ 2 * (p.y.den * q.y.den) ^ 2 }

/-- The point with integer coordinates `x` and `y`. -/
def fracPoint (x y : Int) : POINT2D Frac :=
  { x := Frac.ofInt x, y := Frac.ofInt y }

/-- Four points: the corners of a segment from (0, 0) to (4, 0) and two
points above and below its middle. -/
def fourPoints : List (POINT2D Frac) :=
  [fracPoint 0 0, fracPoint 4 0, fracPoint 2 2, fracPoint 2 (-3)]

/-- The circle as `lwboundingcircle_clear` leaves it, with an empty log. -/
def clearWorld : MbcWorld Frac :=
  { mbc := lwboundingcircle_clear fracEnv
      { center := fracPoint 0 0, radius := Frac.ofInt 0 }
    log := [] }

end LwBoundingCircle

namespace LwTopo

/-! # Theorems -/

section AddIsoNodeFacts

variable {σ G : Type}

theorem insertNodesCalls_append (xs ys : List (BeCall G)) :
    insertNodesCalls (xs ++ ys) = insertNodesCalls xs + insertNodesCalls ys := by
  simp [insertNodesCalls]

theorem AddIsoNodeEnds_of_same {w w1 : World σ G} {r : World σ G × LWT_ELEMID}
    (he : w1.errors = w.errors)
    (hc : insertNodesCalls w1.calls = insertNodesCalls w.calls)
    (h : AddIsoNodeEnds w1 r) : AddIsoNodeEnds w r := by
  unfold AddIsoNodeEnds at h ⊢
  rw [he, hc] at h
  exact h

theorem AddIsoNodeEnds_fail (w w1 : World σ G) (fmt : String)
    (args : List ErrArg) (he : w1.errors = w.errors)
    (hc : insertNodesCalls w1.calls = insertNodesCalls w.calls) :
    AddIsoNodeEnds w (lwerror w1 fmt args, -1) := by
  refine Or.inr ⟨rfl, ⟨fmt, args⟩, ?_, Or.inl ?_⟩
  · simp [lwerror, he]
  · simpa [lwerror] using hc

theorem lwt_AddIsoNode_insert_ends (cb : LWT_BE_CALLBACKS σ G) (w : World σ G)
    (face : LWT_ELEMID) (pt : G) :
    AddIsoNodeEnds w (lwt_AddIsoNode_insert cb w face pt) := by
  unfold lwt_AddIsoNode_insert
  simp only [lwt_be_insertNodes, lwt_be_lastErrorMessage, lwerror]
  generalize cb.insertNodes w.be ⟨-1, face, pt⟩ 1 = r
  by_cases h : r.2.2 = 0
  · rw [if_pos h]
    refine Or.inr ⟨rfl, _, rfl, Or.inr ⟨?_, ⟨-1, face, pt⟩, r.2.1, _, ?_, rfl⟩⟩
    · simp [insertNodesCalls_append, insertNodesCalls, BeCall.isInsertNodes]
    · simp [h]
  · rw [if_neg h]
    refine Or.inl ⟨rfl, ?_⟩
    simp [insertNodesCalls_append, insertNodesCalls, BeCall.isInsertNodes]

theorem lwt_AddIsoNode_validate_ends (cb : LWT_BE_CALLBACKS σ G)
    (w : World σ G) (face : LWT_ELEMID) (pt : G) (skipISOChecks : Int)
    (foundInFace : LWT_ELEMID) :
    AddIsoNodeEnds w
      (lwt_AddIsoNode_validate cb w face pt skipISOChecks foundInFace) := by
  unfold lwt_AddIsoNode_validate
  split_ifs
  · exact lwt_AddIsoNode_insert_ends cb w _ pt
  · exact AddIsoNodeEnds_fail w w _ _ rfl rfl
  · exact lwt_AddIsoNode_insert_ends cb w _ pt

theorem lwt_AddIsoNode_face_ends (cb : LWT_BE_CALLBACKS σ G) (w : World σ G)
    (face : LWT_ELEMID) (pt : G) (skipISOChecks : Int) :
    AddIsoNodeEnds w (lwt_AddIsoNode_face cb w face pt skipISOChecks) := by
  unfold lwt_AddIsoNode_face
  dsimp only
  have hc : insertNodesCalls (lwt_be_getFaceContainingPoint cb w pt).1.calls =
      insertNodesCalls w.calls := by
    simp [lwt_be_getFaceContainingPoint, insertNodesCalls_append,
      insertNodesCalls, BeCall.isInsertNodes]
  have he : (lwt_be_getFaceContainingPoint cb w pt).1.errors = w.errors := rfl
  split_ifs
  · refine AddIsoNodeEnds_fail w _ _ _ he ?_
    simpa [lwt_be_lastErrorMessage, insertNodesCalls_append, insertNodesCalls,
      BeCall.isInsertNodes] using hc
  · exact AddIsoNodeEnds_fail w _ _ _ he hc
  · exact AddIsoNodeEnds_of_same he hc (lwt_AddIsoNode_validate_ends cb _ _ pt _ _)
  · exact lwt_AddIsoNode_validate_ends cb w _ pt _ _

theorem lwt_AddIsoNode_ends (cb : LWT_BE_CALLBACKS σ G) (w : World σ G)
    (face : LWT_ELEMID) (pt : G) (skipISOChecks : Int) :
    AddIsoNodeEnds w (lwt_AddIsoNode cb w face pt skipISOChecks) := by
  unfold lwt_AddIsoNode
  dsimp only
  have hc1 : insertNodesCalls (lwt_be_ExistsCoincidentNode cb w pt).1.calls =
      insertNodesCalls w.calls := by
    simp [lwt_be_ExistsCoincidentNode, lwt_be_getNodeWithinDistance2D,
      insertNodesCalls_append, insertNodesCalls, BeCall.isInsertNodes]
  have he1 : (lwt_be_ExistsCoincidentNode cb w pt).1.errors = w.errors := rfl
  have hc2 : insertNodesCalls (lwt_be_ExistsEdgeIntersectingPoint cb
      (lwt_be_ExistsCoincidentNode cb w pt).1 pt).1.calls =
      insertNodesCalls w.calls := by
    rw [← hc1]
    simp [lwt_be_ExistsEdgeIntersectingPoint, lwt_be_getEdgeWithinDistance2D,
      insertNodesCalls_append, insertNodesCalls, BeCall.isInsertNodes]
  have he2 : (lwt_be_ExistsEdgeIntersectingPoint cb
      (lwt_be_ExistsCoincidentNode cb w pt).1 pt).1.errors = w.errors := rfl
  split_ifs
  · exact AddIsoNodeEnds_fail w _ _ _ he1 hc1
  · exact AddIsoNodeEnds_fail w _ _ _ he2 hc2
  · exact AddIsoNodeEnds_of_same he2 hc2 (lwt_AddIsoNode_face_ends cb _ _ pt _)
  · exact lwt_AddIsoNode_face_ends cb w _ pt _

/-- C1: with checks enabled, on a point for which the node query at distance
0 reports a match, `lwt_AddIsoNode` returns -1, raises exactly the coincident
node message, and its only backend call is that query: `insertNodes` is called
zero times. -/
theorem C1_addIsoNode_coincident_node (cb : LWT_BE_CALLBACKS σ G) (s : σ)
    (face : LWT_ELEMID) (pt : G)
    (h : 0 < (cb.getNodeWithinDistance2D s pt 0 0 0 (-1)).2.2) :
    (lwt_AddIsoNode cb (World.init s) face pt 0).2 = -1 ∧
    (lwt_AddIsoNode cb (World.init s) face pt 0).1.errors =
      [⟨"SQL/MM Spatial exception - coincident node", []⟩] ∧
    (lwt_AddIsoNode cb (World.init s) face pt 0).1.calls =
      [BeCall.getNodeWithinDistance2D pt 0 0 0 (-1)
        (cb.getNodeWithinDistance2D s pt 0 0 0 (-1)).2.1
        (cb.getNodeWithinDistance2D s pt 0 0 0 (-1)).2.2] ∧
    insertNodesCalls (lwt_AddIsoNode cb (World.init s) face pt 0).1.calls = 0 := by
  have hne : (cb.getNodeWithinDistance2D s pt 0 0 0 (-1)).2.2 ≠ 0 := by omega
  simp [lwt_AddIsoNode, lwt_be_ExistsCoincidentNode,
    lwt_be_getNodeWithinDistance2D, World.init, lwerror, hne,
    insertNodesCalls, BeCall.isInsertNodes]

/-- C1 at a concrete input: the store holds a node at abscissa 5 and the
point added is at abscissa 5. -/
theorem C1_addIsoNode_coincident_node_witness :
    0 < ((refBackend geo1Ref).getNodeWithinDistance2D oneNodeStore
      (Geo1.point 5) 0 0 0 (-1)).2.2 ∧
    ((lwt_AddIsoNode (refBackend geo1Ref) (World.init oneNodeStore) (-1)
      (Geo1.point 5) 0).2 = -1 ∧
    (lwt_AddIsoNode (refBackend geo1Ref) (World.init oneNodeStore) (-1)
      (Geo1.point 5) 0).1.errors =
      [⟨"SQL/MM Spatial exception - coincident node", []⟩] ∧
    (lwt_AddIsoNode (refBackend geo1Ref) (World.init oneNodeStore) (-1)
      (Geo1.point 5) 0).1.calls =
      [BeCall.getNodeWithinDistance2D (Geo1.point 5) 0 0 0 (-1)
        ((refBackend geo1Ref).getNodeWithinDistance2D oneNodeStore
          (Geo1.point 5) 0 0 0 (-1)).2.1
        ((refBackend geo1Ref).getNodeWithinDistance2D oneNodeStore
          (Geo1.point 5) 0 0 0 (-1)).2.2] ∧
    insertNodesCalls (lwt_AddIsoNode (refBackend geo1Ref)
      (World.init oneNodeStore) (-1) (Geo1.point 5) 0).1.calls = 0) :=
  ⟨by decide,
    C1_addIsoNode_coincident_node (refBackend geo1Ref) oneNodeStore (-1)
      (Geo1.point 5) (by decide)⟩

/-- C2: a point that is not coincident with a node and not on an edge (with
checks enabled both existence queries report 0; with checks skipped they are
not asked), for which the backend reports the containing face `f` and accepts
the insert, handing back the record `node`: `lwt_AddIsoNode` with face -1
raises nothing, inserts exactly one record, whose containing face is `f`, and
returns the identifier found in `node`. -/
theorem C2_addIsoNode_auto_face (cb : LWT_BE_CALLBACKS σ G) (s : σ) (pt : G)
    (skipISOChecks : Int) (s1 s2 s3 : σ) (f : LWT_ELEMID)
    (node : LWT_ISO_NODE G) (ret : Int)
    (hchecks : skipISOChecks = 0 →
      (cb.getNodeWithinDistance2D s pt 0 0 0 (-1)).2.2 = 0 ∧
      (cb.getEdgeWithinDistance2D
        (cb.getNodeWithinDistance2D s pt 0 0 0 (-1)).1 pt 0 0 0 (-1)).2.2 = 0 ∧
      s1 = (cb.getEdgeWithinDistance2D
        (cb.getNodeWithinDistance2D s pt 0 0 0 (-1)).1 pt 0 0 0 (-1)).1)
    (hskip : skipISOChecks ≠ 0 → s1 = s)
    (hface : cb.getFaceContainingPoint s1 pt = (s2, f))
    (hfound : f ≠ -1) (hfault : f ≠ -2)
    (hins : cb.insertNodes s2 ⟨-1, f, pt⟩ 1 = (s3, node, ret))
    (hret : ret ≠ 0) :
    (lwt_AddIsoNode cb (World.init s) (-1) pt skipISOChecks).1.errors = [] ∧
    (lwt_AddIsoNode cb (World.init s) (-1) pt skipISOChecks).2 = node.node_id ∧
    (lwt_AddIsoNode cb (World.init s) (-1) pt skipISOChecks).1.be = s3 ∧
    BeCall.getFaceContainingPoint pt f ∈
      (lwt_AddIsoNode cb (World.init s) (-1) pt skipISOChecks).1.calls ∧
    (lwt_AddIsoNode cb (World.init s) (-1) pt skipISOChecks).1.calls.getLast? =
      some (BeCall.insertNodes ⟨-1, f, pt⟩ 1 node ret) ∧
    insertNodesCalls
      (lwt_AddIsoNode cb (World.init s) (-1) pt skipISOChecks).1.calls = 1 := by
  by_cases hs : skipISOChecks = 0
  · obtain ⟨h1, h2, h3⟩ := hchecks hs
    subst h3
    simp [lwt_AddIsoNode, lwt_AddIsoNode_face, lwt_AddIsoNode_validate,
      lwt_AddIsoNode_insert, lwt_be_ExistsCoincidentNode,
      lwt_be_ExistsEdgeIntersectingPoint, lwt_be_getNodeWithinDistance2D,
      lwt_be_getEdgeWithinDistance2D, lwt_be_getFaceContainingPoint,
      lwt_be_insertNodes, World.init, hs, h1, h2, hface, hfound, hfault,
      hins, hret, insertNodesCalls, BeCall.isInsertNodes]
  · have h3 := hskip hs
    subst h3
    simp [lwt_AddIsoNode, lwt_AddIsoNode_face, lwt_AddIsoNode_validate,
      lwt_AddIsoNode_insert, lwt_be_getFaceContainingPoint,
      lwt_be_insertNodes, World.init, hs, hface, hfound, hfault,
      hins, hret, insertNodesCalls, BeCall.isInsertNodes]

/-- C2 at a concrete input: a point at abscissa 6 is added, with checks
enabled, to the store that holds one node at abscissa 5 and no edge; the
reference backend reports face 0 and stores the node under id 2. -/
theorem C2_addIsoNode_auto_face_witness :
    (((refBackend geo1Ref).getNodeWithinDistance2D oneNodeStore (Geo1.point 6)
        0 0 0 (-1)).2.2 = 0 ∧
     ((refBackend geo1Ref).getEdgeWithinDistance2D oneNodeStore (Geo1.point 6)
        0 0 0 (-1)).2.2 = 0 ∧
     (refBackend geo1Ref).getFaceContainingPoint oneNodeStore (Geo1.point 6) =
        (oneNodeStore, 0) ∧
     ((refBackend geo1Ref).insertNodes oneNodeStore ⟨-1, 0, Geo1.point 6⟩ 1).2 =
        (⟨2, 0, Geo1.point 6⟩, 1)) ∧
    ((lwt_AddIsoNode (refBackend geo1Ref) (World.init oneNodeStore) (-1)
      (Geo1.point 6) 0).1.errors = [] ∧
    (lwt_AddIsoNode (refBackend geo1Ref) (World.init oneNodeStore) (-1)
      (Geo1.point 6) 0).2 = 2 ∧
    (lwt_AddIsoNode (refBackend geo1Ref) (World.init oneNodeStore) (-1)
      (Geo1.point 6) 0).1.be =
      ((refBackend geo1Ref).insertNodes oneNodeStore
        ⟨-1, 0, Geo1.point 6⟩ 1).1 ∧
    BeCall.getFaceContainingPoint (Geo1.point 6) 0 ∈
      (lwt_AddIsoNode (refBackend geo1Ref) (World.init oneNodeStore) (-1)
        (Geo1.point 6) 0).1.calls ∧
    (lwt_AddIsoNode (refBackend geo1Ref) (World.init oneNodeStore) (-1)
      (Geo1.point 6) 0).1.calls.getLast? =
      some (BeCall.insertNodes ⟨-1, 0, Geo1.point 6⟩ 1
        ⟨2, 0, Geo1.point 6⟩ 1) ∧
    insertNodesCalls
      (lwt_AddIsoNode (refBackend geo1Ref) (World.init oneNodeStore) (-1)
        (Geo1.point 6) 0).1.calls = 1) :=
  ⟨by decide,
    C2_addIsoNode_auto_face (refBackend geo1Ref) oneNodeStore (Geo1.point 6) 0
      oneNodeStore oneNodeStore
      ((refBackend geo1Ref).insertNodes oneNodeStore
        ⟨-1, 0, Geo1.point 6⟩ 1).1
      0 ⟨2, 0, Geo1.point 6⟩ 1
      (fun _ => by decide) (fun h => absurd rfl h) (by decide) (by decide)
      (by decide) (by decide) (by decide)⟩

/-- C3 as stated fails: over the backend that declines every insert,
`lwt_AddIsoNode` fails (it raises a message and returns -1) and yet has called
`insertNodes` once. -/
theorem C3_counterexample :
    (lwt_AddIsoNode decliningBackend (World.init emptyStore) (-1)
      (Geo1.point 6) 0).1.errors ≠ [] ∧
    (lwt_AddIsoNode decliningBackend (World.init emptyStore) (-1)
      (Geo1.point 6) 0).2 = -1 ∧
    insertNodesCalls (lwt_AddIsoNode decliningBackend (World.init emptyStore)
      (-1) (Geo1.point 6) 0).1.calls = 1 := by
  decide

/-- C3, amended: for every input and every backend, `lwt_AddIsoNode` calls
`insertNodes` exactly once when it succeeds (raises nothing); when it fails it
returns -1 and has called `insertNodes` not at all, unless the failure is the
insert's own: then the one call was made, it answered 0, and the message
raised is the backend error. -/
theorem C3_addIsoNode_insert_calls (cb : LWT_BE_CALLBACKS σ G) (s : σ)
    (face : LWT_ELEMID) (pt : G) (skipISOChecks : Int) :
    ((lwt_AddIsoNode cb (World.init s) face pt skipISOChecks).1.errors = [] ∧
      insertNodesCalls
        (lwt_AddIsoNode cb (World.init s) face pt skipISOChecks).1.calls = 1) ∨
    ((lwt_AddIsoNode cb (World.init s) face pt skipISOChecks).1.errors ≠ [] ∧
      (lwt_AddIsoNode cb (World.init s) face pt skipISOChecks).2 = -1 ∧
      (insertNodesCalls
        (lwt_AddIsoNode cb (World.init s) face pt skipISOChecks).1.calls = 0 ∨
       (insertNodesCalls
          (lwt_AddIsoNode cb (World.init s) face pt skipISOChecks).1.calls = 1 ∧
        ∃ node out msg,
          BeCall.insertNodes node 1 out 0 ∈
            (lwt_AddIsoNode cb (World.init s) face pt skipISOChecks).1.calls ∧
          (lwt_AddIsoNode cb (World.init s) face pt skipISOChecks).1.errors =
            [⟨"Backend error: %s", [ErrArg.str msg]⟩]))) := by
  have h := lwt_AddIsoNode_ends cb (World.init s) face pt skipISOChecks
  unfold AddIsoNodeEnds at h
  have hi : insertNodesCalls (World.init s : World σ G).calls = 0 := rfl
  have hj : (World.init s : World σ G).errors = [] := rfl
  rw [hi, hj] at h
  rcases h with ⟨he, hc⟩ | ⟨hr, e, he, hc⟩
  · exact Or.inl ⟨he, by simpa using hc⟩
  · refine Or.inr ⟨by simp [he], hr, ?_⟩
    rcases hc with hc | ⟨hc, node, out, msg, hm, hmsg⟩
    · exact Or.inl hc
    · exact Or.inr ⟨by simpa using hc, node, out, msg, hm, by simp [he, hmsg]⟩

end AddIsoNodeFacts

section ModEdgeSplitFacts

variable {σ G : Type}

/-! Once a message has been raised, it stays raised. -/

theorem lwt_ModEdgeSplit_notify_errors (cb : LWT_BE_CALLBACKS σ G)
    (w : World σ G) (oldedge newedge1 : LWT_ISO_EDGE G) (node : LWT_ISO_NODE G)
    (h : w.errors ≠ []) :
    (lwt_ModEdgeSplit_notify cb w oldedge newedge1 node).1.errors ≠ [] := by
  unfold lwt_ModEdgeSplit_notify
  dsimp only
  split_ifs <;>
    simp [lwerror, lwt_be_lastErrorMessage, lwt_be_updateTopoGeomEdgeSplit, h]

theorem lwt_ModEdgeSplit_relink_errors (cb : LWT_BE_CALLBACKS σ G)
    (w : World σ G) (loc : Locals G) (oldedge newedge1 : LWT_ISO_EDGE G)
    (node : LWT_ISO_NODE G) (updedge : LWT_ISO_EDGE G) (h : w.errors ≠ []) :
    (lwt_ModEdgeSplit_relink cb w loc oldedge newedge1 node updedge).1.errors
      ≠ [] := by
  unfold lwt_ModEdgeSplit_relink
  dsimp only
  split_ifs
  · simp [lwerror, lwt_be_lastErrorMessage, lwt_be_updateEdges, h]
  · simp [lwerror, lwt_be_lastErrorMessage, lwt_be_updateEdges, h]
  · exact lwt_ModEdgeSplit_notify_errors cb _ _ _ _ h

theorem lwt_ModEdgeSplit_updateOld_errors (cb : LWT_BE_CALLBACKS σ G)
    (geo : GeomOps G) (w : World σ G) (loc : Locals G)
    (oldedge newedge1 : LWT_ISO_EDGE G) (node : LWT_ISO_NODE G)
    (oldedge_geom : G) (h : w.errors ≠ []) :
    (lwt_ModEdgeSplit_updateOld cb geo w loc oldedge newedge1 node
      oldedge_geom).1.errors ≠ [] := by
  unfold lwt_ModEdgeSplit_updateOld
  split
  · simp [lwerror, h]
  · dsimp only
    split_ifs
    · simp [lwerror, lwt_be_lastErrorMessage, lwt_be_updateEdges, h]
    · simp [lwerror, lwt_be_updateEdges, h]
    · simp [lwerror, lwt_be_updateEdges, h]
    · exact lwt_ModEdgeSplit_relink_errors cb _ _ _ _ _ _ h

theorem lwt_ModEdgeSplit_insertEdge_errors (cb : LWT_BE_CALLBACKS σ G)
    (geo : GeomOps G) (w : World σ G) (loc : Locals G)
    (oldedge : LWT_ISO_EDGE G) (node : LWT_ISO_NODE G)
    (oldedge_geom newedge_geom : G) (h : w.errors ≠ []) :
    (lwt_ModEdgeSplit_insertEdge cb geo w loc oldedge node oldedge_geom
      newedge_geom).1.errors ≠ [] := by
  unfold lwt_ModEdgeSplit_insertEdge
  dsimp only
  generalize (if oldedge.next_left = -oldedge.edge_id
    then -(lwt_be_getNextEdgeId cb w).2 else oldedge.next_left) = nl
  split_ifs
  · simp [lwerror, lwt_be_lastErrorMessage, lwt_be_getNextEdgeId, h]
  · split
    · simp [lwerror, lwt_be_getNextEdgeId, h]
    · split_ifs
      · simp [lwerror, lwt_be_lastErrorMessage, lwt_be_insertEdges,
          lwt_be_getNextEdgeId, h]
      · simp [lwerror, lwt_be_insertEdges, lwt_be_getNextEdgeId, h]
      · exact lwt_ModEdgeSplit_updateOld_errors cb geo _ _ _ _ _ _ h

theorem lwt_ModEdgeSplit_addNode_errors (cb : LWT_BE_CALLBACKS σ G)
    (geo : GeomOps G) (w : World σ G) (loc : Locals G)
    (oldedge : LWT_ISO_EDGE G) (pt : G) (oldedge_geom newedge_geom : G)
    (h : w.errors ≠ []) :
    (lwt_ModEdgeSplit_addNode cb geo w loc oldedge pt oldedge_geom
      newedge_geom).1.errors ≠ [] := by
  unfold lwt_ModEdgeSplit_addNode
  dsimp only
  split_ifs
  · simp [lwerror, lwt_be_lastErrorMessage, lwt_be_insertNodes, h]
  · simp [lwerror, lwt_be_insertNodes, h]
  · exact lwt_ModEdgeSplit_insertEdge_errors cb geo _ _ _ _ _ _ h

theorem lwt_ModEdgeSplit_split_errors (cb : LWT_BE_CALLBACKS σ G)
    (geo : GeomOps G) (w : World σ G) (loc : Locals G)
    (oldedge : Option (LWT_ISO_EDGE G)) (pt : G) (h : w.errors ≠ []) :
    (lwt_ModEdgeSplit_split cb geo w loc oldedge pt).1.errors ≠ [] := by
  unfold lwt_ModEdgeSplit_split
  split
  · exact h
  · split
    · simp [lwerror, h]
    · split
      · simp [lwerror, h]
      · split
        · exact lwt_ModEdgeSplit_addNode_errors cb geo _ _ _ _ _ _ h
        · simp [lwerror, h]

theorem lwt_ModEdgeSplit_checks_errors (cb : LWT_BE_CALLBACKS σ G)
    (geo : GeomOps G) (w : World σ G) (loc : Locals G)
    (oldedge : Option (LWT_ISO_EDGE G)) (pt : G) (skipISOChecks : Int)
    (h : w.errors ≠ []) :
    (lwt_ModEdgeSplit_checks cb geo w loc oldedge pt skipISOChecks).1.errors
      ≠ [] := by
  unfold lwt_ModEdgeSplit_checks
  dsimp only
  split_ifs
  · simp [lwerror, h]
  · exact lwt_ModEdgeSplit_split_errors cb geo _ _ _ _ h
  · exact lwt_ModEdgeSplit_split_errors cb geo _ _ _ _ h

theorem lwt_ModEdgeSplit_addNode_cases (cb : LWT_BE_CALLBACKS σ G)
    (geo : GeomOps G) (w : World σ G) (hw : w.errors = []) (loc : Locals G)
    (E : LWT_ISO_EDGE G) (pt g0 g1 : G) :
    (lwt_ModEdgeSplit_addNode cb geo w loc E pt g0 g1).1.errors ≠ [] ∨
    ∃ t : SplitRun σ G, t.s_check = w.be ∧ t.oldedge = E ∧
      t.oldedge_geom = g0 ∧ t.newedge_geom = g1 ∧ t.Writes cb geo loc pt ∧
      lwt_ModEdgeSplit_addNode cb geo w loc E pt g0 g1 =
        (⟨t.s_final, w.calls ++ t.writeCalls loc pt, []⟩,
          Outcome.ret t.node.node_id) := by
  unfold lwt_ModEdgeSplit_addNode
  simp only [lwt_be_insertNodes]
  rcases hn : cb.insertNodes w.be ⟨-1, -1, pt⟩ 1 with ⟨sN, node, r1⟩
  dsimp only
  by_cases h1 : r1 = 0
  · left; simp [h1, lwerror, lwt_be_lastErrorMessage]
  rw [if_neg h1]
  by_cases h2 : node.node_id = -1
  · left; simp [h2, lwerror]
  rw [if_neg h2]
  unfold lwt_ModEdgeSplit_insertEdge
  simp only [lwt_be_getNextEdgeId]
  rcases hi : cb.getNextEdgeId sN with ⟨sI, id⟩
  dsimp only
  by_cases h3 : id = -1
  · left; simp [h3, lwerror, lwt_be_lastErrorMessage]
  rw [if_neg h3]
  cases hl1 : geo.lwgeom_as_lwline g1 with
  | none => left; simp [lwerror]
  | some l1 =>
    dsimp only
    simp only [lwt_be_insertEdges]
    generalize hne0 :
      ({ edge_id := id
         start_node := node.node_id
         end_node := E.end_node
         face_left := E.face_left
         face_right := E.face_right
         next_left := (if E.next_left = -E.edge_id then -id else E.next_left)
         next_right := -E.edge_id
         geom := l1 } : LWT_ISO_EDGE G) = ne0
    rcases he : cb.insertEdges sI ne0 1 with ⟨sE, ne, r2⟩
    dsimp only
    by_cases h4 : r2 = -1
    · left; simp [h4, lwerror, lwt_be_lastErrorMessage]
    rw [if_neg h4]
    by_cases h5 : r2 = 0
    · left; simp [h5, lwerror]
    rw [if_neg h5]
    unfold lwt_ModEdgeSplit_updateOld
    cases hl0 : geo.lwgeom_as_lwline g0 with
    | none => left; simp [lwerror]
    | some l0 =>
      dsimp only
      simp only [lwt_be_updateEdges]
      generalize hu1 :
        ({ edge_id := loc.updedge.edge_id
           start_node := loc.updedge.start_node
           end_node := node.node_id
           face_left := loc.updedge.face_left
           face_right := loc.updedge.face_right
           next_left := ne.edge_id
           next_right := loc.updedge.next_right
           geom := l0 } : LWT_ISO_EDGE G) = u1
      rcases hu : cb.updateEdges sE E LWT_COL_EDGE_EDGE_ID u1
        (LWT_COL_EDGE_GEOM ||| LWT_COL_EDGE_NEXT_LEFT ||| LWT_COL_EDGE_END_NODE)
        none 0 with ⟨sU, r3⟩
      dsimp only
      by_cases h6 : r3 = -1
      · left; simp [h6, lwerror, lwt_be_lastErrorMessage]
      rw [if_neg h6]
      by_cases h7 : r3 = 0
      · left; simp [h7, lwerror]
      rw [if_neg h7]
      by_cases h8 : r3 > 1
      · left; simp [h8, lwerror]
      rw [if_neg h8]
      unfold lwt_ModEdgeSplit_relink
      dsimp only
      simp only [lwt_be_updateEdges]
      generalize hu3 :
        ({ edge_id := u1.edge_id
           start_node := u1.start_node
           end_node := u1.end_node
           face_left := u1.face_left
           face_right := u1.face_right
           next_left := -ne.edge_id
           next_right := -ne.edge_id
           geom := u1.geom } : LWT_ISO_EDGE G) = u3
      generalize hs3 :
        ({ edge_id := loc.seledge.edge_id
           start_node := E.end_node
           end_node := E.end_node
           face_left := loc.seledge.face_left
           face_right := loc.seledge.face_right
           next_left := -E.edge_id
           next_right := -E.edge_id
           geom := loc.seledge.geom } : LWT_ISO_EDGE G) = sl3
      generalize hu2 :
        ({ edge_id := u1.edge_id
           start_node := u1.start_node
           end_node := u1.end_node
           face_left := u1.face_left
           face_right := u1.face_right
           next_left := u1.next_left
           next_right := -ne.edge_id
           geom := u1.geom } : LWT_ISO_EDGE G) = u2
      generalize hx :
        ({ edge_id := ne.edge_id
           start_node := loc.excedge.start_node
           end_node := loc.excedge.end_node
           face_left := loc.excedge.face_left
           face_right := loc.excedge.face_right
           next_left := loc.excedge.next_left
           next_right := loc.excedge.next_right
           geom := loc.excedge.geom } : LWT_ISO_EDGE G) = x
      generalize hs2 :
        ({ edge_id := loc.seledge.edge_id
           start_node := E.end_node
           end_node := loc.seledge.end_node
           face_left := loc.seledge.face_left
           face_right := loc.seledge.face_right
           next_left := loc.seledge.next_left
           next_right := -E.edge_id
           geom := loc.seledge.geom } : LWT_ISO_EDGE G) = sl2
      rcases hr : cb.updateEdges sU sl2
        (LWT_COL_EDGE_NEXT_RIGHT ||| LWT_COL_EDGE_START_NODE) u2
        LWT_COL_EDGE_NEXT_RIGHT (some x) LWT_COL_EDGE_EDGE_ID with ⟨sR, r4⟩
      dsimp only
      by_cases h9 : r4 = -1
      · left; simp [h9, lwerror, lwt_be_lastErrorMessage]
      rw [if_neg h9]
      rcases hl : cb.updateEdges sR sl3
        (LWT_COL_EDGE_NEXT_LEFT ||| LWT_COL_EDGE_END_NODE) u3
        LWT_COL_EDGE_NEXT_LEFT (some x) LWT_COL_EDGE_EDGE_ID with ⟨sL, r5⟩
      dsimp only
      by_cases h10 : r5 = -1
      · left; simp [h10, lwerror, lwt_be_lastErrorMessage]
      rw [if_neg h10]
      unfold lwt_ModEdgeSplit_notify
      simp only [lwt_be_updateTopoGeomEdgeSplit]
      rcases hf : cb.updateTopoGeomEdgeSplit sL E.edge_id ne.edge_id (-1)
        with ⟨sF, r6⟩
      dsimp only
      by_cases h11 : r6 = 0
      · left; simp [h11, lwerror, lwt_be_lastErrorMessage]
      rw [if_neg h11]
      right
      refine ⟨{ s_fetch := w.be, oldedge := E, fetched := 0, s_check := w.be,
                node_rows := [], split := g0, oldedge_geom := g0,
                newedge_geom := g1, others := [], s_node := sN, node := node,
                node_ret := r1, s_id := sI, new_id := id, new_line := l1,
                s_ins := sE, newedge1 := ne, ins_ret := r2, old_line := l0,
                s_upd := sU, upd_ret := r3, s_right := sR, right_ret := r4,
                s_left := sL, left_ret := r5, s_final := sF,
                notify_ret := r6 }, rfl, rfl, rfl, rfl, ?_, ?_⟩
      · subst hne0 hu1 hu2 hu3 hx hs2 hs3
        exact ⟨hn, h1, h2, hi, h3, hl1, he, h4, h5, hl0, hu, h6, h7, h8,
          hr, h9, hl, h10, hf, h11⟩
      · subst hne0 hu1 hu2 hu3 hx hs2 hs3
        simp [SplitRun.writeCalls, SplitRun.newedge0, SplitRun.updedge1,
          SplitRun.updedge2, SplitRun.updedge3, SplitRun.excedge,
          SplitRun.seledge2, SplitRun.seledge3, hw]

theorem lwt_ModEdgeSplit_addNode_of_writes (cb : LWT_BE_CALLBACKS σ G)
    (geo : GeomOps G) (loc : Locals G) (pt : G) (t : SplitRun σ G)
    (ht : t.Writes cb geo loc pt) (w : World σ G) (hw : w.be = t.s_check) :
    lwt_ModEdgeSplit_addNode cb geo w loc t.oldedge pt t.oldedge_geom
        t.newedge_geom =
      (⟨t.s_final, w.calls ++ t.writeCalls loc pt, w.errors⟩,
        Outcome.ret t.node.node_id) := by
  obtain ⟨hn, h1, h2, hi, h3, hl1, he, h4, h5, hl0, hu, h6, h7, h8,
    hr, h9, hl, h10, hf, h11⟩ := ht
  have he0 := he
  have hu0 := hu
  have hr0 := hr
  have hl00 := hl
  simp only [SplitRun.newedge0] at he0
  simp only [SplitRun.updedge1] at hu0
  simp only [SplitRun.seledge2, SplitRun.updedge2, SplitRun.updedge1,
    SplitRun.excedge] at hr0
  simp only [SplitRun.seledge3, SplitRun.seledge2, SplitRun.updedge3,
    SplitRun.updedge2, SplitRun.updedge1, SplitRun.excedge] at hl00
  simp [lwt_ModEdgeSplit_addNode, lwt_ModEdgeSplit_insertEdge,
    lwt_ModEdgeSplit_updateOld, lwt_ModEdgeSplit_relink,
    lwt_ModEdgeSplit_notify, lwt_be_insertNodes, lwt_be_getNextEdgeId,
    lwt_be_insertEdges, lwt_be_updateEdges, lwt_be_updateTopoGeomEdgeSplit,
    hw, hn, h1, h2, hi, h3, hl1, he0, h4, h5, hl0, hu0, h6, h7, h8,
    hr0, h9, hl00, h10, hf, h11,
    SplitRun.writeCalls, SplitRun.newedge0, SplitRun.updedge1,
    SplitRun.updedge2, SplitRun.updedge3, SplitRun.excedge,
    SplitRun.seledge2, SplitRun.seledge3]

theorem lwt_ModEdgeSplit_split_cases (cb : LWT_BE_CALLBACKS σ G)
    (geo : GeomOps G) (w : World σ G) (hw : w.errors = []) (loc : Locals G)
    (E : LWT_ISO_EDGE G) (pt : G) :
    (lwt_ModEdgeSplit_split cb geo w loc (some E) pt).1.errors ≠ [] ∨
    ∃ t : SplitRun σ G, t.s_check = w.be ∧ t.oldedge = E ∧
      geo.lwgeom_split E.geom pt = some t.split ∧
      geo.lwgeom_as_lwcollection t.split =
        some (t.oldedge_geom :: t.newedge_geom :: t.others) ∧
      t.Writes cb geo loc pt ∧
      lwt_ModEdgeSplit_split cb geo w loc (some E) pt =
        (⟨t.s_final, w.calls ++ t.writeCalls loc pt, []⟩,
          Outcome.ret t.node.node_id) := by
  unfold lwt_ModEdgeSplit_split
  dsimp only
  cases hs : geo.lwgeom_split E.geom pt with
  | none => left; simp [lwerror]
  | some sp =>
    dsimp only
    cases hc : geo.lwgeom_as_lwcollection sp with
    | none => left; simp [lwerror]
    | some col =>
      dsimp only
      match col, hc with
      | [], _ => left; simp [lwerror]
      | [_], _ => left; simp [lwerror]
      | g0 :: g1 :: rest, hc =>
        dsimp only
        rcases lwt_ModEdgeSplit_addNode_cases cb geo w hw loc E pt g0 g1 with
          h | ⟨t, h1, h2, h3, h4, h5, h6⟩
        · exact Or.inl h
        · refine Or.inr ⟨{ t with split := sp, others := rest },
            h1, h2, rfl, ?_, h5, ?_⟩
          · simp only [hc, h3, h4]
          · rw [h6]
            rfl

/-- A run of `lwt_ModEdgeSplit` either raises a message or goes through the
values of some `t` that follows the code, ending in the state, with the calls
and with the result that `t` records. -/
theorem lwt_ModEdgeSplit_cases (cb : LWT_BE_CALLBACKS σ G) (geo : GeomOps G)
    (s : σ) (loc : Locals G) (edge : LWT_ELEMID) (pt : G)
    (skipISOChecks : Int) :
    (lwt_ModEdgeSplit cb geo (World.init s) loc edge pt skipISOChecks).1.errors
      ≠ [] ∨
    ∃ t : SplitRun σ G, t.Follows cb geo s loc edge pt skipISOChecks ∧
      lwt_ModEdgeSplit cb geo (World.init s) loc edge pt skipISOChecks =
        (⟨t.s_final, t.calls loc edge pt skipISOChecks, []⟩,
          Outcome.ret t.node.node_id) := by
  unfold lwt_ModEdgeSplit
  simp only [lwt_be_getEdgeById, World.init]
  rcases hq : cb.getEdgeById s [edge] 1 LWT_COL_EDGE_ALL with ⟨s1, oE, i⟩
  dsimp only
  cases oE with
  | none =>
    left
    dsimp only
    split_ifs
    · simp [lwerror, lwt_be_lastErrorMessage]
    · simp [lwerror]
    · exact lwt_ModEdgeSplit_checks_errors cb geo _ _ _ _ _ (by simp [lwerror])
  | some E =>
    dsimp only
    unfold lwt_ModEdgeSplit_checks
    by_cases hk : skipISOChecks = 0
    · simp only [hk, if_true, lwt_be_ExistsCoincidentNode,
        lwt_be_getNodeWithinDistance2D]
      rcases hc : cb.getNodeWithinDistance2D s1 pt 0 0 0 (-1) with ⟨s2, rows, n⟩
      dsimp only
      by_cases hn : n = 0
      · subst hn
        simp only [ne_eq, not_true_eq_false, if_false]
        rcases lwt_ModEdgeSplit_split_cases cb geo
            (⟨s2, [] ++ [BeCall.getEdgeById [edge] 1 LWT_COL_EDGE_ALL (some E) i]
              ++ [BeCall.getNodeWithinDistance2D pt 0 0 0 (-1) rows 0], []⟩)
            rfl loc E pt with h | ⟨t, h1, h2, h3, h4, h5, h6⟩
        · exact Or.inl h
        · subst h2
          have h1b : t.s_check = s2 := h1
          subst h1b
          refine Or.inr ⟨{ t with s_fetch := s1, fetched := i, node_rows := rows },
            ⟨⟨hq, ?_, h3, h4⟩, h5⟩, ?_⟩
          · simp only [if_true, hc]
          · rw [h6]
            simp [SplitRun.calls, SplitRun.readCalls]
            rfl
      · left
        simp [hn, lwerror]
    · simp only [hk, if_false]
      rcases lwt_ModEdgeSplit_split_cases cb geo
          (⟨s1, [] ++ [BeCall.getEdgeById [edge] 1 LWT_COL_EDGE_ALL (some E) i],
            []⟩) rfl loc E pt with h | ⟨t, h1, h2, h3, h4, h5, h6⟩
      · exact Or.inl h
      · subst h2
        have h1b : t.s_check = s1 := h1
        subst h1b
        refine Or.inr ⟨{ t with s_fetch := t.s_check, fetched := i },
          ⟨⟨hq, ?_, h3, h4⟩, h5⟩, ?_⟩
        · simp only [hk, if_false]
        · rw [h6]
          simp [SplitRun.calls, SplitRun.readCalls, hk]
          rfl

/-- A run that follows the code through the values of `t` ends as `t`
records: nothing raised, the calls of `t` made, the new node id returned. -/
theorem lwt_ModEdgeSplit_of_follows (cb : LWT_BE_CALLBACKS σ G)
    (geo : GeomOps G) (s : σ) (loc : Locals G) (edge : LWT_ELEMID) (pt : G)
    (skipISOChecks : Int) (t : SplitRun σ G)
    (ht : t.Follows cb geo s loc edge pt skipISOChecks) :
    lwt_ModEdgeSplit cb geo (World.init s) loc edge pt skipISOChecks =
      (⟨t.s_final, t.calls loc edge pt skipISOChecks, []⟩,
        Outcome.ret t.node.node_id) := by
  obtain ⟨⟨hq, hc, hs, hcol⟩, hw⟩ := ht
  by_cases hk : skipISOChecks = 0
  · rw [if_pos hk] at hc
    simp only [lwt_ModEdgeSplit, lwt_be_getEdgeById, World.init, hq,
      lwt_ModEdgeSplit_checks, hk, if_true, lwt_be_ExistsCoincidentNode,
      lwt_be_getNodeWithinDistance2D, hc, ne_eq, not_true_eq_false, if_false,
      lwt_ModEdgeSplit_split, hs, hcol]
    rw [lwt_ModEdgeSplit_addNode_of_writes cb geo loc pt t hw _ rfl]
    simp [SplitRun.calls, SplitRun.readCalls]
  · rw [if_neg hk] at hc
    simp only [lwt_ModEdgeSplit, lwt_be_getEdgeById, World.init, hq,
      lwt_ModEdgeSplit_checks, hk, if_false,
      lwt_ModEdgeSplit_split, hs, hcol]
    rw [lwt_ModEdgeSplit_addNode_of_writes cb geo loc pt t hw _ hc.symm]
    simp [SplitRun.calls, SplitRun.readCalls, hk]

/-- A run of `lwt_ModEdgeSplit` that raises nothing goes through the values
of some `t` that follows the code. -/
theorem lwt_ModEdgeSplit_success (cb : LWT_BE_CALLBACKS σ G) (geo : GeomOps G)
    (s : σ) (loc : Locals G) (edge : LWT_ELEMID) (pt : G)
    (skipISOChecks : Int)
    (h : (lwt_ModEdgeSplit cb geo (World.init s) loc edge pt
      skipISOChecks).1.errors = []) :
    ∃ t : SplitRun σ G, t.Follows cb geo s loc edge pt skipISOChecks ∧
      lwt_ModEdgeSplit cb geo (World.init s) loc edge pt skipISOChecks =
        (⟨t.s_final, t.calls loc edge pt skipISOChecks, []⟩,
          Outcome.ret t.node.node_id) := by
  rcases lwt_ModEdgeSplit_cases cb geo s loc edge pt skipISOChecks with
    h1 | h1
  · exact absurd h h1
  · exact h1

end ModEdgeSplitFacts

section SplitFailureAndNewEdge

variable {σ G : Type}

/-- C4: when `getEdgeById` returns no row and leaves the count at 0,
`lwt_ModEdgeSplit` returns -1, raises exactly the non-existent edge message,
and the fetch is its only backend call: no `insertNodes`, `insertEdges`,
`updateEdges` or `updateTopoGeomEdgeSplit` call is made. -/
theorem C4_modEdgeSplit_missing_edge (cb : LWT_BE_CALLBACKS σ G)
    (geo : GeomOps G) (s s1 : σ) (loc : Locals G) (edge : LWT_ELEMID) (pt : G)
    (skipISOChecks : Int)
    (h : cb.getEdgeById s [edge] 1 LWT_COL_EDGE_ALL = (s1, none, 0)) :
    (lwt_ModEdgeSplit cb geo (World.init s) loc edge pt skipISOChecks).2 =
      Outcome.ret (-1) ∧
    (lwt_ModEdgeSplit cb geo (World.init s) loc edge pt skipISOChecks).1.errors =
      [⟨"SQL/MM Spatial exception - non-existent edge", []⟩] ∧
    (lwt_ModEdgeSplit cb geo (World.init s) loc edge pt skipISOChecks).1.calls =
      [BeCall.getEdgeById [edge] 1 LWT_COL_EDGE_ALL none 0] ∧
    mutationCalls
      (lwt_ModEdgeSplit cb geo (World.init s) loc edge pt skipISOChecks).1.calls
      = 0 ∧
    (lwt_ModEdgeSplit cb geo (World.init s) loc edge pt skipISOChecks).1.be =
      s1 := by
  simp [lwt_ModEdgeSplit, lwt_be_getEdgeById, World.init, h, lwerror,
    mutationCalls, BeCall.isMutation]

/-- C4 at a concrete input: edge 7 is asked of the store that holds edge 1
only. -/
theorem C4_modEdgeSplit_missing_edge_witness :
    (refBackend geo1Ref).getEdgeById oneEdgeStore [7] 1 LWT_COL_EDGE_ALL =
      (oneEdgeStore, none, 0) ∧
    (lwt_ModEdgeSplit (refBackend geo1Ref) geo1Ops (World.init oneEdgeStore)
      someLocals 7 (Geo1.point 4) 0).1.errors =
      [⟨"SQL/MM Spatial exception - non-existent edge", []⟩] ∧
    mutationCalls (lwt_ModEdgeSplit (refBackend geo1Ref) geo1Ops
      (World.init oneEdgeStore) someLocals 7 (Geo1.point 4) 0).1.calls = 0 :=
  have h := C4_modEdgeSplit_missing_edge (refBackend geo1Ref) geo1Ops
    oneEdgeStore oneEdgeStore someLocals 7 (Geo1.point 4) 0 (by decide)
  ⟨by decide, h.2.1, h.2.2.2.1⟩

theorem mem_splitRun_calls_insertEdges (t : SplitRun σ G) (loc : Locals G)
    (edge : LWT_ELEMID) (pt : G) (skipISOChecks : Int)
    (e : LWT_ISO_EDGE G) (n : Int) (o : LWT_ISO_EDGE G) (r : Int)
    (h : BeCall.insertEdges e n o r ∈ t.calls loc edge pt skipISOChecks) :
    e = t.newedge0 ∧ n = 1 ∧ o = t.newedge1 ∧ r = t.ins_ret := by
  by_cases hk : skipISOChecks = 0 <;>
    simpa [SplitRun.calls, SplitRun.readCalls, SplitRun.writeCalls, hk] using h

/-- C5: on a run of `lwt_ModEdgeSplit` that raises nothing, with `E` the edge
fetched and `id` the identifier `getNextEdgeId` answered, exactly one record
is passed to `insertEdges`; its `edge_id` is `id`; when `E.next_left` is
`-E.edge_id` its `next_left` is minus its own `edge_id` (which differs from
`E.next_left` as soon as the two edge ids differ), and otherwise its
`next_left` is `E.next_left`. -/
theorem C5_modEdgeSplit_new_edge_next_left (cb : LWT_BE_CALLBACKS σ G)
    (geo : GeomOps G) (s : σ) (loc : Locals G) (edge : LWT_ELEMID) (pt : G)
    (skipISOChecks : Int)
    (h : (lwt_ModEdgeSplit cb geo (World.init s) loc edge pt
      skipISOChecks).1.errors = []) :
    ∃ (E : LWT_ISO_EDGE G) (fetched : Int) (id : LWT_ELEMID)
      (newedge out : LWT_ISO_EDGE G) (ret : Int),
      (cb.getEdgeById s [edge] 1 LWT_COL_EDGE_ALL).2.1 = some E ∧
      BeCall.getEdgeById [edge] 1 LWT_COL_EDGE_ALL (some E) fetched ∈
        (lwt_ModEdgeSplit cb geo (World.init s) loc edge pt
          skipISOChecks).1.calls ∧
      BeCall.getNextEdgeId id ∈
        (lwt_ModEdgeSplit cb geo (World.init s) loc edge pt
          skipISOChecks).1.calls ∧
      BeCall.insertEdges newedge 1 out ret ∈
        (lwt_ModEdgeSplit cb geo (World.init s) loc edge pt
          skipISOChecks).1.calls ∧
      (∀ e n o r, BeCall.insertEdges e n o r ∈
        (lwt_ModEdgeSplit cb geo (World.init s) loc edge pt
          skipISOChecks).1.calls → e = newedge) ∧
      newedge.edge_id = id ∧
      (E.next_left = -E.edge_id → newedge.next_left = -newedge.edge_id) ∧
      (E.next_left = -E.edge_id → newedge.edge_id ≠ E.edge_id →
        newedge.next_left ≠ E.next_left) ∧
      (E.next_left ≠ -E.edge_id → newedge.next_left = E.next_left) := by
  obtain ⟨t, ⟨⟨hq, -⟩, -⟩, hrun⟩ :=
    lwt_ModEdgeSplit_success cb geo s loc edge pt skipISOChecks h
  rw [hrun]
  refine ⟨t.oldedge, t.fetched, t.new_id, t.newedge0, t.newedge1, t.ins_ret,
    by rw [hq], ?_, ?_, ?_, ?_, rfl, ?_, ?_, ?_⟩
  · simp [SplitRun.calls, SplitRun.readCalls]
  · simp [SplitRun.calls, SplitRun.writeCalls]
  · simp [SplitRun.calls, SplitRun.writeCalls]
  · intro e n o r hm
    exact (mem_splitRun_calls_insertEdges t loc edge pt skipISOChecks e n o r
      hm).1
  · intro hl
    simp [SplitRun.newedge0, hl]
  · intro hl hne
    simpa [SplitRun.newedge0, hl] using hne
  · intro hl
    simp [SplitRun.newedge0, hl]

end SplitFailureAndNewEdge

section SplitNewEdgeRecord

variable {σ G : Type}

/-- C5 at a concrete input: edge 1 of the one-edge store, whose `next_left`
is -1, is split at abscissa 4; the run raises nothing. -/
theorem C5_modEdgeSplit_new_edge_next_left_witness :
    (lwt_ModEdgeSplit (refBackend geo1Ref) geo1Ops (World.init oneEdgeStore)
      someLocals 1 (Geo1.point 4) 0).1.errors = [] ∧
    ∃ (E : LWT_ISO_EDGE Geo1) (fetched : Int) (id : LWT_ELEMID)
      (newedge out : LWT_ISO_EDGE Geo1) (ret : Int),
      ((refBackend geo1Ref).getEdgeById oneEdgeStore [1] 1
        LWT_COL_EDGE_ALL).2.1 = some E ∧
      BeCall.getEdgeById [1] 1 LWT_COL_EDGE_ALL (some E) fetched ∈
        (lwt_ModEdgeSplit (refBackend geo1Ref) geo1Ops
          (World.init oneEdgeStore) someLocals 1 (Geo1.point 4) 0).1.calls ∧
      BeCall.getNextEdgeId id ∈
        (lwt_ModEdgeSplit (refBackend geo1Ref) geo1Ops
          (World.init oneEdgeStore) someLocals 1 (Geo1.point 4) 0).1.calls ∧
      BeCall.insertEdges newedge 1 out ret ∈
        (lwt_ModEdgeSplit (refBackend geo1Ref) geo1Ops
          (World.init oneEdgeStore) someLocals 1 (Geo1.point 4) 0).1.calls ∧
      (∀ e n o r, BeCall.insertEdges e n o r ∈
        (lwt_ModEdgeSplit (refBackend geo1Ref) geo1Ops
          (World.init oneEdgeStore) someLocals 1 (Geo1.point 4) 0).1.calls →
          e = newedge) ∧
      newedge.edge_id = id ∧
      (E.next_left = -E.edge_id → newedge.next_left = -newedge.edge_id) ∧
      (E.next_left = -E.edge_id → newedge.edge_id ≠ E.edge_id →
        newedge.next_left ≠ E.next_left) ∧
      (E.next_left ≠ -E.edge_id → newedge.next_left = E.next_left) :=
  ⟨by decide,
    C5_modEdgeSplit_new_edge_next_left (refBackend geo1Ref) geo1Ops
      oneEdgeStore someLocals 1 (Geo1.point 4) 0 (by decide)⟩

/-- C6: on a run of `lwt_ModEdgeSplit` that raises nothing, with `E` the edge
fetched, `node` the node record as the backend handed it back from
`insertNodes`, `id` the identifier `getNextEdgeId` answered and
`g0 :: g1 :: rest` the members of the split of `E.geom` by the point, the
record passed to `insertEdges` has `edge_id = id`, `start_node` the id in
`node`, `end_node`, `face_left` and `face_right` those of `E`,
`next_right = -E.edge_id`, and for geometry the second member `g1` taken as a
line. -/
theorem C6_modEdgeSplit_new_edge_record (cb : LWT_BE_CALLBACKS σ G)
    (geo : GeomOps G) (s : σ) (loc : Locals G) (edge : LWT_ELEMID) (pt : G)
    (skipISOChecks : Int)
    (h : (lwt_ModEdgeSplit cb geo (World.init s) loc edge pt
      skipISOChecks).1.errors = []) :
    ∃ (E : LWT_ISO_EDGE G) (node : LWT_ISO_NODE G) (nret : Int)
      (id : LWT_ELEMID) (newedge out : LWT_ISO_EDGE G) (ret : Int)
      (split g0 g1 : G) (rest : List G),
      (cb.getEdgeById s [edge] 1 LWT_COL_EDGE_ALL).2.1 = some E ∧
      geo.lwgeom_split E.geom pt = some split ∧
      geo.lwgeom_as_lwcollection split = some (g0 :: g1 :: rest) ∧
      BeCall.insertNodes ⟨-1, -1, pt⟩ 1 node nret ∈
        (lwt_ModEdgeSplit cb geo (World.init s) loc edge pt
          skipISOChecks).1.calls ∧
      BeCall.getNextEdgeId id ∈
        (lwt_ModEdgeSplit cb geo (World.init s) loc edge pt
          skipISOChecks).1.calls ∧
      BeCall.insertEdges newedge 1 out ret ∈
        (lwt_ModEdgeSplit cb geo (World.init s) loc edge pt
          skipISOChecks).1.calls ∧
      (∀ e n o r, BeCall.insertEdges e n o r ∈
        (lwt_ModEdgeSplit cb geo (World.init s) loc edge pt
          skipISOChecks).1.calls → e = newedge) ∧
      newedge.edge_id = id ∧
      newedge.start_node = node.node_id ∧
      newedge.end_node = E.end_node ∧
      newedge.face_left = E.face_left ∧
      newedge.face_right = E.face_right ∧
      newedge.next_right = -E.edge_id ∧
      geo.lwgeom_as_lwline g1 = some newedge.geom := by
  obtain ⟨t, ⟨⟨hq, -, hs, hc⟩, hw⟩, hrun⟩ :=
    lwt_ModEdgeSplit_success cb geo s loc edge pt skipISOChecks h
  rw [hrun]
  refine ⟨t.oldedge, t.node, t.node_ret, t.new_id, t.newedge0, t.newedge1,
    t.ins_ret, t.split, t.oldedge_geom, t.newedge_geom, t.others,
    by rw [hq], hs, hc, ?_, ?_, ?_, ?_, rfl, rfl, rfl, rfl, rfl, rfl,
    hw.2.2.2.2.2.1⟩
  · simp [SplitRun.calls, SplitRun.writeCalls]
  · simp [SplitRun.calls, SplitRun.writeCalls]
  · simp [SplitRun.calls, SplitRun.writeCalls]
  · intro e n o r hm
    exact (mem_splitRun_calls_insertEdges t loc edge pt skipISOChecks e n o r
      hm).1

/-- C6 at a concrete input: edge 1 of the one-edge store is split at
abscissa 4; the run raises nothing. -/
theorem C6_modEdgeSplit_new_edge_record_witness :
    (lwt_ModEdgeSplit (refBackend geo1Ref) geo1Ops (World.init oneEdgeStore)
      someLocals 1 (Geo1.point 4) 0).1.errors = [] ∧
    (∃ (E : LWT_ISO_EDGE Geo1) (node : LWT_ISO_NODE Geo1) (nret : Int)
      (id : LWT_ELEMID) (newedge out : LWT_ISO_EDGE Geo1) (ret : Int)
      (split g0 g1 : Geo1) (rest : List Geo1),
      ((refBackend geo1Ref).getEdgeById oneEdgeStore [1] 1 LWT_COL_EDGE_ALL).2.1 = some E ∧
      geo1Ops.lwgeom_split E.geom (Geo1.point 4) = some split ∧
      geo1Ops.lwgeom_as_lwcollection split = some (g0 :: g1 :: rest) ∧
      BeCall.insertNodes ⟨-1, -1, Geo1.point 4⟩ 1 node nret ∈
        (lwt_ModEdgeSplit (refBackend geo1Ref) geo1Ops
          (World.init oneEdgeStore) someLocals 1 (Geo1.point 4) 0).1.calls ∧
      BeCall.getNextEdgeId id ∈
        (lwt_ModEdgeSplit (refBackend geo1Ref) geo1Ops
          (World.init oneEdgeStore) someLocals 1 (Geo1.point 4) 0).1.calls ∧
      BeCall.insertEdges newedge 1 out ret ∈
        (lwt_ModEdgeSplit (refBackend geo1Ref) geo1Ops
          (World.init oneEdgeStore) someLocals 1 (Geo1.point 4) 0).1.calls ∧
      (∀ e n o r, BeCall.insertEdges e n o r ∈
        (lwt_ModEdgeSplit (refBackend geo1Ref) geo1Ops
          (World.init oneEdgeStore) someLocals 1 (Geo1.point 4) 0).1.calls → e = newedge) ∧
      newedge.edge_id = id ∧
      newedge.start_node = node.node_id ∧
      newedge.end_node = E.end_node ∧
      newedge.face_left = E.face_left ∧
      newedge.face_right = E.face_right ∧
      newedge.next_right = -E.edge_id ∧
      geo1Ops.lwgeom_as_lwline g1 = some newedge.geom) :=
  ⟨by decide,
    C6_modEdgeSplit_new_edge_record (refBackend geo1Ref) geo1Ops
      oneEdgeStore someLocals 1 (Geo1.point 4) 0 (by decide)⟩

end SplitNewEdgeRecord

section SplitMembers

variable {σ G : Type}

/-- When the edge is fetched and the coincident node check is passed or
skipped, `lwt_ModEdgeSplit` is what the split step makes of the world reached
so far. -/
theorem lwt_ModEdgeSplit_reaches_split (cb : LWT_BE_CALLBACKS σ G)
    (geo : GeomOps G) (s s1 : σ) (loc : Locals G) (edge : LWT_ELEMID) (pt : G)
    (skipISOChecks : Int) (E : LWT_ISO_EDGE G) (i : Int)
    (hq : cb.getEdgeById s [edge] 1 LWT_COL_EDGE_ALL = (s1, some E, i))
    (hchk : skipISOChecks = 0 →
      (cb.getNodeWithinDistance2D s1 pt 0 0 0 (-1)).2.2 = 0) :
    lwt_ModEdgeSplit cb geo (World.init s) loc edge pt skipISOChecks =
      lwt_ModEdgeSplit_split cb geo
        ⟨if skipISOChecks = 0
          then (cb.getNodeWithinDistance2D s1 pt 0 0 0 (-1)).1 else s1,
         BeCall.getEdgeById [edge] 1 LWT_COL_EDGE_ALL (some E) i ::
          (if skipISOChecks = 0
            then [BeCall.getNodeWithinDistance2D pt 0 0 0 (-1)
              (cb.getNodeWithinDistance2D s1 pt 0 0 0 (-1)).2.1 0]
            else []),
         []⟩ loc (some E) pt := by
  by_cases hk : skipISOChecks = 0
  · have h0 := hchk hk
    simp [lwt_ModEdgeSplit, lwt_be_getEdgeById, World.init, hq,
      lwt_ModEdgeSplit_checks, hk, lwt_be_ExistsCoincidentNode,
      lwt_be_getNodeWithinDistance2D, h0]
  · simp [lwt_ModEdgeSplit, lwt_be_getEdgeById, World.init, hq,
      lwt_ModEdgeSplit_checks, hk]

/-- C8 as stated fails: with a splitter that cuts the edge in three, the
split of edge 1 has three members and `lwt_ModEdgeSplit` raises nothing and
returns the new node id. -/
theorem C8_counterexample :
    (geo1Thirds.lwgeom_split (Geo1.segment 0 10) (Geo1.point 4)).bind
      geo1Thirds.lwgeom_as_lwcollection =
      some [Geo1.segment 0 1, Geo1.segment 1 2, Geo1.segment 2 10] ∧
    (lwt_ModEdgeSplit (refBackend geo1Ref) geo1Thirds
      (World.init oneEdgeStore) someLocals 1 (Geo1.point 4) 0).1.errors = [] ∧
    (lwt_ModEdgeSplit (refBackend geo1Ref) geo1Thirds
      (World.init oneEdgeStore) someLocals 1 (Geo1.point 4) 0).2 =
      Outcome.ret 3 := by
  decide

/-- C8, amended: once the edge `E` is fetched and the coincident node check
is passed or skipped, a split of `E.geom` by the point into a collection of
fewer than two members makes `lwt_ModEdgeSplit` return -1 with exactly the
point not on edge message; a collection of two or more members is not
rejected: the run goes on with the first two members as head and tail and
does not look at the others, and it fails when one of these two is not a
line. -/
theorem C8_modEdgeSplit_split_members (cb : LWT_BE_CALLBACKS σ G)
    (geo : GeomOps G) (s s1 : σ) (loc : Locals G) (edge : LWT_ELEMID) (pt : G)
    (skipISOChecks : Int) (E : LWT_ISO_EDGE G) (i : Int) (split : G)
    (members : List G)
    (hq : cb.getEdgeById s [edge] 1 LWT_COL_EDGE_ALL = (s1, some E, i))
    (hchk : skipISOChecks = 0 →
      (cb.getNodeWithinDistance2D s1 pt 0 0 0 (-1)).2.2 = 0)
    (hsplit : geo.lwgeom_split E.geom pt = some split)
    (hcol : geo.lwgeom_as_lwcollection split = some members) :
    (members.length < 2 →
      (lwt_ModEdgeSplit cb geo (World.init s) loc edge pt skipISOChecks).2 =
        Outcome.ret (-1) ∧
      (lwt_ModEdgeSplit cb geo (World.init s) loc edge pt
        skipISOChecks).1.errors =
        [⟨"SQL/MM Spatial exception - point not on edge", []⟩]) ∧
    (∀ g0 g1 rest, members = g0 :: g1 :: rest →
      lwt_ModEdgeSplit cb geo (World.init s) loc edge pt skipISOChecks =
        lwt_ModEdgeSplit_addNode cb geo
          ⟨if skipISOChecks = 0
            then (cb.getNodeWithinDistance2D s1 pt 0 0 0 (-1)).1 else s1,
           BeCall.getEdgeById [edge] 1 LWT_COL_EDGE_ALL (some E) i ::
            (if skipISOChecks = 0
              then [BeCall.getNodeWithinDistance2D pt 0 0 0 (-1)
                (cb.getNodeWithinDistance2D s1 pt 0 0 0 (-1)).2.1 0]
              else []),
           []⟩ loc E pt g0 g1) ∧
    (∀ g0 g1 rest, members = g0 :: g1 :: rest →
      geo.lwgeom_as_lwline g0 = none ∨ geo.lwgeom_as_lwline g1 = none →
      (lwt_ModEdgeSplit cb geo (World.init s) loc edge pt
        skipISOChecks).1.errors ≠ []) := by
  refine ⟨?_, ?_, ?_⟩
  · rw [lwt_ModEdgeSplit_reaches_split cb geo s s1 loc edge pt skipISOChecks
      E i hq hchk]
    intro hlen
    match members, hcol, hlen with
    | [], hcol, _ => simp [lwt_ModEdgeSplit_split, hsplit, hcol, lwerror]
    | [_], hcol, _ => simp [lwt_ModEdgeSplit_split, hsplit, hcol, lwerror]
  · rw [lwt_ModEdgeSplit_reaches_split cb geo s s1 loc edge pt skipISOChecks
      E i hq hchk]
    intro g0 g1 rest hm
    subst hm
    simp [lwt_ModEdgeSplit_split, hsplit, hcol]
  · intro g0 g1 rest hm hline hok
    obtain ⟨t, ⟨⟨tq, -, ts, tc⟩, tw⟩, -⟩ :=
      lwt_ModEdgeSplit_success cb geo s loc edge pt skipISOChecks hok
    rw [hq] at tq
    have hE : E = t.oldedge := by
      have := congrArg (fun x => x.2.1) tq
      simpa using this
    subst hE
    rw [hsplit] at ts
    have hsp : split = t.split := by simpa using ts
    subst hsp
    rw [hcol, hm] at tc
    have hg0 : g0 = t.oldedge_geom := by
      have := congrArg (fun x => x.bind List.head?) tc
      simpa using this
    have hg1 : g1 = t.newedge_geom := by
      have := congrArg (fun x => x.bind (fun l => l.tail.head?)) tc
      simpa using this
    subst hg0 hg1
    have h0 := tw.2.2.2.2.2.2.2.2.2.1
    have h1 := tw.2.2.2.2.2.1
    rcases hline with hline | hline
    · rw [hline] at h0; exact Option.noConfusion h0
    · rw [hline] at h1; exact Option.noConfusion h1

/-- C8 (amended) at a concrete input: edge 1 of the one-edge store, a segment
from 0 to 10, is split at abscissa 14, which is not on it. -/
theorem C8_modEdgeSplit_split_members_witness :
    (refBackend geo1Ref).getEdgeById oneEdgeStore [1] 1 LWT_COL_EDGE_ALL =
      (oneEdgeStore,
        some ⟨1, 1, 2, 0, 0, -1, 1, Geo1.segment 0 10⟩, 1) ∧
    geo1Ops.lwgeom_split (Geo1.segment 0 10) (Geo1.point 14) =
      some (Geo1.coll [(0, 10)]) ∧
    geo1Ops.lwgeom_as_lwcollection (Geo1.coll [(0, 10)]) =
      some [Geo1.segment 0 10] ∧
    (lwt_ModEdgeSplit (refBackend geo1Ref) geo1Ops (World.init oneEdgeStore)
      someLocals 1 (Geo1.point 14) 0).1.errors =
      [⟨"SQL/MM Spatial exception - point not on edge", []⟩] :=
  ⟨by decide, by decide, by decide,
    ((C8_modEdgeSplit_split_members (refBackend geo1Ref) geo1Ops oneEdgeStore
      oneEdgeStore someLocals 1 (Geo1.point 14) 0
      ⟨1, 1, 2, 0, 0, -1, 1, Geo1.segment 0 10⟩ 1 (Geo1.coll [(0, 10)])
      [Geo1.segment 0 10] (by decide) (by decide) (by decide)
      (by decide)).1 (by decide)).2⟩

/-- C9: once the edge `E` is fetched and the coincident node check is passed
or skipped, a split of `E.geom` by the point into fewer than two members makes
`lwt_ModEdgeSplit` return -1 with exactly the point not on edge message; the
backend calls made are the edge fetch and, when checks are enabled, the
coincident node query, and nothing else: no mutating call. -/
theorem C9_modEdgeSplit_point_not_on_edge (cb : LWT_BE_CALLBACKS σ G)
    (geo : GeomOps G) (s s1 : σ) (loc : Locals G) (edge : LWT_ELEMID) (pt : G)
    (skipISOChecks : Int) (E : LWT_ISO_EDGE G) (i : Int) (split : G)
    (members : List G)
    (hq : cb.getEdgeById s [edge] 1 LWT_COL_EDGE_ALL = (s1, some E, i))
    (hchk : skipISOChecks = 0 →
      (cb.getNodeWithinDistance2D s1 pt 0 0 0 (-1)).2.2 = 0)
    (hsplit : geo.lwgeom_split E.geom pt = some split)
    (hcol : geo.lwgeom_as_lwcollection split = some members)
    (hlen : members.length < 2) :
    (lwt_ModEdgeSplit cb geo (World.init s) loc edge pt skipISOChecks).2 =
      Outcome.ret (-1) ∧
    (lwt_ModEdgeSplit cb geo (World.init s) loc edge pt skipISOChecks).1.errors =
      [⟨"SQL/MM Spatial exception - point not on edge", []⟩] ∧
    (lwt_ModEdgeSplit cb geo (World.init s) loc edge pt skipISOChecks).1.calls =
      BeCall.getEdgeById [edge] 1 LWT_COL_EDGE_ALL (some E) i ::
        (if skipISOChecks = 0
          then [BeCall.getNodeWithinDistance2D pt 0 0 0 (-1)
            (cb.getNodeWithinDistance2D s1 pt 0 0 0 (-1)).2.1 0]
          else []) ∧
    mutationCalls
      (lwt_ModEdgeSplit cb geo (World.init s) loc edge pt skipISOChecks).1.calls
      = 0 := by
  rw [lwt_ModEdgeSplit_reaches_split cb geo s s1 loc edge pt skipISOChecks E i
    hq hchk]
  match members, hcol, hlen with
  | [], hcol, _ =>
    by_cases hk : skipISOChecks = 0 <;>
      simp [lwt_ModEdgeSplit_split, hsplit, hcol, lwerror, hk, mutationCalls,
        BeCall.isMutation]
  | [_], hcol, _ =>
    by_cases hk : skipISOChecks = 0 <;>
      simp [lwt_ModEdgeSplit_split, hsplit, hcol, lwerror, hk, mutationCalls,
        BeCall.isMutation]

/-- C9 at a concrete input: edge 1 of the one-edge store, a segment from 0 to
10, is split at abscissa 14, which is not on it, with checks enabled. -/
theorem C9_modEdgeSplit_point_not_on_edge_witness :
    (refBackend geo1Ref).getEdgeById oneEdgeStore [1] 1 LWT_COL_EDGE_ALL =
      (oneEdgeStore,
        some ⟨1, 1, 2, 0, 0, -1, 1, Geo1.segment 0 10⟩, 1) ∧
    ((refBackend geo1Ref).getNodeWithinDistance2D oneEdgeStore (Geo1.point 14)
      0 0 0 (-1)).2.2 = 0 ∧
    geo1Ops.lwgeom_split (Geo1.segment 0 10) (Geo1.point 14) =
      some (Geo1.coll [(0, 10)]) ∧
    geo1Ops.lwgeom_as_lwcollection (Geo1.coll [(0, 10)]) =
      some [Geo1.segment 0 10] ∧
    (lwt_ModEdgeSplit (refBackend geo1Ref) geo1Ops (World.init oneEdgeStore)
      someLocals 1 (Geo1.point 14) 0).1.errors =
      [⟨"SQL/MM Spatial exception - point not on edge", []⟩] ∧
    mutationCalls (lwt_ModEdgeSplit (refBackend geo1Ref) geo1Ops
      (World.init oneEdgeStore) someLocals 1 (Geo1.point 14) 0).1.calls = 0 :=
  have h := C9_modEdgeSplit_point_not_on_edge (refBackend geo1Ref) geo1Ops
    oneEdgeStore oneEdgeStore someLocals 1 (Geo1.point 14) 0
    ⟨1, 1, 2, 0, 0, -1, 1, Geo1.segment 0 10⟩ 1 (Geo1.coll [(0, 10)])
    [Geo1.segment 0 10] (by decide) (by decide) (by decide) (by decide)
    (by decide)
  ⟨by decide, by decide, by decide, by decide, h.2.1, h.2.2.2⟩

end SplitMembers

section SplitOldEdgeUpdate

variable {σ G : Type}

theorem mask_geom_next_left_end_node :
    (LWT_COL_EDGE_GEOM ||| LWT_COL_EDGE_NEXT_LEFT ||| LWT_COL_EDGE_END_NODE) =
      ({ geom := true, next_left := true, end_node := true } : EdgeFields) := by
  decide

theorem mask_next_right_start_node :
    (LWT_COL_EDGE_NEXT_RIGHT ||| LWT_COL_EDGE_START_NODE) =
      ({ next_right := true, start_node := true } : EdgeFields) := by
  decide

theorem mask_next_left_end_node :
    (LWT_COL_EDGE_NEXT_LEFT ||| LWT_COL_EDGE_END_NODE) =
      ({ next_left := true, end_node := true } : EdgeFields) := by
  decide

theorem mem_splitRun_calls_updateEdges_none (t : SplitRun σ G) (loc : Locals G)
    (edge : LWT_ELEMID) (pt : G) (skipISOChecks : Int)
    (sel : LWT_ISO_EDGE G) (sf : EdgeFields) (u : LWT_ISO_EDGE G)
    (uf ef : EdgeFields) (r : Int)
    (h : BeCall.updateEdges sel sf u uf none ef r ∈
      t.calls loc edge pt skipISOChecks) :
    sel = t.oldedge ∧ sf = LWT_COL_EDGE_EDGE_ID ∧ u = t.updedge1 loc ∧
    uf = (LWT_COL_EDGE_GEOM ||| LWT_COL_EDGE_NEXT_LEFT |||
      LWT_COL_EDGE_END_NODE) ∧ ef = 0 ∧ r = t.upd_ret := by
  by_cases hk : skipISOChecks = 0 <;>
    simpa [SplitRun.calls, SplitRun.readCalls, SplitRun.writeCalls, hk] using h

/-- C7: on a run of `lwt_ModEdgeSplit` that raises nothing, with `E` the edge
fetched, `node` the node record handed back by `insertNodes`, `out` the new
edge record as it stands after `insertEdges` and `g0` the first member of the
split, exactly one `updateEdges` call has no exclusion record; its selector is
`E` under the mask holding `edge_id` alone, its exclusion mask is 0, and its
update mask holds `geom`, `next_left` and `end_node` and nothing else, with
`geom` the member `g0` taken as a line, `end_node` the id in `node` and
`next_left` the edge id in `out` (not negated). Applied as specified, this
selects a row by its `edge_id` only and leaves the `edge_id`, `start_node`,
`face_left`, `face_right` and `next_right` of every row as they were. -/
theorem C7_modEdgeSplit_update_old_edge [DecidableEq G]
    (cb : LWT_BE_CALLBACKS σ G)
    (geo : GeomOps G) (s : σ) (loc : Locals G) (edge : LWT_ELEMID) (pt : G)
    (skipISOChecks : Int)
    (h : (lwt_ModEdgeSplit cb geo (World.init s) loc edge pt
      skipISOChecks).1.errors = []) :
    ∃ (E : LWT_ISO_EDGE G) (node : LWT_ISO_NODE G) (nret : Int)
      (newedge out : LWT_ISO_EDGE G) (iret : Int) (upd : LWT_ISO_EDGE G)
      (ret : Int) (split g0 g1 : G) (rest : List G),
      (cb.getEdgeById s [edge] 1 LWT_COL_EDGE_ALL).2.1 = some E ∧
      geo.lwgeom_split E.geom pt = some split ∧
      geo.lwgeom_as_lwcollection split = some (g0 :: g1 :: rest) ∧
      BeCall.insertNodes ⟨-1, -1, pt⟩ 1 node nret ∈
        (lwt_ModEdgeSplit cb geo (World.init s) loc edge pt
          skipISOChecks).1.calls ∧
      BeCall.insertEdges newedge 1 out iret ∈
        (lwt_ModEdgeSplit cb geo (World.init s) loc edge pt
          skipISOChecks).1.calls ∧
      BeCall.updateEdges E LWT_COL_EDGE_EDGE_ID upd
          (LWT_COL_EDGE_GEOM ||| LWT_COL_EDGE_NEXT_LEFT |||
            LWT_COL_EDGE_END_NODE) none 0 ret ∈
        (lwt_ModEdgeSplit cb geo (World.init s) loc edge pt
          skipISOChecks).1.calls ∧
      (∀ sel sf u uf ef r, BeCall.updateEdges sel sf u uf none ef r ∈
        (lwt_ModEdgeSplit cb geo (World.init s) loc edge pt
          skipISOChecks).1.calls →
        sel = E ∧ sf = LWT_COL_EDGE_EDGE_ID ∧ u = upd ∧
        uf = (LWT_COL_EDGE_GEOM ||| LWT_COL_EDGE_NEXT_LEFT |||
          LWT_COL_EDGE_END_NODE) ∧ ef = 0) ∧
      LWT_COL_EDGE_EDGE_ID = ({ edge_id := true } : EdgeFields) ∧
      (LWT_COL_EDGE_GEOM ||| LWT_COL_EDGE_NEXT_LEFT ||| LWT_COL_EDGE_END_NODE) =
        ({ geom := true, next_left := true, end_node := true } : EdgeFields) ∧
      geo.lwgeom_as_lwline g0 = some upd.geom ∧
      upd.end_node = node.node_id ∧
      upd.next_left = out.edge_id ∧
      (∀ row : LWT_ISO_EDGE G,
        edgeSelected E LWT_COL_EDGE_EDGE_ID none 0 row =
          decide (row.edge_id = E.edge_id)) ∧
      (∀ row : LWT_ISO_EDGE G,
        edgeApply upd (LWT_COL_EDGE_GEOM ||| LWT_COL_EDGE_NEXT_LEFT |||
          LWT_COL_EDGE_END_NODE) row =
          { row with geom := upd.geom, next_left := upd.next_left,
                     end_node := upd.end_node }) := by
  obtain ⟨t, ⟨⟨hq, -, hs, hc⟩, hw⟩, hrun⟩ :=
    lwt_ModEdgeSplit_success cb geo s loc edge pt skipISOChecks h
  rw [hrun]
  refine ⟨t.oldedge, t.node, t.node_ret, t.newedge0, t.newedge1, t.ins_ret,
    t.updedge1 loc, t.upd_ret, t.split, t.oldedge_geom, t.newedge_geom,
    t.others, by rw [hq], hs, hc, ?_, ?_, ?_, ?_, rfl,
    mask_geom_next_left_end_node, hw.2.2.2.2.2.2.2.2.2.1, rfl, rfl, ?_, ?_⟩
  · simp [SplitRun.calls, SplitRun.writeCalls]
  · simp [SplitRun.calls, SplitRun.writeCalls]
  · simp [SplitRun.calls, SplitRun.writeCalls]
  · intro sel sf u uf ef r hm
    obtain ⟨h1, h2, h3, h4, h5, -⟩ := mem_splitRun_calls_updateEdges_none t loc
      edge pt skipISOChecks sel sf u uf ef r hm
    exact ⟨h1, h2, h3, h4, h5⟩
  · intro row
    simp [edgeSelected, edgeMatches, LWT_COL_EDGE_EDGE_ID]
  · intro row
    rw [mask_geom_next_left_end_node]
    simp [edgeApply]

/-- C7 at a concrete input: edge 1 of the one-edge store is split at
abscissa 4; the run raises nothing. -/
theorem C7_modEdgeSplit_update_old_edge_witness :
    (lwt_ModEdgeSplit (refBackend geo1Ref) geo1Ops (World.init oneEdgeStore)
      someLocals 1 (Geo1.point 4) 0).1.errors = [] ∧
    (∃ (E : LWT_ISO_EDGE Geo1) (node : LWT_ISO_NODE Geo1) (nret : Int)
      (newedge out : LWT_ISO_EDGE Geo1) (iret : Int) (upd : LWT_ISO_EDGE Geo1)
      (ret : Int) (split g0 g1 : Geo1) (rest : List Geo1),
      ((refBackend geo1Ref).getEdgeById oneEdgeStore [1] 1 LWT_COL_EDGE_ALL).2.1 = some E ∧
      geo1Ops.lwgeom_split E.geom (Geo1.point 4) = some split ∧
      geo1Ops.lwgeom_as_lwcollection split = some (g0 :: g1 :: rest) ∧
      BeCall.insertNodes ⟨-1, -1, Geo1.point 4⟩ 1 node nret ∈
        (lwt_ModEdgeSplit (refBackend geo1Ref) geo1Ops
          (World.init oneEdgeStore) someLocals 1 (Geo1.point 4) 0).1.calls ∧
      BeCall.insertEdges newedge 1 out iret ∈
        (lwt_ModEdgeSplit (refBackend geo1Ref) geo1Ops
          (World.init oneEdgeStore) someLocals 1 (Geo1.point 4) 0).1.calls ∧
      BeCall.updateEdges E LWT_COL_EDGE_EDGE_ID upd
          (LWT_COL_EDGE_GEOM ||| LWT_COL_EDGE_NEXT_LEFT |||
            LWT_COL_EDGE_END_NODE) none 0 ret ∈
        (lwt_ModEdgeSplit (refBackend geo1Ref) geo1Ops
          (World.init oneEdgeStore) someLocals 1 (Geo1.point 4) 0).1.calls ∧
      (∀ sel sf u uf ef r, BeCall.updateEdges sel sf u uf none ef r ∈
        (lwt_ModEdgeSplit (refBackend geo1Ref) geo1Ops
          (World.init oneEdgeStore) someLocals 1 (Geo1.point 4) 0).1.calls →
        sel = E ∧ sf = LWT_COL_EDGE_EDGE_ID ∧ u = upd ∧
        uf = (LWT_COL_EDGE_GEOM ||| LWT_COL_EDGE_NEXT_LEFT |||
          LWT_COL_EDGE_END_NODE) ∧ ef = 0) ∧
      LWT_COL_EDGE_EDGE_ID = ({ edge_id := true } : EdgeFields) ∧
      (LWT_COL_EDGE_GEOM ||| LWT_COL_EDGE_NEXT_LEFT ||| LWT_COL_EDGE_END_NODE) =
        ({ geom := true, next_left := true, end_node := true } : EdgeFields) ∧
      geo1Ops.lwgeom_as_lwline g0 = some upd.geom ∧
      upd.end_node = node.node_id ∧
      upd.next_left = out.edge_id ∧
      (∀ row : LWT_ISO_EDGE Geo1,
        edgeSelected E LWT_COL_EDGE_EDGE_ID none 0 row =
          decide (row.edge_id = E.edge_id)) ∧
      (∀ row : LWT_ISO_EDGE Geo1,
        edgeApply upd (LWT_COL_EDGE_GEOM ||| LWT_COL_EDGE_NEXT_LEFT |||
          LWT_COL_EDGE_END_NODE) row =
          { row with geom := upd.geom, next_left := upd.next_left,
                     end_node := upd.end_node })) :=
  ⟨by decide,
    C7_modEdgeSplit_update_old_edge (refBackend geo1Ref) geo1Ops
      oneEdgeStore someLocals 1 (Geo1.point 4) 0 (by decide)⟩

end SplitOldEdgeUpdate

section EdgeTableFacts

variable {σ G : Type} [DecidableEq G]

/-- The reference backend implements the edge table. -/
theorem refBackend_implements (rg : RefGeom G) :
    ImplementsEdgeTable (refBackend rg) RefStore.edges where
  fetch_row := by
    intro s ids n f s1 e k hq
    simp only [refBackend] at hq
    cases hfind : s.edges.find? (fun e => decide (e.edge_id ∈ ids)) with
    | none => rw [hfind] at hq; simp at hq
    | some e2 =>
      rw [hfind] at hq
      simp only [Prod.mk.injEq, Option.some.injEq] at hq
      obtain ⟨-, h2, -⟩ := hq
      subst h2
      refine ⟨List.mem_of_find?_eq_some hfind, ?_⟩
      have := List.find?_some hfind
      simpa using this
  fetch_keeps := by
    intro s ids n f
    simp only [refBackend]
    split <;> rfl
  nodeQuery_keeps := by intros; rfl
  edgeQuery_keeps := by intros; rfl
  face_keeps := by intros; rfl
  insertNodes_keeps := by intros; rfl
  nextId_keeps := by intros; rfl
  insertEdges_stores := by intros; exact ⟨rfl, rfl⟩
  updateEdges_applies := by intros; exact ⟨rfl, rfl⟩
  notify_keeps := by intros; rfl

/-- Over a backend that implements the edge table, a run that follows the
code fetches its edge from the table, gets the new edge record back from the
insert as it passed it, and ends with the edge table that the three
conditional updates make, row by row, of the table with the new edge
appended. -/
theorem follows_edges (cb : LWT_BE_CALLBACKS σ G)
    (edgesOf : σ → List (LWT_ISO_EDGE G))
    (hspec : ImplementsEdgeTable cb edgesOf) (geo : GeomOps G)
    (s : σ) (loc : Locals G) (edge : LWT_ELEMID) (pt : G)
    (skipISOChecks : Int) (t : SplitRun σ G)
    (ht : t.Follows cb geo s loc edge pt skipISOChecks) :
    t.oldedge ∈ edgesOf s ∧ t.oldedge.edge_id = edge ∧
    t.newedge1 = t.newedge0 ∧
    edgesOf t.s_final = (edgesOf s ++ [t.newedge0]).map (t.rowAfter loc) := by
  obtain ⟨⟨hq, hc, -, -⟩, hn, -, -, hi, hid, -, he, he1, he0, -, hu, hu1, -,
    -, hr, hr1, hl, hl1, hf, -⟩ := ht
  obtain ⟨hmem, hedge⟩ := hspec.fetch_row _ _ _ _ _ _ _ hq
  have hs1 : edgesOf t.s_fetch = edgesOf s := by
    have := hspec.fetch_keeps s [edge] 1 LWT_COL_EDGE_ALL
    rwa [hq] at this
  have hs2 : edgesOf t.s_check = edgesOf s := by
    by_cases hk : skipISOChecks = 0
    · rw [if_pos hk] at hc
      have := hspec.nodeQuery_keeps t.s_fetch pt 0 0 0 (-1)
      rw [hc] at this
      rw [this, hs1]
    · rw [if_neg hk] at hc
      rw [hc, hs1]
  have hs3 : edgesOf t.s_node = edgesOf s := by
    have := hspec.insertNodes_keeps t.s_check ⟨-1, -1, pt⟩ 1
    rw [hn] at this
    rw [this, hs2]
  have hs4 : edgesOf t.s_id = edgesOf s := by
    have := hspec.nextId_keeps t.s_node
    rw [hi] at this
    rw [this, hs3]
  have hs5 := hspec.insertEdges_stores t.s_id t.newedge0 1 hid
    (by rw [he]; exact he1) (by rw [he]; exact he0)
  rw [he] at hs5
  obtain ⟨hs5, hne⟩ := hs5
  have hs6 := (hspec.updateEdges_applies t.s_ins t.oldedge LWT_COL_EDGE_EDGE_ID
    (t.updedge1 loc)
    (LWT_COL_EDGE_GEOM ||| LWT_COL_EDGE_NEXT_LEFT ||| LWT_COL_EDGE_END_NODE)
    none 0 (by rw [hu]; exact hu1)).1
  rw [hu] at hs6
  have hs7 := (hspec.updateEdges_applies t.s_upd (t.seledge2 loc)
    (LWT_COL_EDGE_NEXT_RIGHT ||| LWT_COL_EDGE_START_NODE) (t.updedge2 loc)
    LWT_COL_EDGE_NEXT_RIGHT (some (t.excedge loc)) LWT_COL_EDGE_EDGE_ID
    (by rw [hr]; exact hr1)).1
  rw [hr] at hs7
  have hs8 := (hspec.updateEdges_applies t.s_right (t.seledge3 loc)
    (LWT_COL_EDGE_NEXT_LEFT ||| LWT_COL_EDGE_END_NODE) (t.updedge3 loc)
    LWT_COL_EDGE_NEXT_LEFT (some (t.excedge loc)) LWT_COL_EDGE_EDGE_ID
    (by rw [hl]; exact hl1)).1
  rw [hl] at hs8
  have hs9 := hspec.notify_keeps t.s_left t.oldedge.edge_id t.newedge1.edge_id
    (-1)
  rw [hf] at hs9
  refine ⟨hmem, by simpa using hedge, hne, ?_⟩
  dsimp only at hs5 hs6 hs7 hs8 hs9
  rw [hs9, hs8, hs7, hs6, hs5, hs4]
  simp [updateEdgesRows, SplitRun.rowAfter, Function.comp_def]

end EdgeTableFacts

section RowUpdates

variable {G : Type} [DecidableEq G]

omit [DecidableEq G] in
theorem mem_splitRun_calls_updateEdges_next_right {σ : Type}
    (t : SplitRun σ G) (loc : Locals G)
    (edge : LWT_ELEMID) (pt : G) (skipISOChecks : Int)
    (sel : LWT_ISO_EDGE G) (sf : EdgeFields) (u : LWT_ISO_EDGE G)
    (x : Option (LWT_ISO_EDGE G)) (ef : EdgeFields) (r : Int)
    (h : BeCall.updateEdges sel sf u LWT_COL_EDGE_NEXT_RIGHT x ef r ∈
      t.calls loc edge pt skipISOChecks) :
    sel = t.seledge2 loc ∧
    sf = (LWT_COL_EDGE_NEXT_RIGHT ||| LWT_COL_EDGE_START_NODE) ∧
    u = t.updedge2 loc ∧ x = some (t.excedge loc) ∧
    ef = LWT_COL_EDGE_EDGE_ID ∧ r = t.right_ret := by
  have h1 : LWT_COL_EDGE_NEXT_RIGHT ≠
      (LWT_COL_EDGE_GEOM ||| LWT_COL_EDGE_NEXT_LEFT ||| LWT_COL_EDGE_END_NODE) := by
    decide
  have h2 : LWT_COL_EDGE_NEXT_RIGHT ≠ LWT_COL_EDGE_NEXT_LEFT := by decide
  by_cases hk : skipISOChecks = 0 <;>
    simpa [SplitRun.calls, SplitRun.readCalls, SplitRun.writeCalls, hk, h1, h2]
      using h

/-- The update of the old edge, applied as specified to one row: a row with
the selector's `edge_id` gets the `geom`, `next_left` and `end_node` of the
update record. -/
theorem updateEdgeRow_by_id (sel upd row : LWT_ISO_EDGE G) :
    updateEdgeRow sel LWT_COL_EDGE_EDGE_ID upd
      (LWT_COL_EDGE_GEOM ||| LWT_COL_EDGE_NEXT_LEFT ||| LWT_COL_EDGE_END_NODE)
      none 0 row =
      if row.edge_id = sel.edge_id
      then { row with geom := upd.geom, next_left := upd.next_left,
                      end_node := upd.end_node }
      else row := by
  rw [mask_geom_next_left_end_node]
  by_cases h : row.edge_id = sel.edge_id <;>
    simp [updateEdgeRow, edgeSelected, edgeMatches, edgeApply,
      LWT_COL_EDGE_EDGE_ID, h]

/-- The first re-pointing update, applied as specified to one row: a row with
the selector's `next_right` and `start_node` and another `edge_id` than the
exclusion record gets the `next_right` of the update record. -/
theorem updateEdgeRow_next_right (sel upd exc row : LWT_ISO_EDGE G) :
    updateEdgeRow sel (LWT_COL_EDGE_NEXT_RIGHT ||| LWT_COL_EDGE_START_NODE) upd
      LWT_COL_EDGE_NEXT_RIGHT (some exc) LWT_COL_EDGE_EDGE_ID row =
      if row.next_right = sel.next_right ∧ row.start_node = sel.start_node ∧
          row.edge_id ≠ exc.edge_id
      then { row with next_right := upd.next_right }
      else row := by
  rw [mask_next_right_start_node]
  by_cases h1 : row.next_right = sel.next_right <;>
  by_cases h2 : row.start_node = sel.start_node <;>
  by_cases h3 : row.edge_id = exc.edge_id <;>
    simp [updateEdgeRow, edgeSelected, edgeMatches, edgeApply,
      LWT_COL_EDGE_EDGE_ID, LWT_COL_EDGE_NEXT_RIGHT, h1, h2, h3]

/-- The second re-pointing update, applied as specified to one row: a row
with the selector's `next_left` and `end_node` and another `edge_id` than the
exclusion record gets the `next_left` of the update record. -/
theorem updateEdgeRow_next_left (sel upd exc row : LWT_ISO_EDGE G) :
    updateEdgeRow sel (LWT_COL_EDGE_NEXT_LEFT ||| LWT_COL_EDGE_END_NODE) upd
      LWT_COL_EDGE_NEXT_LEFT (some exc) LWT_COL_EDGE_EDGE_ID row =
      if row.next_left = sel.next_left ∧ row.end_node = sel.end_node ∧
          row.edge_id ≠ exc.edge_id
      then { row with next_left := upd.next_left }
      else row := by
  rw [mask_next_left_end_node]
  by_cases h1 : row.next_left = sel.next_left <;>
  by_cases h2 : row.end_node = sel.end_node <;>
  by_cases h3 : row.edge_id = exc.edge_id <;>
    simp [updateEdgeRow, edgeSelected, edgeMatches, edgeApply,
      LWT_COL_EDGE_EDGE_ID, LWT_COL_EDGE_NEXT_LEFT, h1, h2, h3]

/-- The row that the three conditional updates of a split make of a row of
the edge table: its `edge_id` and `start_node` are kept, and its `next_right`
becomes minus the new edge id exactly when it was minus the old edge id on a
row that starts at the old end node and is not the new edge. -/
theorem rowAfter_next_right {σ : Type} (t : SplitRun σ G) (loc : Locals G)
    (row : LWT_ISO_EDGE G) :
    (t.rowAfter loc row).edge_id = row.edge_id ∧
    (t.rowAfter loc row).start_node = row.start_node ∧
    (t.rowAfter loc row).next_right =
      (if row.next_right = -t.oldedge.edge_id ∧
          row.start_node = t.oldedge.end_node ∧
          row.edge_id ≠ t.newedge1.edge_id
       then -t.newedge1.edge_id else row.next_right) := by
  simp only [SplitRun.rowAfter, updateEdgeRow_by_id, updateEdgeRow_next_right,
    updateEdgeRow_next_left]
  simp only [SplitRun.seledge3, SplitRun.seledge2, SplitRun.updedge3,
    SplitRun.updedge2, SplitRun.updedge1, SplitRun.excedge]
  refine ⟨?_, ?_, ?_⟩ <;> split_ifs <;> simp_all

end RowUpdates

section SplitRepointing

variable {σ G : Type} [DecidableEq G]

/-- C10: over a backend that implements the edge table, and so applies
`updateEdges` as specified, on a run of `lwt_ModEdgeSplit` that raises
nothing, with `E` the edge fetched and `newedge` the edge inserted: exactly
one `updateEdges` call has the update mask holding `next_right` alone; its
selector mask holds `next_right` and `start_node`, with selector values
`-E.edge_id` and `E.end_node`, its update value is `-newedge.edge_id`, and its
exclusion is the `edge_id` of `newedge`. Afterwards every row of the edge
table, the new edge included, is still in its place with its `edge_id` and
`start_node`, and its `next_right` is `-newedge.edge_id` if it was
`-E.edge_id` on a row that started at `E.end_node` and is not the new edge,
and is what it was otherwise. -/
theorem C10_modEdgeSplit_repoint_next_right (cb : LWT_BE_CALLBACKS σ G)
    (edgesOf : σ → List (LWT_ISO_EDGE G))
    (hspec : ImplementsEdgeTable cb edgesOf) (geo : GeomOps G)
    (s : σ) (loc : Locals G) (edge : LWT_ELEMID) (pt : G)
    (skipISOChecks : Int)
    (h : (lwt_ModEdgeSplit cb geo (World.init s) loc edge pt
      skipISOChecks).1.errors = []) :
    ∃ (E newedge sel upd exc : LWT_ISO_EDGE G) (iret ret : Int),
      (cb.getEdgeById s [edge] 1 LWT_COL_EDGE_ALL).2.1 = some E ∧
      BeCall.insertEdges newedge 1 newedge iret ∈
        (lwt_ModEdgeSplit cb geo (World.init s) loc edge pt
          skipISOChecks).1.calls ∧
      BeCall.updateEdges sel
          (LWT_COL_EDGE_NEXT_RIGHT ||| LWT_COL_EDGE_START_NODE) upd
          LWT_COL_EDGE_NEXT_RIGHT (some exc) LWT_COL_EDGE_EDGE_ID ret ∈
        (lwt_ModEdgeSplit cb geo (World.init s) loc edge pt
          skipISOChecks).1.calls ∧
      (∀ sel2 sf u x ef r,
        BeCall.updateEdges sel2 sf u LWT_COL_EDGE_NEXT_RIGHT x ef r ∈
          (lwt_ModEdgeSplit cb geo (World.init s) loc edge pt
            skipISOChecks).1.calls →
        sel2 = sel ∧
        sf = (LWT_COL_EDGE_NEXT_RIGHT ||| LWT_COL_EDGE_START_NODE) ∧
        u = upd ∧ x = some exc ∧ ef = LWT_COL_EDGE_EDGE_ID) ∧
      (LWT_COL_EDGE_NEXT_RIGHT ||| LWT_COL_EDGE_START_NODE) =
        ({ next_right := true, start_node := true } : EdgeFields) ∧
      LWT_COL_EDGE_NEXT_RIGHT = ({ next_right := true } : EdgeFields) ∧
      LWT_COL_EDGE_EDGE_ID = ({ edge_id := true } : EdgeFields) ∧
      sel.next_right = -E.edge_id ∧ sel.start_node = E.end_node ∧
      upd.next_right = -newedge.edge_id ∧ exc.edge_id = newedge.edge_id ∧
      (∀ (i : Nat) (row : LWT_ISO_EDGE G),
        (edgesOf s ++ [newedge])[i]? = some row →
        ∃ row2 : LWT_ISO_EDGE G,
          (edgesOf (lwt_ModEdgeSplit cb geo (World.init s) loc edge pt
            skipISOChecks).1.be)[i]? = some row2 ∧
          row2.edge_id = row.edge_id ∧ row2.start_node = row.start_node ∧
          row2.next_right =
            (if row.next_right = -E.edge_id ∧ row.start_node = E.end_node ∧
                row.edge_id ≠ newedge.edge_id
             then -newedge.edge_id else row.next_right)) := by
  obtain ⟨t, ht, hrun⟩ :=
    lwt_ModEdgeSplit_success cb geo s loc edge pt skipISOChecks h
  obtain ⟨-, -, hne, hedges⟩ :=
    follows_edges cb edgesOf hspec geo s loc edge pt skipISOChecks t ht
  have hq := ht.1.1
  rw [hrun]
  refine ⟨t.oldedge, t.newedge1, t.seledge2 loc, t.updedge2 loc, t.excedge loc,
    t.ins_ret, t.right_ret, by rw [hq], ?_, ?_, ?_,
    mask_next_right_start_node, rfl, rfl, rfl, rfl, rfl, rfl, ?_⟩
  · simp [SplitRun.calls, SplitRun.writeCalls, hne]
  · simp [SplitRun.calls, SplitRun.writeCalls]
  · intro sel2 sf u x ef r hm
    obtain ⟨h1, h2, h3, h4, h5, -⟩ :=
      mem_splitRun_calls_updateEdges_next_right t loc edge pt skipISOChecks
        sel2 sf u x ef r hm
    exact ⟨h1, h2, h3, h4, h5⟩
  · intro i row hrow
    dsimp only
    rw [hedges, ← hne, List.getElem?_map, hrow]
    exact ⟨t.rowAfter loc row, rfl, rowAfter_next_right t loc row⟩

/-- C10 at a concrete input: edge 1 of the two-edge store is split at
abscissa 4 over the reference backend; the run raises nothing. -/
theorem C10_modEdgeSplit_repoint_next_right_witness :
    (ImplementsEdgeTable (refBackend geo1Ref) RefStore.edges ∧
     (lwt_ModEdgeSplit (refBackend geo1Ref) geo1Ops (World.init twoEdgeStore)
      someLocals 1 (Geo1.point 4) 0).1.errors = []) ∧
    (∃ (E newedge sel upd exc : LWT_ISO_EDGE Geo1) (iret ret : Int),
      ((refBackend geo1Ref).getEdgeById twoEdgeStore [1] 1 LWT_COL_EDGE_ALL).2.1 = some E ∧
      BeCall.insertEdges newedge 1 newedge iret ∈
        (lwt_ModEdgeSplit (refBackend geo1Ref) geo1Ops
          (World.init twoEdgeStore) someLocals 1 (Geo1.point 4) 0).1.calls ∧
      BeCall.updateEdges sel
          (LWT_COL_EDGE_NEXT_RIGHT ||| LWT_COL_EDGE_START_NODE) upd
          LWT_COL_EDGE_NEXT_RIGHT (some exc) LWT_COL_EDGE_EDGE_ID ret ∈
        (lwt_ModEdgeSplit (refBackend geo1Ref) geo1Ops
          (World.init twoEdgeStore) someLocals 1 (Geo1.point 4) 0).1.calls ∧
      (∀ sel2 sf u x ef r,
        BeCall.updateEdges sel2 sf u LWT_COL_EDGE_NEXT_RIGHT x ef r ∈
          (lwt_ModEdgeSplit (refBackend geo1Ref) geo1Ops
          (World.init twoEdgeStore) someLocals 1 (Geo1.point 4) 0).1.calls →
        sel2 = sel ∧
        sf = (LWT_COL_EDGE_NEXT_RIGHT ||| LWT_COL_EDGE_START_NODE) ∧
        u = upd ∧ x = some exc ∧ ef = LWT_COL_EDGE_EDGE_ID) ∧
      (LWT_COL_EDGE_NEXT_RIGHT ||| LWT_COL_EDGE_START_NODE) =
        ({ next_right := true, start_node := true } : EdgeFields) ∧
      LWT_COL_EDGE_NEXT_RIGHT = ({ next_right := true } : EdgeFields) ∧
      LWT_COL_EDGE_EDGE_ID = ({ edge_id := true } : EdgeFields) ∧
      sel.next_right = -E.edge_id ∧ sel.start_node = E.end_node ∧
      upd.next_right = -newedge.edge_id ∧ exc.edge_id = newedge.edge_id ∧
      (∀ (i : Nat) (row : LWT_ISO_EDGE Geo1),
        (RefStore.edges twoEdgeStore ++ [newedge])[i]? = some row →
        ∃ row2 : LWT_ISO_EDGE Geo1,
          (RefStore.edges (lwt_ModEdgeSplit (refBackend geo1Ref) geo1Ops
          (World.init twoEdgeStore) someLocals 1 (Geo1.point 4) 0).1.be)[i]? = some row2 ∧
          row2.edge_id = row.edge_id ∧ row2.start_node = row.start_node ∧
          row2.next_right =
            (if row.next_right = -E.edge_id ∧ row.start_node = E.end_node ∧
                row.edge_id ≠ newedge.edge_id
             then -newedge.edge_id else row.next_right))) :=
  ⟨⟨refBackend_implements geo1Ref, by decide⟩,
    C10_modEdgeSplit_repoint_next_right (refBackend geo1Ref) RefStore.edges
      (refBackend_implements geo1Ref) geo1Ops twoEdgeStore someLocals 1
      (Geo1.point 4) 0 (by decide)⟩

end SplitRepointing


/-! ## A concrete run -/

/-- Splitting edge 1 of the two-edge store at abscissa 4 over the reference
backend: node 4 is created and returned, edge 1 keeps the head and now ends
at node 4 with edge 3 next on its left, edge 3 is the tail, and edge 2, which
led on to edge 1 backwards, now leads on to edge 3 backwards. -/
theorem twoEdgeStore_split :
    (lwt_ModEdgeSplit (refBackend geo1Ref) geo1Ops (World.init twoEdgeStore)
      someLocals 1 (Geo1.point 4) 0).2 = Outcome.ret 4 ∧
    (lwt_ModEdgeSplit (refBackend geo1Ref) geo1Ops (World.init twoEdgeStore)
      someLocals 1 (Geo1.point 4) 0).1.errors = [] ∧
    (lwt_ModEdgeSplit (refBackend geo1Ref) geo1Ops (World.init twoEdgeStore)
      someLocals 1 (Geo1.point 4) 0).1.be.edges =
      [⟨1, 1, 4, 0, 0, 3, 1, Geo1.segment 0 4⟩,
       ⟨2, 2, 3, 0, 0, -2, -3, Geo1.segment 10 20⟩,
       ⟨3, 4, 2, 0, 0, 2, -1, Geo1.segment 4 10⟩] := by
  decide

section SplitRepointingLeft

variable {σ G : Type} [DecidableEq G]

omit [DecidableEq G] in
theorem mem_splitRun_calls_updateEdges_next_left
    (t : SplitRun σ G) (loc : Locals G)
    (edge : LWT_ELEMID) (pt : G) (skipISOChecks : Int)
    (sel : LWT_ISO_EDGE G) (sf : EdgeFields) (u : LWT_ISO_EDGE G)
    (x : Option (LWT_ISO_EDGE G)) (ef : EdgeFields) (r : Int)
    (h : BeCall.updateEdges sel sf u LWT_COL_EDGE_NEXT_LEFT x ef r ∈
      t.calls loc edge pt skipISOChecks) :
    sel = t.seledge3 loc ∧
    sf = (LWT_COL_EDGE_NEXT_LEFT ||| LWT_COL_EDGE_END_NODE) ∧
    u = t.updedge3 loc ∧ x = some (t.excedge loc) ∧
    ef = LWT_COL_EDGE_EDGE_ID ∧ r = t.left_ret := by
  have h1 : LWT_COL_EDGE_NEXT_LEFT ≠
      (LWT_COL_EDGE_GEOM ||| LWT_COL_EDGE_NEXT_LEFT ||| LWT_COL_EDGE_END_NODE) := by
    decide
  have h2 : LWT_COL_EDGE_NEXT_LEFT ≠ LWT_COL_EDGE_NEXT_RIGHT := by decide
  by_cases hk : skipISOChecks = 0 <;>
    simpa [SplitRun.calls, SplitRun.readCalls, SplitRun.writeCalls, hk, h1, h2]
      using h

/-- What the first two conditional updates of a split make of a row of the
edge table: its `edge_id` is kept; on a row with another `edge_id` than the
old edge, `next_left` and `end_node` are kept; on a row with the `edge_id` of
the old edge they are the new edge id and the new node id. -/
theorem row_before_next_left (t : SplitRun σ G) (loc : Locals G)
    (row : LWT_ISO_EDGE G) :
    (updateEdgeRow (t.seledge2 loc)
      (LWT_COL_EDGE_NEXT_RIGHT ||| LWT_COL_EDGE_START_NODE)
      (t.updedge2 loc) LWT_COL_EDGE_NEXT_RIGHT (some (t.excedge loc))
      LWT_COL_EDGE_EDGE_ID
      (updateEdgeRow t.oldedge LWT_COL_EDGE_EDGE_ID (t.updedge1 loc)
        (LWT_COL_EDGE_GEOM ||| LWT_COL_EDGE_NEXT_LEFT |||
          LWT_COL_EDGE_END_NODE) none 0 row)).edge_id = row.edge_id ∧
    (row.edge_id ≠ t.oldedge.edge_id →
      (updateEdgeRow (t.seledge2 loc)
        (LWT_COL_EDGE_NEXT_RIGHT ||| LWT_COL_EDGE_START_NODE)
        (t.updedge2 loc) LWT_COL_EDGE_NEXT_RIGHT (some (t.excedge loc))
        LWT_COL_EDGE_EDGE_ID
        (updateEdgeRow t.oldedge LWT_COL_EDGE_EDGE_ID (t.updedge1 loc)
          (LWT_COL_EDGE_GEOM ||| LWT_COL_EDGE_NEXT_LEFT |||
            LWT_COL_EDGE_END_NODE) none 0 row)).next_left = row.next_left ∧
      (updateEdgeRow (t.seledge2 loc)
        (LWT_COL_EDGE_NEXT_RIGHT ||| LWT_COL_EDGE_START_NODE)
        (t.updedge2 loc) LWT_COL_EDGE_NEXT_RIGHT (some (t.excedge loc))
        LWT_COL_EDGE_EDGE_ID
        (updateEdgeRow t.oldedge LWT_COL_EDGE_EDGE_ID (t.updedge1 loc)
          (LWT_COL_EDGE_GEOM ||| LWT_COL_EDGE_NEXT_LEFT |||
            LWT_COL_EDGE_END_NODE) none 0 row)).end_node = row.end_node) ∧
    (row.edge_id = t.oldedge.edge_id →
      (updateEdgeRow (t.seledge2 loc)
        (LWT_COL_EDGE_NEXT_RIGHT ||| LWT_COL_EDGE_START_NODE)
        (t.updedge2 loc) LWT_COL_EDGE_NEXT_RIGHT (some (t.excedge loc))
        LWT_COL_EDGE_EDGE_ID
        (updateEdgeRow t.oldedge LWT_COL_EDGE_EDGE_ID (t.updedge1 loc)
          (LWT_COL_EDGE_GEOM ||| LWT_COL_EDGE_NEXT_LEFT |||
            LWT_COL_EDGE_END_NODE) none 0 row)).next_left
        = t.newedge1.edge_id ∧
      (updateEdgeRow (t.seledge2 loc)
        (LWT_COL_EDGE_NEXT_RIGHT ||| LWT_COL_EDGE_START_NODE)
        (t.updedge2 loc) LWT_COL_EDGE_NEXT_RIGHT (some (t.excedge loc))
        LWT_COL_EDGE_EDGE_ID
        (updateEdgeRow t.oldedge LWT_COL_EDGE_EDGE_ID (t.updedge1 loc)
          (LWT_COL_EDGE_GEOM ||| LWT_COL_EDGE_NEXT_LEFT |||
            LWT_COL_EDGE_END_NODE) none 0 row)).end_node
        = t.node.node_id) := by
  simp only [updateEdgeRow_by_id, updateEdgeRow_next_right]
  simp only [SplitRun.seledge2, SplitRun.updedge2, SplitRun.updedge1,
    SplitRun.excedge]
  refine ⟨?_, ?_, ?_⟩
  · split_ifs <;> simp_all
  · intro h
    constructor <;> split_ifs <;> simp_all
  · intro h
    constructor <;> split_ifs <;> simp_all

/-- C11: over a backend that implements the edge table, and so applies
`updateEdges` as specified, on a run of `lwt_ModEdgeSplit` that raises
nothing, with `E` the edge fetched, `node` the node inserted and `newedge`
the edge inserted: exactly one `updateEdges` call has the update mask holding
`next_left` alone; its selector mask holds `next_left` and `end_node`, with
selector values `-E.edge_id` and `E.end_node`, its update value is
`-newedge.edge_id`, and its exclusion is the `edge_id` of `newedge`. It is the
last of the three updates. With `mid` what the first two updates have made of
a row of the table (they keep `next_left` and `end_node` on every row but the
rows with the `edge_id` of `E`, where they have put the new edge id and the
new node id), the row ends as `mid` with `next_left` set to
`-newedge.edge_id` if `mid` has `next_left = -E.edge_id`,
`end_node = E.end_node` and is not the new edge, and as `mid` itself
otherwise: nothing but `next_left` is written. -/
theorem C11_modEdgeSplit_repoint_next_left (cb : LWT_BE_CALLBACKS σ G)
    (edgesOf : σ → List (LWT_ISO_EDGE G))
    (hspec : ImplementsEdgeTable cb edgesOf) (geo : GeomOps G)
    (s : σ) (loc : Locals G) (edge : LWT_ELEMID) (pt : G)
    (skipISOChecks : Int)
    (h : (lwt_ModEdgeSplit cb geo (World.init s) loc edge pt
      skipISOChecks).1.errors = []) :
    ∃ (E newedge upd1 sel2 upd2 sel upd exc : LWT_ISO_EDGE G)
      (node : LWT_ISO_NODE G) (nret iret r1 r2 ret : Int),
      (cb.getEdgeById s [edge] 1 LWT_COL_EDGE_ALL).2.1 = some E ∧
      BeCall.insertNodes ⟨-1, -1, pt⟩ 1 node nret ∈
        (lwt_ModEdgeSplit cb geo (World.init s) loc edge pt
          skipISOChecks).1.calls ∧
      BeCall.insertEdges newedge 1 newedge iret ∈
        (lwt_ModEdgeSplit cb geo (World.init s) loc edge pt
          skipISOChecks).1.calls ∧
      BeCall.updateEdges E LWT_COL_EDGE_EDGE_ID upd1
          (LWT_COL_EDGE_GEOM ||| LWT_COL_EDGE_NEXT_LEFT |||
            LWT_COL_EDGE_END_NODE) none 0 r1 ∈
        (lwt_ModEdgeSplit cb geo (World.init s) loc edge pt
          skipISOChecks).1.calls ∧
      BeCall.updateEdges sel2
          (LWT_COL_EDGE_NEXT_RIGHT ||| LWT_COL_EDGE_START_NODE) upd2
          LWT_COL_EDGE_NEXT_RIGHT (some exc) LWT_COL_EDGE_EDGE_ID r2 ∈
        (lwt_ModEdgeSplit cb geo (World.init s) loc edge pt
          skipISOChecks).1.calls ∧
      BeCall.updateEdges sel
          (LWT_COL_EDGE_NEXT_LEFT ||| LWT_COL_EDGE_END_NODE) upd
          LWT_COL_EDGE_NEXT_LEFT (some exc) LWT_COL_EDGE_EDGE_ID ret ∈
        (lwt_ModEdgeSplit cb geo (World.init s) loc edge pt
          skipISOChecks).1.calls ∧
      (∀ sel3 sf u x ef r,
        BeCall.updateEdges sel3 sf u LWT_COL_EDGE_NEXT_LEFT x ef r ∈
          (lwt_ModEdgeSplit cb geo (World.init s) loc edge pt
            skipISOChecks).1.calls →
        sel3 = sel ∧
        sf = (LWT_COL_EDGE_NEXT_LEFT ||| LWT_COL_EDGE_END_NODE) ∧
        u = upd ∧ x = some exc ∧ ef = LWT_COL_EDGE_EDGE_ID) ∧
      (LWT_COL_EDGE_NEXT_LEFT ||| LWT_COL_EDGE_END_NODE) =
        ({ next_left := true, end_node := true } : EdgeFields) ∧
      LWT_COL_EDGE_NEXT_LEFT = ({ next_left := true } : EdgeFields) ∧
      LWT_COL_EDGE_EDGE_ID = ({ edge_id := true } : EdgeFields) ∧
      sel.next_left = -E.edge_id ∧ sel.end_node = E.end_node ∧
      upd.next_left = -newedge.edge_id ∧ exc.edge_id = newedge.edge_id ∧
      (∀ (i : Nat) (row : LWT_ISO_EDGE G),
        (edgesOf s ++ [newedge])[i]? = some row →
        ∃ mid : LWT_ISO_EDGE G,
          mid = updateEdgeRow sel2
            (LWT_COL_EDGE_NEXT_RIGHT ||| LWT_COL_EDGE_START_NODE) upd2
            LWT_COL_EDGE_NEXT_RIGHT (some exc) LWT_COL_EDGE_EDGE_ID
            (updateEdgeRow E LWT_COL_EDGE_EDGE_ID upd1
              (LWT_COL_EDGE_GEOM ||| LWT_COL_EDGE_NEXT_LEFT |||
                LWT_COL_EDGE_END_NODE) none 0 row) ∧
          mid.edge_id = row.edge_id ∧
          (row.edge_id ≠ E.edge_id →
            mid.next_left = row.next_left ∧ mid.end_node = row.end_node) ∧
          (row.edge_id = E.edge_id →
            mid.next_left = newedge.edge_id ∧ mid.end_node = node.node_id) ∧
          (edgesOf (lwt_ModEdgeSplit cb geo (World.init s) loc edge pt
            skipISOChecks).1.be)[i]? =
            some (if mid.next_left = -E.edge_id ∧ mid.end_node = E.end_node ∧
                    mid.edge_id ≠ newedge.edge_id
                  then { mid with next_left := -newedge.edge_id }
                  else mid)) := by
  obtain ⟨t, ht, hrun⟩ :=
    lwt_ModEdgeSplit_success cb geo s loc edge pt skipISOChecks h
  obtain ⟨-, -, hne, hedges⟩ :=
    follows_edges cb edgesOf hspec geo s loc edge pt skipISOChecks t ht
  have hq := ht.1.1
  rw [hrun]
  refine ⟨t.oldedge, t.newedge1, t.updedge1 loc, t.seledge2 loc, t.updedge2 loc,
    t.seledge3 loc, t.updedge3 loc, t.excedge loc, t.node, t.node_ret,
    t.ins_ret, t.upd_ret, t.right_ret, t.left_ret, by rw [hq], ?_, ?_, ?_, ?_,
    ?_, ?_, mask_next_left_end_node, rfl, rfl, rfl, rfl, rfl, rfl, ?_⟩
  · simp [SplitRun.calls, SplitRun.writeCalls]
  · simp [SplitRun.calls, SplitRun.writeCalls, hne]
  · simp [SplitRun.calls, SplitRun.writeCalls]
  · simp [SplitRun.calls, SplitRun.writeCalls]
  · simp [SplitRun.calls, SplitRun.writeCalls]
  · intro sel3 sf u x ef r hm
    obtain ⟨h1, h2, h3, h4, h5, -⟩ :=
      mem_splitRun_calls_updateEdges_next_left t loc edge pt skipISOChecks
        sel3 sf u x ef r hm
    exact ⟨h1, h2, h3, h4, h5⟩
  · intro i row hrow
    obtain ⟨m1, m2, m3⟩ := row_before_next_left t loc row
    refine ⟨_, rfl, m1, m2, m3, ?_⟩
    dsimp only
    rw [hedges, ← hne, List.getElem?_map, hrow, Option.map_some',
      SplitRun.rowAfter, updateEdgeRow_next_left]
    rfl

/-- C11 at a concrete input: edge 1 of the store whose two edges meet head on
is split at abscissa 4 over the reference backend; the run raises nothing. -/
theorem C11_modEdgeSplit_repoint_next_left_witness :
    (ImplementsEdgeTable (refBackend geo1Ref) RefStore.edges) ∧
    ((lwt_ModEdgeSplit (refBackend geo1Ref) geo1Ops (World.init facingEdgeStore) someLocals 1 (Geo1.point 4)
       0).1.errors = []) ∧
    (∃ (E newedge upd1 sel2 upd2 sel upd exc : LWT_ISO_EDGE Geo1)
       (node : LWT_ISO_NODE Geo1) (nret iret r1 r2 ret : Int),
       ((refBackend geo1Ref).getEdgeById facingEdgeStore [1] 1 LWT_COL_EDGE_ALL).2.1 = some E ∧
       BeCall.insertNodes ⟨-1, -1, (Geo1.point 4)⟩ 1 node nret ∈
         (lwt_ModEdgeSplit (refBackend geo1Ref) geo1Ops (World.init facingEdgeStore) someLocals 1 (Geo1.point 4)
           0).1.calls ∧
       BeCall.insertEdges newedge 1 newedge iret ∈
         (lwt_ModEdgeSplit (refBackend geo1Ref) geo1Ops (World.init facingEdgeStore) someLocals 1 (Geo1.point 4)
           0).1.calls ∧
       BeCall.updateEdges E LWT_COL_EDGE_EDGE_ID upd1
           (LWT_COL_EDGE_GEOM ||| LWT_COL_EDGE_NEXT_LEFT |||
             LWT_COL_EDGE_END_NODE) none 0 r1 ∈
         (lwt_ModEdgeSplit (refBackend geo1Ref) geo1Ops (World.init facingEdgeStore) someLocals 1 (Geo1.point 4)
           0).1.calls ∧
       BeCall.updateEdges sel2
           (LWT_COL_EDGE_NEXT_RIGHT ||| LWT_COL_EDGE_START_NODE) upd2
           LWT_COL_EDGE_NEXT_RIGHT (some exc) LWT_COL_EDGE_EDGE_ID r2 ∈
         (lwt_ModEdgeSplit (refBackend geo1Ref) geo1Ops (World.init facingEdgeStore) someLocals 1 (Geo1.point 4)
           0).1.calls ∧
       BeCall.updateEdges sel
           (LWT_COL_EDGE_NEXT_LEFT ||| LWT_COL_EDGE_END_NODE) upd
           LWT_COL_EDGE_NEXT_LEFT (some exc) LWT_COL_EDGE_EDGE_ID ret ∈
         (lwt_ModEdgeSplit (refBackend geo1Ref) geo1Ops (World.init facingEdgeStore) someLocals 1 (Geo1.point 4)
           0).1.calls ∧
       (∀ sel3 sf u x ef r,
         BeCall.updateEdges sel3 sf u LWT_COL_EDGE_NEXT_LEFT x ef r ∈
           (lwt_ModEdgeSplit (refBackend geo1Ref) geo1Ops (World.init facingEdgeStore) someLocals 1 (Geo1.point 4)
             0).1.calls →
         sel3 = sel ∧
         sf = (LWT_COL_EDGE_NEXT_LEFT ||| LWT_COL_EDGE_END_NODE) ∧
         u = upd ∧ x = some exc ∧ ef = LWT_COL_EDGE_EDGE_ID) ∧
       (LWT_COL_EDGE_NEXT_LEFT ||| LWT_COL_EDGE_END_NODE) =
         ({ next_left := true, end_node := true } : EdgeFields) ∧
       LWT_COL_EDGE_NEXT_LEFT = ({ next_left := true } : EdgeFields) ∧
       LWT_COL_EDGE_EDGE_ID = ({ edge_id := true } : EdgeFields) ∧
       sel.next_left = -E.edge_id ∧ sel.end_node = E.end_node ∧
       upd.next_left = -newedge.edge_id ∧ exc.edge_id = newedge.edge_id ∧
       (∀ (i : Nat) (row : LWT_ISO_EDGE Geo1),
         (RefStore.edges facingEdgeStore ++ [newedge])[i]? = some row →
         ∃ mid : LWT_ISO_EDGE Geo1,
           mid = updateEdgeRow sel2
             (LWT_COL_EDGE_NEXT_RIGHT ||| LWT_COL_EDGE_START_NODE) upd2
             LWT_COL_EDGE_NEXT_RIGHT (some exc) LWT_COL_EDGE_EDGE_ID
             (updateEdgeRow E LWT_COL_EDGE_EDGE_ID upd1
               (LWT_COL_EDGE_GEOM ||| LWT_COL_EDGE_NEXT_LEFT |||
                 LWT_COL_EDGE_END_NODE) none 0 row) ∧
           mid.edge_id = row.edge_id ∧
           (row.edge_id ≠ E.edge_id →
             mid.next_left = row.next_left ∧ mid.end_node = row.end_node) ∧
           (row.edge_id = E.edge_id →
             mid.next_left = newedge.edge_id ∧ mid.end_node = node.node_id) ∧
           (RefStore.edges (lwt_ModEdgeSplit (refBackend geo1Ref) geo1Ops (World.init facingEdgeStore) someLocals 1 (Geo1.point 4)
             0).1.be)[i]? =
             some (if mid.next_left = -E.edge_id ∧ mid.end_node = E.end_node ∧
                     mid.edge_id ≠ newedge.edge_id
                   then { mid with next_left := -newedge.edge_id }
                   else mid))) :=
  ⟨refBackend_implements geo1Ref, by decide,
    C11_modEdgeSplit_repoint_next_left (refBackend geo1Ref) RefStore.edges
      (refBackend_implements geo1Ref) geo1Ops facingEdgeStore someLocals 1
      (Geo1.point 4) 0 (by decide)⟩

/-- The edge table after that run: edge 2, which led on to edge 1 backwards,
leads on to the new edge 3 backwards. -/
theorem facingEdgeStore_split :
    (lwt_ModEdgeSplit (refBackend geo1Ref) geo1Ops (World.init facingEdgeStore)
      someLocals 1 (Geo1.point 4) 0).1.be.edges =
      [{ edge_id := 1, start_node := 1, end_node := 4, face_left := 0,
         face_right := 0, next_left := 3, next_right := 1,
         geom := Geo1.segment 0 4 },
       { edge_id := 2, start_node := 3, end_node := 2, face_left := 0,
         face_right := 0, next_left := -3, next_right := 2,
         geom := Geo1.segment 10 20 },
       { edge_id := 3, start_node := 4, end_node := 2, face_left := 0,
         face_right := 0, next_left := -2, next_right := -1,
         geom := Geo1.segment 4 10 }] := by
  decide

end SplitRepointingLeft

section ReferenceResolution

variable {σ G : Type} [DecidableEq G]

/-- What the three conditional updates of a split can make of the references
of a row: `next_left` is kept or becomes the new edge id with either sign,
`next_right` is kept or becomes minus the new edge id; `edge_id` is kept. -/
theorem rowAfter_refs (t : SplitRun σ G) (loc : Locals G)
    (row : LWT_ISO_EDGE G) :
    (t.rowAfter loc row).edge_id = row.edge_id ∧
    ((t.rowAfter loc row).next_left = row.next_left ∨
      (t.rowAfter loc row).next_left = t.newedge1.edge_id ∨
      (t.rowAfter loc row).next_left = -t.newedge1.edge_id) ∧
    ((t.rowAfter loc row).next_right = row.next_right ∨
      (t.rowAfter loc row).next_right = -t.newedge1.edge_id) := by
  simp only [SplitRun.rowAfter, updateEdgeRow_by_id, updateEdgeRow_next_right,
    updateEdgeRow_next_left]
  simp only [SplitRun.seledge3, SplitRun.seledge2, SplitRun.updedge3,
    SplitRun.updedge2, SplitRun.updedge1, SplitRun.excedge]
  refine ⟨?_, ?_, ?_⟩ <;> split_ifs <;> simp_all

omit [DecidableEq G] in
theorem refResolvesAbs_neg (table : List (LWT_ISO_EDGE G)) (r : LWT_ELEMID) :
    RefResolvesAbs table (-r) ↔ RefResolvesAbs table r := by
  simp [RefResolvesAbs]

/-- Over a backend that implements the edge table, a run that follows the
code keeps every reference resolving, signs of ids left aside. -/
theorem follows_keeps_references (cb : LWT_BE_CALLBACKS σ G)
    (edgesOf : σ → List (LWT_ISO_EDGE G))
    (hspec : ImplementsEdgeTable cb edgesOf) (geo : GeomOps G)
    (s : σ) (loc : Locals G) (edge : LWT_ELEMID) (pt : G)
    (skipISOChecks : Int) (t : SplitRun σ G)
    (ht : t.Follows cb geo s loc edge pt skipISOChecks)
    (hinv : ReferencesResolveAbs (edgesOf s)) :
    ReferencesResolveAbs (edgesOf t.s_final) := by
  obtain ⟨hmem, -, hne, hedges⟩ :=
    follows_edges cb edgesOf hspec geo s loc edge pt skipISOChecks t ht
  have hid : t.newedge0.edge_id = t.newedge1.edge_id := by rw [hne]
  -- a reference that resolved in the old table resolves in the new one
  have hold : ∀ r, RefResolvesAbs (edgesOf s) r →
      RefResolvesAbs (edgesOf t.s_final) r := by
    rintro r ⟨e, he, hr⟩
    refine ⟨t.rowAfter loc e, ?_, ?_⟩
    · rw [hedges]
      exact List.mem_map_of_mem _ (List.mem_append_left _ he)
    · rw [(rowAfter_refs t loc e).1]; exact hr
  -- the new edge is in the new table
  have hnew : RefResolvesAbs (edgesOf t.s_final) t.newedge1.edge_id := by
    refine ⟨t.rowAfter loc t.newedge0, ?_, ?_⟩
    · rw [hedges]
      exact List.mem_map_of_mem _ (List.mem_append_right _ (List.mem_singleton.2 rfl))
    · rw [(rowAfter_refs t loc t.newedge0).1, hid]
  have hnewneg : RefResolvesAbs (edgesOf t.s_final) (-t.newedge1.edge_id) :=
    (refResolvesAbs_neg _ _).2 hnew
  have hE : RefResolvesAbs (edgesOf s) t.oldedge.edge_id := ⟨t.oldedge, hmem, rfl⟩
  intro e he
  rw [hedges] at he
  obtain ⟨row, hrow, rfl⟩ := List.mem_map.1 he
  obtain ⟨-, hl, hr⟩ := rowAfter_refs t loc row
  -- the references of the row before the updates resolve in the new table
  have hrowrefs : RefResolvesAbs (edgesOf t.s_final) row.next_left ∧
      RefResolvesAbs (edgesOf t.s_final) row.next_right := by
    rcases List.mem_append.1 hrow with hin | hin
    · exact ⟨hold _ (hinv row hin).1, hold _ (hinv row hin).2⟩
    · have hrw : row = t.newedge0 := List.mem_singleton.1 hin
      subst hrw
      constructor
      · simp only [SplitRun.newedge0]
        split_ifs
        · have : RefResolvesAbs (edgesOf t.s_final) (-t.newedge0.edge_id) := by
            rw [hid]; exact hnewneg
          simpa [SplitRun.newedge0] using this
        · exact hold _ (hinv t.oldedge hmem).1
      · simp only [SplitRun.newedge0]
        exact hold _ ((refResolvesAbs_neg _ _).2 hE)
  constructor
  · rcases hl with hl | hl | hl
    · rw [hl]; exact hrowrefs.1
    · rw [hl]; exact hnew
    · rw [hl]; exact hnewneg
  · rcases hr with hr | hr
    · rw [hr]; exact hrowrefs.2
    · rw [hr]; exact hnewneg

omit [DecidableEq G] in
theorem refResolves_iff_abs (table : List (LWT_ISO_EDGE G))
    (hpos : ∀ e ∈ table, 0 < e.edge_id) (r : LWT_ELEMID) :
    RefResolves table r ↔ RefResolvesAbs table r := by
  constructor
  · rintro ⟨e, he, hr⟩
    refine ⟨e, he, ?_⟩
    rw [hr]
    exact Int.natAbs_ofNat _
  · rintro ⟨e, he, hr⟩
    refine ⟨e, he, ?_⟩
    rw [← hr]
    exact (Int.natAbs_of_nonneg (le_of_lt (hpos e he))).symm

omit [DecidableEq G] in
theorem referencesResolve_iff_abs (table : List (LWT_ISO_EDGE G))
    (hpos : ∀ e ∈ table, 0 < e.edge_id) :
    ReferencesResolve table ↔ ReferencesResolveAbs table := by
  unfold ReferencesResolve ReferencesResolveAbs
  constructor
  · intro h e he
    exact ⟨(refResolves_iff_abs table hpos _).1 (h e he).1,
      (refResolves_iff_abs table hpos _).1 (h e he).2⟩
  · intro h e he
    exact ⟨(refResolves_iff_abs table hpos _).2 (h e he).1,
      (refResolves_iff_abs table hpos _).2 (h e he).2⟩

/-- C12: over a backend that implements the edge table (it stores inserts and
applies `updateEdges` as specified), on a run of `lwt_ModEdgeSplit` that
raises nothing: the edge table afterwards holds the rows it held, each under
its `edge_id`, and the new edge; if every `next_left` and `next_right`
resolved by magnitude in the table before (signs of ids left aside), the same
holds of every row after; and on a table of positive ids, when the id handed
out is positive, ids are positive after and every `next_left` and
`next_right`, whose magnitude was the `edge_id` of a row before, has for
magnitude the `edge_id` of a row after. -/
theorem C12_modEdgeSplit_keeps_references (cb : LWT_BE_CALLBACKS σ G)
    (edgesOf : σ → List (LWT_ISO_EDGE G))
    (hspec : ImplementsEdgeTable cb edgesOf) (geo : GeomOps G)
    (s : σ) (loc : Locals G) (edge : LWT_ELEMID) (pt : G)
    (skipISOChecks : Int)
    (h : (lwt_ModEdgeSplit cb geo (World.init s) loc edge pt
      skipISOChecks).1.errors = []) :
    ∃ (id : LWT_ELEMID),
      BeCall.getNextEdgeId id ∈
        (lwt_ModEdgeSplit cb geo (World.init s) loc edge pt
          skipISOChecks).1.calls ∧
      (edgesOf (lwt_ModEdgeSplit cb geo (World.init s) loc edge pt
          skipISOChecks).1.be).map (fun e => e.edge_id) =
        (edgesOf s).map (fun e => e.edge_id) ++ [id] ∧
      (ReferencesResolveAbs (edgesOf s) →
        ReferencesResolveAbs
          (edgesOf (lwt_ModEdgeSplit cb geo (World.init s) loc edge pt
            skipISOChecks).1.be)) ∧
      ((∀ e ∈ edgesOf s, 0 < e.edge_id) → 0 < id →
        ReferencesResolve (edgesOf s) →
        (∀ e ∈ edgesOf (lwt_ModEdgeSplit cb geo (World.init s) loc edge pt
            skipISOChecks).1.be, 0 < e.edge_id) ∧
        ReferencesResolve
          (edgesOf (lwt_ModEdgeSplit cb geo (World.init s) loc edge pt
            skipISOChecks).1.be)) := by
  obtain ⟨t, ht, hrun⟩ :=
    lwt_ModEdgeSplit_success cb geo s loc edge pt skipISOChecks h
  obtain ⟨-, -, -, hedges⟩ :=
    follows_edges cb edgesOf hspec geo s loc edge pt skipISOChecks t ht
  have hkeep := follows_keeps_references cb edgesOf hspec geo s loc edge pt
    skipISOChecks t ht
  have hids : (edgesOf t.s_final).map (fun e => e.edge_id) =
      (edgesOf s).map (fun e => e.edge_id) ++ [t.new_id] := by
    rw [hedges, List.map_map]
    have : ((fun e => e.edge_id) ∘ t.rowAfter loc) =
        (fun e : LWT_ISO_EDGE G => e.edge_id) := by
      funext e
      exact (rowAfter_refs t loc e).1
    rw [this, List.map_append]
    rfl
  rw [hrun]
  refine ⟨t.new_id, ?_, hids, hkeep, ?_⟩
  · simp [SplitRun.calls, SplitRun.writeCalls]
  · intro hpos hid hres
    have hpos2 : ∀ e ∈ edgesOf t.s_final, 0 < e.edge_id := by
      intro e he
      have hm : e.edge_id ∈ (edgesOf t.s_final).map (fun e => e.edge_id) :=
        List.mem_map_of_mem _ he
      rw [hids] at hm
      rcases List.mem_append.1 hm with hm | hm
      · obtain ⟨e0, he0, h0⟩ := List.mem_map.1 hm
        rw [← h0]; exact hpos e0 he0
      · rw [List.mem_singleton.1 hm]; exact hid
    exact ⟨hpos2, (referencesResolve_iff_abs _ hpos2).2
      (hkeep ((referencesResolve_iff_abs _ hpos).1 hres))⟩

/-- C12 at a concrete input: edge 1 of the two-edge store is split at
abscissa 4 over the reference backend; the run raises nothing. -/
theorem C12_modEdgeSplit_keeps_references_witness :
    (ImplementsEdgeTable (refBackend geo1Ref) RefStore.edges) ∧
    ((lwt_ModEdgeSplit (refBackend geo1Ref) geo1Ops (World.init twoEdgeStore) someLocals 1 (Geo1.point 4)
       0).1.errors = []) ∧
    (∃ (id : LWT_ELEMID),
       BeCall.getNextEdgeId id ∈
         (lwt_ModEdgeSplit (refBackend geo1Ref) geo1Ops (World.init twoEdgeStore) someLocals 1 (Geo1.point 4)
           0).1.calls ∧
       (RefStore.edges (lwt_ModEdgeSplit (refBackend geo1Ref) geo1Ops (World.init twoEdgeStore) someLocals 1 (Geo1.point 4)
           0).1.be).map (fun e => e.edge_id) =
         (RefStore.edges twoEdgeStore).map (fun e => e.edge_id) ++ [id] ∧
       (ReferencesResolveAbs (RefStore.edges twoEdgeStore) →
         ReferencesResolveAbs
           (RefStore.edges (lwt_ModEdgeSplit (refBackend geo1Ref) geo1Ops (World.init twoEdgeStore) someLocals 1 (Geo1.point 4)
             0).1.be)) ∧
       ((∀ e ∈ RefStore.edges twoEdgeStore, 0 < e.edge_id) → 0 < id →
         ReferencesResolve (RefStore.edges twoEdgeStore) →
         (∀ e ∈ RefStore.edges (lwt_ModEdgeSplit (refBackend geo1Ref) geo1Ops (World.init twoEdgeStore) someLocals 1 (Geo1.point 4)
             0).1.be, 0 < e.edge_id) ∧
         ReferencesResolve
           (RefStore.edges (lwt_ModEdgeSplit (refBackend geo1Ref) geo1Ops (World.init twoEdgeStore) someLocals 1 (Geo1.point 4)
             0).1.be))) :=
  ⟨refBackend_implements geo1Ref, by decide,
    C12_modEdgeSplit_keeps_references (refBackend geo1Ref) RefStore.edges
      (refBackend_implements geo1Ref) geo1Ops twoEdgeStore someLocals 1
      (Geo1.point 4) 0 (by decide)⟩

end ReferenceResolution

section AddIsoNodeTwice

variable {σ G : Type}

theorem lwt_AddIsoNode_insert_state (cb : LWT_BE_CALLBACKS σ G) (w : World σ G)
    (face : LWT_ELEMID) (pt : G)
    (h : (lwt_AddIsoNode_insert cb w face pt).1.errors = []) :
    ∃ (s0 : σ) (node : LWT_ISO_NODE G), node.geom = pt ∧
      (cb.insertNodes s0 node 1).2.2 ≠ 0 ∧
      (lwt_AddIsoNode_insert cb w face pt).1.be = (cb.insertNodes s0 node 1).1 := by
  unfold lwt_AddIsoNode_insert at h ⊢
  dsimp only at h ⊢
  by_cases hr : (lwt_be_insertNodes cb w ⟨-1, face, pt⟩ 1).2.2 = 0
  · rw [if_pos hr] at h
    simp [lwerror] at h
  · rw [if_neg hr]
    exact ⟨w.be, ⟨-1, face, pt⟩, rfl, hr, rfl⟩

theorem lwt_AddIsoNode_validate_state (cb : LWT_BE_CALLBACKS σ G)
    (w : World σ G) (face : LWT_ELEMID) (pt : G) (skipISOChecks : Int)
    (foundInFace : LWT_ELEMID)
    (h : (lwt_AddIsoNode_validate cb w face pt skipISOChecks
      foundInFace).1.errors = []) :
    ∃ (s0 : σ) (node : LWT_ISO_NODE G), node.geom = pt ∧
      (cb.insertNodes s0 node 1).2.2 ≠ 0 ∧
      (lwt_AddIsoNode_validate cb w face pt skipISOChecks foundInFace).1.be =
        (cb.insertNodes s0 node 1).1 := by
  unfold lwt_AddIsoNode_validate at h ⊢
  split_ifs at h ⊢
  · exact lwt_AddIsoNode_insert_state cb w _ pt h
  · simp [lwerror] at h
  · exact lwt_AddIsoNode_insert_state cb w _ pt h

theorem lwt_AddIsoNode_face_state (cb : LWT_BE_CALLBACKS σ G) (w : World σ G)
    (face : LWT_ELEMID) (pt : G) (skipISOChecks : Int)
    (h : (lwt_AddIsoNode_face cb w face pt skipISOChecks).1.errors = []) :
    ∃ (s0 : σ) (node : LWT_ISO_NODE G), node.geom = pt ∧
      (cb.insertNodes s0 node 1).2.2 ≠ 0 ∧
      (lwt_AddIsoNode_face cb w face pt skipISOChecks).1.be =
        (cb.insertNodes s0 node 1).1 := by
  unfold lwt_AddIsoNode_face at h ⊢
  dsimp only at h ⊢
  split_ifs at h ⊢
  · simp [lwerror] at h
  · simp [lwerror] at h
  · exact lwt_AddIsoNode_validate_state cb _ _ pt _ _ h
  · exact lwt_AddIsoNode_validate_state cb w _ pt _ _ h

/-- A run of `lwt_AddIsoNode` that raises nothing ends in the backend state
that an accepted `insertNodes` of a node at the point has left. -/
theorem lwt_AddIsoNode_state (cb : LWT_BE_CALLBACKS σ G) (s : σ)
    (face : LWT_ELEMID) (pt : G) (skipISOChecks : Int)
    (h : (lwt_AddIsoNode cb (World.init s) face pt skipISOChecks).1.errors
      = []) :
    ∃ (s0 : σ) (node : LWT_ISO_NODE G), node.geom = pt ∧
      (cb.insertNodes s0 node 1).2.2 ≠ 0 ∧
      (lwt_AddIsoNode cb (World.init s) face pt skipISOChecks).1.be =
        (cb.insertNodes s0 node 1).1 := by
  unfold lwt_AddIsoNode at h ⊢
  dsimp only at h ⊢
  split_ifs at h ⊢
  · simp [lwerror] at h
  · simp [lwerror] at h
  · exact lwt_AddIsoNode_face_state cb _ _ pt _ h
  · exact lwt_AddIsoNode_face_state cb _ _ pt _ h

/-- C13: over a backend whose distance-0 node query finds a node at the point
in the state an accepted insert of such a node has left: after a run of
`lwt_AddIsoNode` at the point that raises nothing, a second `lwt_AddIsoNode`
at the same point with checks enabled returns -1 with exactly the coincident
node message, its only backend call being the node query: it inserts
nothing. -/
theorem C13_addIsoNode_twice (cb : LWT_BE_CALLBACKS σ G) (s : σ)
    (face1 face2 : LWT_ELEMID) (pt : G) (skip1 : Int)
    (hsees : ∀ (s0 : σ) (node : LWT_ISO_NODE G) (n : Int), node.geom = pt →
      (cb.insertNodes s0 node n).2.2 ≠ 0 →
      0 < (cb.getNodeWithinDistance2D (cb.insertNodes s0 node n).1 pt
        0 0 0 (-1)).2.2)
    (h1 : (lwt_AddIsoNode cb (World.init s) face1 pt skip1).1.errors = []) :
    (lwt_AddIsoNode cb
      (World.init (lwt_AddIsoNode cb (World.init s) face1 pt skip1).1.be)
      face2 pt 0).2 = -1 ∧
    (lwt_AddIsoNode cb
      (World.init (lwt_AddIsoNode cb (World.init s) face1 pt skip1).1.be)
      face2 pt 0).1.errors =
      [⟨"SQL/MM Spatial exception - coincident node", []⟩] ∧
    (∃ rows count,
      (lwt_AddIsoNode cb
        (World.init (lwt_AddIsoNode cb (World.init s) face1 pt skip1).1.be)
        face2 pt 0).1.calls =
        [BeCall.getNodeWithinDistance2D pt 0 0 0 (-1) rows count]) ∧
    insertNodesCalls (lwt_AddIsoNode cb
      (World.init (lwt_AddIsoNode cb (World.init s) face1 pt skip1).1.be)
      face2 pt 0).1.calls = 0 := by
  obtain ⟨s0, node, hg, hr, hbe⟩ := lwt_AddIsoNode_state cb s face1 pt skip1 h1
  have hq := hsees s0 node 1 hg hr
  rw [← hbe] at hq
  have hne : (cb.getNodeWithinDistance2D
      (lwt_AddIsoNode cb (World.init s) face1 pt skip1).1.be pt 0 0 0 (-1)).2.2
      ≠ 0 := by omega
  generalize (lwt_AddIsoNode cb (World.init s) face1 pt skip1).1.be = s1
    at hne ⊢
  simp [lwt_AddIsoNode, lwt_be_ExistsCoincidentNode,
    lwt_be_getNodeWithinDistance2D, World.init, lwerror, hne,
    insertNodesCalls, BeCall.isInsertNodes]

/-- The reference backend on the integer axis sees a node inserted at a
point when it is asked about that point. -/
theorem refBackend_sees_point (x : Int) :
    ∀ (s0 : RefStore Geo1) (node : LWT_ISO_NODE Geo1) (n : Int),
      node.geom = Geo1.point x →
      ((refBackend geo1Ref).insertNodes s0 node n).2.2 ≠ 0 →
      0 < ((refBackend geo1Ref).getNodeWithinDistance2D
        ((refBackend geo1Ref).insertNodes s0 node n).1 (Geo1.point x)
        0 0 0 (-1)).2.2 := by
  intro s0 node n hg _
  simp only [refBackend, List.filter_append]
  by_cases hid : node.node_id = -1 <;>
    simp [hid, hg, geo1Ref]

/-- C13 at a concrete input: a point at abscissa 6 is added twice to the
store that holds one node at abscissa 5. -/
theorem C13_addIsoNode_twice_witness :
    (lwt_AddIsoNode (refBackend geo1Ref) (World.init oneNodeStore) (-1)
      (Geo1.point 6) 0).1.errors = [] ∧
    ((lwt_AddIsoNode (refBackend geo1Ref)
      (World.init (lwt_AddIsoNode (refBackend geo1Ref)
        (World.init oneNodeStore) (-1) (Geo1.point 6) 0).1.be)
      (-1) (Geo1.point 6) 0).2 = -1 ∧
    (lwt_AddIsoNode (refBackend geo1Ref)
      (World.init (lwt_AddIsoNode (refBackend geo1Ref)
        (World.init oneNodeStore) (-1) (Geo1.point 6) 0).1.be)
      (-1) (Geo1.point 6) 0).1.errors =
      [⟨"SQL/MM Spatial exception - coincident node", []⟩] ∧
    (∃ rows count,
      (lwt_AddIsoNode (refBackend geo1Ref)
        (World.init (lwt_AddIsoNode (refBackend geo1Ref)
          (World.init oneNodeStore) (-1) (Geo1.point 6) 0).1.be)
        (-1) (Geo1.point 6) 0).1.calls =
        [BeCall.getNodeWithinDistance2D (Geo1.point 6) 0 0 0 (-1) rows count]) ∧
    insertNodesCalls (lwt_AddIsoNode (refBackend geo1Ref)
      (World.init (lwt_AddIsoNode (refBackend geo1Ref)
        (World.init oneNodeStore) (-1) (Geo1.point 6) 0).1.be)
      (-1) (Geo1.point 6) 0).1.calls = 0) :=
  ⟨by decide,
    C13_addIsoNode_twice (refBackend geo1Ref) oneNodeStore (-1) (-1)
      (Geo1.point 6) 0 (refBackend_sees_point 6) (by decide)⟩

end AddIsoNodeTwice

section AddIsoNodeFace

variable {σ G : Type}

/-- C14: `lwt_AddIsoNode` raises the message that the point is within another
face than the one supplied exactly when a face other than -1 was supplied,
checks are enabled, both existence queries reported 0, and the face the
backend reports is neither sentinel and differs from the supplied one. When it
does, that is the only message, citing the resolved and the supplied face, -1
is returned and `insertNodes` has not been called. With checks skipped and a
face other than -1 supplied, `getFaceContainingPoint` is not called and the
only `insertNodes` call, the first call of the run, passes the record with the
supplied face; when the backend accepts it nothing is raised and the
identifier found in the record is returned. -/
theorem C14_addIsoNode_wrong_face (cb : LWT_BE_CALLBACKS σ G) (s : σ)
    (face : LWT_ELEMID) (pt : G) (skipISOChecks : Int) :
    ((∃ args, (⟨"SQL/MM Spatial exception - within face % (not %)", args⟩ :
        LwError) ∈
        (lwt_AddIsoNode cb (World.init s) face pt skipISOChecks).1.errors) ↔
      (face ≠ -1 ∧ skipISOChecks = 0 ∧
        (cb.getNodeWithinDistance2D s pt 0 0 0 (-1)).2.2 = 0 ∧
        (cb.getEdgeWithinDistance2D
          (cb.getNodeWithinDistance2D s pt 0 0 0 (-1)).1 pt 0 0 0 (-1)).2.2
          = 0 ∧
        (cb.getFaceContainingPoint (cb.getEdgeWithinDistance2D
          (cb.getNodeWithinDistance2D s pt 0 0 0 (-1)).1 pt 0 0 0 (-1)).1
          pt).2 ≠ -2 ∧
        (cb.getFaceContainingPoint (cb.getEdgeWithinDistance2D
          (cb.getNodeWithinDistance2D s pt 0 0 0 (-1)).1 pt 0 0 0 (-1)).1
          pt).2 ≠ -1 ∧
        (cb.getFaceContainingPoint (cb.getEdgeWithinDistance2D
          (cb.getNodeWithinDistance2D s pt 0 0 0 (-1)).1 pt 0 0 0 (-1)).1
          pt).2 ≠ face)) ∧
    ((∃ args, (⟨"SQL/MM Spatial exception - within face % (not %)", args⟩ :
        LwError) ∈
        (lwt_AddIsoNode cb (World.init s) face pt skipISOChecks).1.errors) →
      (lwt_AddIsoNode cb (World.init s) face pt skipISOChecks).1.errors =
        [⟨"SQL/MM Spatial exception - within face % (not %)",
          [ErrArg.int (cb.getFaceContainingPoint (cb.getEdgeWithinDistance2D
            (cb.getNodeWithinDistance2D s pt 0 0 0 (-1)).1 pt 0 0 0 (-1)).1
            pt).2, ErrArg.int face]⟩] ∧
      (lwt_AddIsoNode cb (World.init s) face pt skipISOChecks).2 = -1 ∧
      insertNodesCalls
        (lwt_AddIsoNode cb (World.init s) face pt skipISOChecks).1.calls = 0) ∧
    (skipISOChecks ≠ 0 → face ≠ -1 →
      (∀ p f, BeCall.getFaceContainingPoint p f ∉
        (lwt_AddIsoNode cb (World.init s) face pt skipISOChecks).1.calls) ∧
      (lwt_AddIsoNode cb (World.init s) face pt skipISOChecks).1.calls.head? =
        some (BeCall.insertNodes ⟨-1, face, pt⟩ 1
          (cb.insertNodes s ⟨-1, face, pt⟩ 1).2.1
          (cb.insertNodes s ⟨-1, face, pt⟩ 1).2.2) ∧
      insertNodesCalls
        (lwt_AddIsoNode cb (World.init s) face pt skipISOChecks).1.calls = 1 ∧
      ((cb.insertNodes s ⟨-1, face, pt⟩ 1).2.2 ≠ 0 →
        (lwt_AddIsoNode cb (World.init s) face pt skipISOChecks).1.errors
          = [] ∧
        (lwt_AddIsoNode cb (World.init s) face pt skipISOChecks).1.be =
          (cb.insertNodes s ⟨-1, face, pt⟩ 1).1 ∧
        (lwt_AddIsoNode cb (World.init s) face pt skipISOChecks).2 =
          (cb.insertNodes s ⟨-1, face, pt⟩ 1).2.1.node_id)) := by
  by_cases hs : skipISOChecks = 0
  · by_cases hn : (cb.getNodeWithinDistance2D s pt 0 0 0 (-1)).2.2 = 0
    · by_cases he : (cb.getEdgeWithinDistance2D
          (cb.getNodeWithinDistance2D s pt 0 0 0 (-1)).1 pt 0 0 0 (-1)).2.2 = 0
      · by_cases hf2 : (cb.getFaceContainingPoint (cb.getEdgeWithinDistance2D
            (cb.getNodeWithinDistance2D s pt 0 0 0 (-1)).1 pt 0 0 0 (-1)).1
            pt).2 = -2
        · simp [lwt_AddIsoNode, lwt_AddIsoNode_face,
            lwt_be_ExistsCoincidentNode,
            lwt_be_ExistsEdgeIntersectingPoint, lwt_be_getNodeWithinDistance2D,
            lwt_be_getEdgeWithinDistance2D, lwt_be_getFaceContainingPoint,
            lwt_be_lastErrorMessage, World.init, lwerror, hs, hn, he, hf2]
        · by_cases hf1 : (cb.getFaceContainingPoint
              (cb.getEdgeWithinDistance2D
              (cb.getNodeWithinDistance2D s pt 0 0 0 (-1)).1 pt 0 0 0 (-1)).1
              pt).2 = -1
          · simp [lwt_AddIsoNode, lwt_AddIsoNode_face,
              lwt_be_ExistsCoincidentNode,
              lwt_be_ExistsEdgeIntersectingPoint,
              lwt_be_getNodeWithinDistance2D,
              lwt_be_getEdgeWithinDistance2D, lwt_be_getFaceContainingPoint,
              lwt_be_lastErrorMessage, World.init, lwerror, hs, hn, he, hf1]
          · by_cases hfa : face = -1
            · by_cases hr : (cb.insertNodes (cb.getFaceContainingPoint
                  (cb.getEdgeWithinDistance2D
                  (cb.getNodeWithinDistance2D s pt 0 0 0 (-1)).1 pt 0 0 0
                  (-1)).1 pt).1 ⟨-1, (cb.getFaceContainingPoint
                  (cb.getEdgeWithinDistance2D
                  (cb.getNodeWithinDistance2D s pt 0 0 0 (-1)).1 pt 0 0 0
                  (-1)).1 pt).2, pt⟩ 1).2.2 = 0 <;>
              simp [lwt_AddIsoNode, lwt_AddIsoNode_face,
                lwt_AddIsoNode_validate, lwt_AddIsoNode_insert,
                lwt_be_ExistsCoincidentNode,
                lwt_be_ExistsEdgeIntersectingPoint,
                lwt_be_getNodeWithinDistance2D,
                lwt_be_getEdgeWithinDistance2D, lwt_be_getFaceContainingPoint,
                lwt_be_insertNodes,
                lwt_be_lastErrorMessage, World.init, lwerror, hs, hn, he, hf1,
                hf2, hfa, hr]
            · by_cases hd : (cb.getFaceContainingPoint
                  (cb.getEdgeWithinDistance2D
                  (cb.getNodeWithinDistance2D s pt 0 0 0 (-1)).1 pt 0 0 0
                  (-1)).1 pt).2 = face
              · subst hd
                by_cases hr : (cb.insertNodes (cb.getFaceContainingPoint
                    (cb.getEdgeWithinDistance2D
                    (cb.getNodeWithinDistance2D s pt 0 0 0 (-1)).1 pt 0 0 0
                    (-1)).1 pt).1 ⟨-1, (cb.getFaceContainingPoint
                    (cb.getEdgeWithinDistance2D
                    (cb.getNodeWithinDistance2D s pt 0 0 0 (-1)).1 pt 0 0 0
                    (-1)).1 pt).2, pt⟩ 1).2.2 = 0 <;>
                simp [lwt_AddIsoNode, lwt_AddIsoNode_face,
                  lwt_AddIsoNode_validate, lwt_AddIsoNode_insert,
                  lwt_be_ExistsCoincidentNode,
                  lwt_be_ExistsEdgeIntersectingPoint,
                  lwt_be_getNodeWithinDistance2D,
                  lwt_be_getEdgeWithinDistance2D,
                  lwt_be_getFaceContainingPoint, lwt_be_insertNodes,
                  lwt_be_lastErrorMessage, World.init, lwerror, hs, hn, he,
                  hf1, hf2, hr]
              · simp [lwt_AddIsoNode, lwt_AddIsoNode_face,
                  lwt_AddIsoNode_validate,
                  lwt_be_ExistsCoincidentNode,
                  lwt_be_ExistsEdgeIntersectingPoint,
                  lwt_be_getNodeWithinDistance2D,
                  lwt_be_getEdgeWithinDistance2D,
                  lwt_be_getFaceContainingPoint,
                  World.init, lwerror, hs, hn, he,
                  hf1, hf2, hfa, hd, insertNodesCalls, BeCall.isInsertNodes]
      · simp [lwt_AddIsoNode, lwt_be_ExistsCoincidentNode,
          lwt_be_ExistsEdgeIntersectingPoint, lwt_be_getNodeWithinDistance2D,
          lwt_be_getEdgeWithinDistance2D, World.init, lwerror, hs, hn, he]
    · simp [lwt_AddIsoNode, lwt_be_ExistsCoincidentNode,
        lwt_be_getNodeWithinDistance2D, World.init, lwerror, hs, hn]
  · by_cases hfa : face = -1
    · by_cases hf2 : (cb.getFaceContainingPoint s pt).2 = -2
      · simp [lwt_AddIsoNode, lwt_AddIsoNode_face,
          lwt_be_getFaceContainingPoint,
          lwt_be_lastErrorMessage, World.init, lwerror, hs, hfa, hf2]
      · by_cases hf1 : (cb.getFaceContainingPoint s pt).2 = -1
        · simp [lwt_AddIsoNode, lwt_AddIsoNode_face,
            lwt_be_getFaceContainingPoint,
            lwt_be_lastErrorMessage, World.init, lwerror, hs, hfa, hf1]
        · by_cases hr : (cb.insertNodes (cb.getFaceContainingPoint s pt).1
              ⟨-1, (cb.getFaceContainingPoint s pt).2, pt⟩ 1).2.2 = 0 <;>
          simp [lwt_AddIsoNode, lwt_AddIsoNode_face,
            lwt_AddIsoNode_validate, lwt_AddIsoNode_insert,
            lwt_be_getFaceContainingPoint, lwt_be_insertNodes,
            lwt_be_lastErrorMessage, World.init, lwerror, hs, hfa, hf1, hf2,
            hr]
    · by_cases hr : (cb.insertNodes s ⟨-1, face, pt⟩ 1).2.2 = 0 <;>
      simp [lwt_AddIsoNode, lwt_AddIsoNode_face,
        lwt_AddIsoNode_validate, lwt_AddIsoNode_insert,
        lwt_be_insertNodes,
        lwt_be_lastErrorMessage, World.init, lwerror, hs, hfa,
        hr, insertNodesCalls, BeCall.isInsertNodes]

/-- A run in which the supplied face is the wrong one: face 7 is supplied for
a point that the reference backend places in face 0. -/
theorem lwt_AddIsoNode_wrong_face_run :
    (lwt_AddIsoNode (refBackend geo1Ref) (World.init oneNodeStore) 7
      (Geo1.point 6) 0).1.calls =
      [BeCall.getNodeWithinDistance2D (Geo1.point 6) 0 0 0 (-1) [] 0,
       BeCall.getEdgeWithinDistance2D (Geo1.point 6) 0 0 0 (-1) [] 0,
       BeCall.getFaceContainingPoint (Geo1.point 6) 0] ∧
    (lwt_AddIsoNode (refBackend geo1Ref) (World.init oneNodeStore) 7
      (Geo1.point 6) 0).1.errors =
      [⟨"SQL/MM Spatial exception - within face % (not %)",
        [ErrArg.int 0, ErrArg.int 7]⟩] ∧
    (lwt_AddIsoNode (refBackend geo1Ref) (World.init oneNodeStore) 7
      (Geo1.point 6) 0).2 = -1 := by
  decide

end AddIsoNodeFace

section AddIsoNodeSentinels

variable {σ G : Type}

/-- C15: when `lwt_AddIsoNode` resolves the containing face (the face is -1
or checks are enabled, and with checks enabled both existence queries
reported 0), `getFaceContainingPoint` is called and its answer decides: on
-2 the only message raised is the backend error with the backend's last
error message, on -1 it is the message that an edge crosses the node; in both
cases -1 is returned and `insertNodes` has not been called. -/
theorem C15_addIsoNode_face_sentinels (cb : LWT_BE_CALLBACKS σ G) (s : σ)
    (face : LWT_ELEMID) (pt : G) (skipISOChecks : Int) (s1 : σ)
    (hresolve : face = -1 ∨ skipISOChecks = 0)
    (hchecks : skipISOChecks = 0 →
      (cb.getNodeWithinDistance2D s pt 0 0 0 (-1)).2.2 = 0 ∧
      (cb.getEdgeWithinDistance2D
        (cb.getNodeWithinDistance2D s pt 0 0 0 (-1)).1 pt 0 0 0 (-1)).2.2 = 0 ∧
      s1 = (cb.getEdgeWithinDistance2D
        (cb.getNodeWithinDistance2D s pt 0 0 0 (-1)).1 pt 0 0 0 (-1)).1)
    (hskip : skipISOChecks ≠ 0 → s1 = s) :
    BeCall.getFaceContainingPoint pt (cb.getFaceContainingPoint s1 pt).2 ∈
      (lwt_AddIsoNode cb (World.init s) face pt skipISOChecks).1.calls ∧
    ((cb.getFaceContainingPoint s1 pt).2 = -2 →
      (lwt_AddIsoNode cb (World.init s) face pt skipISOChecks).1.errors =
        [⟨"Backend error: %s", [ErrArg.str
          (cb.lastErrorMessage (cb.getFaceContainingPoint s1 pt).1)]⟩] ∧
      (lwt_AddIsoNode cb (World.init s) face pt skipISOChecks).2 = -1 ∧
      insertNodesCalls
        (lwt_AddIsoNode cb (World.init s) face pt skipISOChecks).1.calls = 0) ∧
    ((cb.getFaceContainingPoint s1 pt).2 = -1 →
      (lwt_AddIsoNode cb (World.init s) face pt skipISOChecks).1.errors =
        [⟨"SQL/MM Spatial exception - edge crosses node", []⟩] ∧
      (lwt_AddIsoNode cb (World.init s) face pt skipISOChecks).2 = -1 ∧
      insertNodesCalls
        (lwt_AddIsoNode cb (World.init s) face pt skipISOChecks).1.calls
        = 0) := by
  have hrest : ∀ c : List (BeCall G),
      BeCall.getFaceContainingPoint pt (cb.getFaceContainingPoint s1 pt).2 ∈
        (lwt_AddIsoNode_face cb ⟨s1, c, []⟩ face pt skipISOChecks).1.calls ∧
      ((cb.getFaceContainingPoint s1 pt).2 = -2 →
        lwt_AddIsoNode_face cb ⟨s1, c, []⟩ face pt skipISOChecks =
          (⟨(cb.getFaceContainingPoint s1 pt).1, c ++
            [BeCall.getFaceContainingPoint pt (-2),
             BeCall.lastErrorMessage
               (cb.lastErrorMessage (cb.getFaceContainingPoint s1 pt).1)],
            [] ++ [⟨"Backend error: %s", [ErrArg.str
              (cb.lastErrorMessage (cb.getFaceContainingPoint s1 pt).1)]⟩]⟩,
            -1)) ∧
      ((cb.getFaceContainingPoint s1 pt).2 = -1 →
        lwt_AddIsoNode_face cb ⟨s1, c, []⟩ face pt skipISOChecks =
          (⟨(cb.getFaceContainingPoint s1 pt).1, c ++
            [BeCall.getFaceContainingPoint pt (-1)],
            [] ++
              [⟨"SQL/MM Spatial exception - edge crosses node", []⟩]⟩,
            -1)) := by
    intro c
    refine ⟨?_, ?_, ?_⟩
    · unfold lwt_AddIsoNode_face
      rw [if_pos hresolve]
      dsimp only
      split_ifs
      · simp [lwt_be_getFaceContainingPoint, lwt_be_lastErrorMessage, lwerror]
      · simp [lwt_be_getFaceContainingPoint, lwerror]
      · unfold lwt_AddIsoNode_validate
        split_ifs
        · simp [lwt_AddIsoNode_insert, lwt_be_getFaceContainingPoint,
            lwt_be_insertNodes, lwt_be_lastErrorMessage, lwerror]
          split_ifs <;> simp
        · simp [lwt_be_getFaceContainingPoint, lwerror]
        · simp [lwt_AddIsoNode_insert, lwt_be_getFaceContainingPoint,
            lwt_be_insertNodes, lwt_be_lastErrorMessage, lwerror]
          split_ifs <;> simp
    · intro h2
      simp [lwt_AddIsoNode_face, hresolve, lwt_be_getFaceContainingPoint,
        lwt_be_lastErrorMessage, lwerror, h2]
    · intro h1
      simp [lwt_AddIsoNode_face, hresolve, lwt_be_getFaceContainingPoint,
        lwerror, h1]
  by_cases hs : skipISOChecks = 0
  · obtain ⟨hn, he, h3⟩ := hchecks hs
    have hrun : lwt_AddIsoNode cb (World.init s) face pt skipISOChecks =
        lwt_AddIsoNode_face cb
          ⟨s1, [BeCall.getNodeWithinDistance2D pt 0 0 0 (-1)
              (cb.getNodeWithinDistance2D s pt 0 0 0 (-1)).2.1 0,
            BeCall.getEdgeWithinDistance2D pt 0 0 0 (-1)
              (cb.getEdgeWithinDistance2D
                (cb.getNodeWithinDistance2D s pt 0 0 0 (-1)).1 pt 0 0 0
                (-1)).2.1 0], []⟩ face pt skipISOChecks := by
      subst h3
      simp [lwt_AddIsoNode, lwt_be_ExistsCoincidentNode,
        lwt_be_ExistsEdgeIntersectingPoint, lwt_be_getNodeWithinDistance2D,
        lwt_be_getEdgeWithinDistance2D, World.init, hs, hn, he]
    rw [hrun]
    obtain ⟨hc, h2, h1⟩ := hrest _
    refine ⟨?_, ?_, ?_⟩
    · exact hc
    · intro h
      rw [h2 h]
      simp [insertNodesCalls, BeCall.isInsertNodes]
    · intro h
      rw [h1 h]
      simp [insertNodesCalls, BeCall.isInsertNodes]
  · have h3 := hskip hs
    have hrun : lwt_AddIsoNode cb (World.init s) face pt skipISOChecks =
        lwt_AddIsoNode_face cb ⟨s1, [], []⟩ face pt skipISOChecks := by
      subst h3
      simp [lwt_AddIsoNode, World.init, hs]
    rw [hrun]
    obtain ⟨hc, h2, h1⟩ := hrest _
    refine ⟨?_, ?_, ?_⟩
    · exact hc
    · intro h
      rw [h2 h]
      simp [insertNodesCalls, BeCall.isInsertNodes]
    · intro h
      rw [h1 h]
      simp [insertNodesCalls, BeCall.isInsertNodes]

/-- C15 at a concrete input: a point at abscissa -5, for which the backend
answers the fault sentinel, is added to the empty store with checks enabled. -/
theorem C15_addIsoNode_face_sentinels_witness :
    ((-1) = -1 ∨ 0 = 0) ∧
    (0 = 0 →
       ((refBackend geo1Faulty).getNodeWithinDistance2D emptyStore (Geo1.point (-5)) 0 0 0 (-1)).2.2 = 0 ∧
       ((refBackend geo1Faulty).getEdgeWithinDistance2D
         ((refBackend geo1Faulty).getNodeWithinDistance2D emptyStore (Geo1.point (-5)) 0 0 0 (-1)).1 (Geo1.point (-5)) 0 0 0 (-1)).2.2 = 0 ∧
       emptyStore = ((refBackend geo1Faulty).getEdgeWithinDistance2D
         ((refBackend geo1Faulty).getNodeWithinDistance2D emptyStore (Geo1.point (-5)) 0 0 0 (-1)).1 (Geo1.point (-5)) 0 0 0 (-1)).1) ∧
    (0 ≠ 0 → emptyStore = emptyStore) ∧
    (BeCall.getFaceContainingPoint (Geo1.point (-5)) ((refBackend geo1Faulty).getFaceContainingPoint emptyStore (Geo1.point (-5))).2 ∈
       (lwt_AddIsoNode (refBackend geo1Faulty) (World.init emptyStore) (-1) (Geo1.point (-5)) 0).1.calls ∧
     (((refBackend geo1Faulty).getFaceContainingPoint emptyStore (Geo1.point (-5))).2 = -2 →
       (lwt_AddIsoNode (refBackend geo1Faulty) (World.init emptyStore) (-1) (Geo1.point (-5)) 0).1.errors =
         [⟨"Backend error: %s", [ErrArg.str
           ((refBackend geo1Faulty).lastErrorMessage ((refBackend geo1Faulty).getFaceContainingPoint emptyStore (Geo1.point (-5))).1)]⟩] ∧
       (lwt_AddIsoNode (refBackend geo1Faulty) (World.init emptyStore) (-1) (Geo1.point (-5)) 0).2 = -1 ∧
       insertNodesCalls
         (lwt_AddIsoNode (refBackend geo1Faulty) (World.init emptyStore) (-1) (Geo1.point (-5)) 0).1.calls = 0) ∧
     (((refBackend geo1Faulty).getFaceContainingPoint emptyStore (Geo1.point (-5))).2 = -1 →
       (lwt_AddIsoNode (refBackend geo1Faulty) (World.init emptyStore) (-1) (Geo1.point (-5)) 0).1.errors =
         [⟨"SQL/MM Spatial exception - edge crosses node", []⟩] ∧
       (lwt_AddIsoNode (refBackend geo1Faulty) (World.init emptyStore) (-1) (Geo1.point (-5)) 0).2 = -1 ∧
       insertNodesCalls
         (lwt_AddIsoNode (refBackend geo1Faulty) (World.init emptyStore) (-1) (Geo1.point (-5)) 0).1.calls
         = 0)) :=
  ⟨by decide, by decide, by decide,
    C15_addIsoNode_face_sentinels (refBackend geo1Faulty) emptyStore (-1)
      (Geo1.point (-5)) 0 emptyStore (by decide) (by decide) (by decide)⟩

/-- A run in which the backend finds no face: the point at abscissa 200 lies
in no face, the message is that an edge crosses the node. -/
theorem lwt_AddIsoNode_no_face_run :
    (lwt_AddIsoNode (refBackend geo1Faulty) (World.init emptyStore) (-1)
      (Geo1.point 200) 0).1.calls =
      [BeCall.getNodeWithinDistance2D (Geo1.point 200) 0 0 0 (-1) [] 0,
       BeCall.getEdgeWithinDistance2D (Geo1.point 200) 0 0 0 (-1) [] 0,
       BeCall.getFaceContainingPoint (Geo1.point 200) (-1)] ∧
    (lwt_AddIsoNode (refBackend geo1Faulty) (World.init emptyStore) (-1)
      (Geo1.point 200) 0).1.errors =
      [⟨"SQL/MM Spatial exception - edge crosses node", []⟩] ∧
    (lwt_AddIsoNode (refBackend geo1Faulty) (World.init emptyStore) (-1)
      (Geo1.point 200) 0).2 = -1 := by
  decide

end AddIsoNodeSentinels

section SplitStops

variable {σ G : Type}

/-- From the insert of the node to the test on the count of the update of the
old edge, on a run whose steps up to that update pass. -/
theorem lwt_ModEdgeSplit_addNode_to_update (cb : LWT_BE_CALLBACKS σ G)
    (geo : GeomOps G) (s : σ) (loc : Locals G) (edge : LWT_ELEMID) (pt : G)
    (skipISOChecks : Int) (t : SplitRun σ G)
    (ht : t.ReachesUpdate cb geo s loc edge pt skipISOChecks)
    (w : World σ G) (hw : w.be = t.s_check) (hc : w.calls =
      t.readCalls edge pt skipISOChecks) (he : w.errors = []) :
    lwt_ModEdgeSplit_addNode cb geo w loc t.oldedge pt t.oldedge_geom
        t.newedge_geom =
      if t.upd_ret = -1 then
        (⟨t.s_upd, t.callsToUpdate loc edge pt skipISOChecks ++
            [BeCall.lastErrorMessage (cb.lastErrorMessage t.s_upd)],
          [⟨"Backend error: %s",
            [ErrArg.str (cb.lastErrorMessage t.s_upd)]⟩]⟩, Outcome.ret (-1))
      else if t.upd_ret = 0 then
        (⟨t.s_upd, t.callsToUpdate loc edge pt skipISOChecks,
          [⟨"Edge being splitted (%d) disappeared during operations?",
            [ErrArg.int t.oldedge.edge_id]⟩]⟩, Outcome.ret (-1))
      else if t.upd_ret > 1 then
        (⟨t.s_upd, t.callsToUpdate loc edge pt skipISOChecks,
          [⟨"More than a single edge found with id %d !",
            [ErrArg.int t.oldedge.edge_id]⟩]⟩, Outcome.ret (-1))
      else
        lwt_ModEdgeSplit_relink cb
          ⟨t.s_upd, t.callsToUpdate loc edge pt skipISOChecks, []⟩
          loc t.oldedge t.newedge1 t.node (t.updedge1 loc) := by
  obtain ⟨-, hn, h1, h2, hi, h3, hl1, hins, h4, h5, hl0, hu⟩ := ht
  have he0 := hins
  have hu0 := hu
  simp only [SplitRun.newedge0] at he0
  simp only [SplitRun.updedge1] at hu0
  obtain ⟨wbe, wcalls, werrors⟩ := w
  simp only at hw hc he
  subst hw hc he
  simp only [lwt_ModEdgeSplit_addNode, lwt_ModEdgeSplit_insertEdge,
    lwt_ModEdgeSplit_updateOld, lwt_be_insertNodes, lwt_be_getNextEdgeId,
    lwt_be_insertEdges, lwt_be_updateEdges, lwt_be_lastErrorMessage, lwerror,
    hn, h1, h2, hi, h3, hl1, he0, h4, h5, hl0, hu0, if_false,
    SplitRun.callsToUpdate, SplitRun.newedge0, SplitRun.updedge1,
    List.append_assoc, List.singleton_append, List.cons_append,
    List.nil_append]

/-- A run whose steps up to the update of the old edge pass ends as the
answer of that update decides. -/
theorem lwt_ModEdgeSplit_of_reachesUpdate (cb : LWT_BE_CALLBACKS σ G)
    (geo : GeomOps G) (s : σ) (loc : Locals G) (edge : LWT_ELEMID) (pt : G)
    (skipISOChecks : Int) (t : SplitRun σ G)
    (ht : t.ReachesUpdate cb geo s loc edge pt skipISOChecks) :
    lwt_ModEdgeSplit cb geo (World.init s) loc edge pt skipISOChecks =
      if t.upd_ret = -1 then
        (⟨t.s_upd, t.callsToUpdate loc edge pt skipISOChecks ++
            [BeCall.lastErrorMessage (cb.lastErrorMessage t.s_upd)],
          [⟨"Backend error: %s",
            [ErrArg.str (cb.lastErrorMessage t.s_upd)]⟩]⟩, Outcome.ret (-1))
      else if t.upd_ret = 0 then
        (⟨t.s_upd, t.callsToUpdate loc edge pt skipISOChecks,
          [⟨"Edge being splitted (%d) disappeared during operations?",
            [ErrArg.int t.oldedge.edge_id]⟩]⟩, Outcome.ret (-1))
      else if t.upd_ret > 1 then
        (⟨t.s_upd, t.callsToUpdate loc edge pt skipISOChecks,
          [⟨"More than a single edge found with id %d !",
            [ErrArg.int t.oldedge.edge_id]⟩]⟩, Outcome.ret (-1))
      else
        lwt_ModEdgeSplit_relink cb
          ⟨t.s_upd, t.callsToUpdate loc edge pt skipISOChecks, []⟩
          loc t.oldedge t.newedge1 t.node (t.updedge1 loc) := by
  have ht0 := ht
  obtain ⟨⟨hq, hc, hs, hcol⟩, -⟩ := ht0
  by_cases hk : skipISOChecks = 0
  · rw [if_pos hk] at hc
    simp only [lwt_ModEdgeSplit, lwt_be_getEdgeById, World.init, hq,
      lwt_ModEdgeSplit_checks, hk, if_true, lwt_be_ExistsCoincidentNode,
      lwt_be_getNodeWithinDistance2D, hc, ne_eq, not_true_eq_false, if_false,
      lwt_ModEdgeSplit_split, hs, hcol]
    rw [lwt_ModEdgeSplit_addNode_to_update cb geo s loc edge pt 0 t
      (hk ▸ ht) _ rfl (by simp [SplitRun.readCalls]) rfl]
  · rw [if_neg hk] at hc
    simp only [lwt_ModEdgeSplit, lwt_be_getEdgeById, World.init, hq,
      lwt_ModEdgeSplit_checks, hk, if_false,
      lwt_ModEdgeSplit_split, hs, hcol]
    rw [lwt_ModEdgeSplit_addNode_to_update cb geo s loc edge pt skipISOChecks
      t ht _ hc.symm (by simp [SplitRun.readCalls, hk]) rfl]

/-- The re-pointing part of a run starts with the update of the `next_right`
references: that call is in the log whatever comes after it. -/
theorem lwt_ModEdgeSplit_relink_first (cb : LWT_BE_CALLBACKS σ G)
    (w : World σ G) (loc : Locals G) (oldedge newedge1 : LWT_ISO_EDGE G)
    (node : LWT_ISO_NODE G) (updedge : LWT_ISO_EDGE G) :
    ∃ ret, BeCall.updateEdges
        { loc.seledge with
          next_right := -oldedge.edge_id, start_node := oldedge.end_node }
        (LWT_COL_EDGE_NEXT_RIGHT ||| LWT_COL_EDGE_START_NODE)
        { updedge with next_right := -newedge1.edge_id }
        LWT_COL_EDGE_NEXT_RIGHT
        (some { loc.excedge with edge_id := newedge1.edge_id })
        LWT_COL_EDGE_EDGE_ID ret ∈
      (lwt_ModEdgeSplit_relink cb w loc oldedge newedge1 node
        updedge).1.calls := by
  refine ⟨(cb.updateEdges w.be
    { loc.seledge with
      next_right := -oldedge.edge_id, start_node := oldedge.end_node }
    (LWT_COL_EDGE_NEXT_RIGHT ||| LWT_COL_EDGE_START_NODE)
    { updedge with next_right := -newedge1.edge_id }
    LWT_COL_EDGE_NEXT_RIGHT
    (some { loc.excedge with edge_id := newedge1.edge_id })
    LWT_COL_EDGE_EDGE_ID).2, ?_⟩
  unfold lwt_ModEdgeSplit_relink
  dsimp only
  split_ifs
  · simp [lwt_be_updateEdges, lwt_be_lastErrorMessage, lwerror]
  · simp [lwt_be_updateEdges, lwt_be_lastErrorMessage, lwerror]
  · simp only [lwt_ModEdgeSplit_notify]
    split_ifs <;>
    simp [lwt_be_updateEdges, lwt_be_lastErrorMessage, lwerror,
      lwt_be_updateTopoGeomEdgeSplit]

/-- The calls of a run up to the update of the old edge hold one
`updateEdges` call, that update, and no notification. -/
theorem callsToUpdate_filter (t : SplitRun σ G) (loc : Locals G)
    (edge : LWT_ELEMID) (pt : G) (skipISOChecks : Int) :
    (t.callsToUpdate loc edge pt skipISOChecks).filter BeCall.isUpdateEdges =
      [BeCall.updateEdges t.oldedge LWT_COL_EDGE_EDGE_ID (t.updedge1 loc)
        (LWT_COL_EDGE_GEOM ||| LWT_COL_EDGE_NEXT_LEFT |||
          LWT_COL_EDGE_END_NODE) none 0 t.upd_ret] ∧
    (t.callsToUpdate loc edge pt skipISOChecks).filter
      BeCall.isUpdateTopoGeomEdgeSplit = [] := by
  by_cases hk : skipISOChecks = 0 <;>
    simp [SplitRun.callsToUpdate, SplitRun.readCalls, hk, List.filter,
      BeCall.isUpdateEdges, BeCall.isUpdateTopoGeomEdgeSplit]

/-- C16 as stated fails: over the backend whose `updateEdges` reports the
count -2, the update of edge 1 in place reports -2, not 1, and the run goes
on: the two re-pointing updates and the notification are made, nothing is
raised and the new node id is returned. -/
theorem C16_counterexample :
    BeCall.updateEdges
        { edge_id := 1, start_node := 1, end_node := 2, face_left := 0,
          face_right := 0, next_left := -1, next_right := 1,
          geom := Geo1.segment 0 10 }
        LWT_COL_EDGE_EDGE_ID
        { someLocals.updedge with
          geom := Geo1.segment 0 4, next_left := 2, end_node := 3 }
        (LWT_COL_EDGE_GEOM ||| LWT_COL_EDGE_NEXT_LEFT |||
          LWT_COL_EDGE_END_NODE) none 0 (-2) ∈
      (lwt_ModEdgeSplit miscountingBackend geo1Ops (World.init oneEdgeStore)
        someLocals 1 (Geo1.point 4) 0).1.calls ∧
    ((lwt_ModEdgeSplit miscountingBackend geo1Ops (World.init oneEdgeStore)
      someLocals 1 (Geo1.point 4) 0).1.calls.filter
        BeCall.isUpdateEdges).length = 3 ∧
    (lwt_ModEdgeSplit miscountingBackend geo1Ops (World.init oneEdgeStore)
      someLocals 1 (Geo1.point 4) 0).1.calls.filter
        BeCall.isUpdateTopoGeomEdgeSplit =
      [BeCall.updateTopoGeomEdgeSplit 1 2 (-1) 1] ∧
    (lwt_ModEdgeSplit miscountingBackend geo1Ops (World.init oneEdgeStore)
      someLocals 1 (Geo1.point 4) 0).1.errors = [] ∧
    (lwt_ModEdgeSplit miscountingBackend geo1Ops (World.init oneEdgeStore)
      someLocals 1 (Geo1.point 4) 0).2 = Outcome.ret 3 := by
  decide

/-- C16, amended: on a run of `lwt_ModEdgeSplit` whose steps up to the update
of the old edge in place pass, with `t.upd_ret` the count that update
reports: the count -1 raises the backend error, the count 0 the message that
the edge disappeared, a count above 1 the message that more than one edge has
the id; in these three cases -1 is returned, the update of the old edge is
the only `updateEdges` call of the run and no notification is made. The
re-pointing update of the `next_right` references is made exactly when the
count is 1 or is below -1. -/
theorem C16_modEdgeSplit_update_count (cb : LWT_BE_CALLBACKS σ G)
    (geo : GeomOps G) (s : σ) (loc : Locals G) (edge : LWT_ELEMID) (pt : G)
    (skipISOChecks : Int) (t : SplitRun σ G)
    (ht : t.ReachesUpdate cb geo s loc edge pt skipISOChecks) :
    BeCall.updateEdges t.oldedge LWT_COL_EDGE_EDGE_ID (t.updedge1 loc)
        (LWT_COL_EDGE_GEOM ||| LWT_COL_EDGE_NEXT_LEFT |||
          LWT_COL_EDGE_END_NODE) none 0 t.upd_ret ∈
      (lwt_ModEdgeSplit cb geo (World.init s) loc edge pt
        skipISOChecks).1.calls ∧
    ((t.upd_ret = -1 ∨ t.upd_ret = 0 ∨ t.upd_ret > 1) →
      (lwt_ModEdgeSplit cb geo (World.init s) loc edge pt
        skipISOChecks).1.errors =
        [if t.upd_ret = -1 then
          ⟨"Backend error: %s", [ErrArg.str (cb.lastErrorMessage t.s_upd)]⟩
         else if t.upd_ret = 0 then
          ⟨"Edge being splitted (%d) disappeared during operations?",
            [ErrArg.int t.oldedge.edge_id]⟩
         else
          ⟨"More than a single edge found with id %d !",
            [ErrArg.int t.oldedge.edge_id]⟩] ∧
      (lwt_ModEdgeSplit cb geo (World.init s) loc edge pt
        skipISOChecks).2 = Outcome.ret (-1) ∧
      (lwt_ModEdgeSplit cb geo (World.init s) loc edge pt
        skipISOChecks).1.be = t.s_upd ∧
      (lwt_ModEdgeSplit cb geo (World.init s) loc edge pt
        skipISOChecks).1.calls.filter BeCall.isUpdateEdges =
        [BeCall.updateEdges t.oldedge LWT_COL_EDGE_EDGE_ID (t.updedge1 loc)
          (LWT_COL_EDGE_GEOM ||| LWT_COL_EDGE_NEXT_LEFT |||
            LWT_COL_EDGE_END_NODE) none 0 t.upd_ret] ∧
      (lwt_ModEdgeSplit cb geo (World.init s) loc edge pt
        skipISOChecks).1.calls.filter BeCall.isUpdateTopoGeomEdgeSplit
        = []) ∧
    ((∃ ret, BeCall.updateEdges (t.seledge2 loc)
          (LWT_COL_EDGE_NEXT_RIGHT ||| LWT_COL_EDGE_START_NODE)
          (t.updedge2 loc) LWT_COL_EDGE_NEXT_RIGHT (some (t.excedge loc))
          LWT_COL_EDGE_EDGE_ID ret ∈
        (lwt_ModEdgeSplit cb geo (World.init s) loc edge pt
          skipISOChecks).1.calls) ↔
      (t.upd_ret = 1 ∨ t.upd_ret < -1)) := by
  rw [lwt_ModEdgeSplit_of_reachesUpdate cb geo s loc edge pt skipISOChecks t
    ht]
  obtain ⟨hf1, hf2⟩ := callsToUpdate_filter t loc edge pt skipISOChecks
  have hmem : BeCall.updateEdges t.oldedge LWT_COL_EDGE_EDGE_ID
      (t.updedge1 loc) (LWT_COL_EDGE_GEOM ||| LWT_COL_EDGE_NEXT_LEFT |||
        LWT_COL_EDGE_END_NODE) none 0 t.upd_ret ∈
      t.callsToUpdate loc edge pt skipISOChecks := by
    simp [SplitRun.callsToUpdate]
  have hno : ∀ ret, BeCall.updateEdges (t.seledge2 loc)
      (LWT_COL_EDGE_NEXT_RIGHT ||| LWT_COL_EDGE_START_NODE)
      (t.updedge2 loc) LWT_COL_EDGE_NEXT_RIGHT (some (t.excedge loc))
      LWT_COL_EDGE_EDGE_ID ret ∉ t.callsToUpdate loc edge pt
        skipISOChecks := by
    intro ret hin
    have : BeCall.updateEdges (t.seledge2 loc)
        (LWT_COL_EDGE_NEXT_RIGHT ||| LWT_COL_EDGE_START_NODE)
        (t.updedge2 loc) LWT_COL_EDGE_NEXT_RIGHT (some (t.excedge loc))
        LWT_COL_EDGE_EDGE_ID ret ∈
        (t.callsToUpdate loc edge pt skipISOChecks).filter
          BeCall.isUpdateEdges := by
      rw [List.mem_filter]
      exact ⟨hin, rfl⟩
    rw [hf1] at this
    simp at this
  have hrel := lwt_ModEdgeSplit_relink_first cb
    ⟨t.s_upd, t.callsToUpdate loc edge pt skipISOChecks, []⟩ loc t.oldedge
    t.newedge1 t.node (t.updedge1 loc)
  have hcalls : ∀ w : World σ G, t.callsToUpdate loc edge pt skipISOChecks
      <+: (lwt_ModEdgeSplit_relink cb
        ⟨t.s_upd, t.callsToUpdate loc edge pt skipISOChecks, w.errors⟩ loc
        t.oldedge t.newedge1 t.node (t.updedge1 loc)).1.calls := by
    intro w
    unfold lwt_ModEdgeSplit_relink
    dsimp only
    split_ifs
    · simp [lwt_be_updateEdges, lwt_be_lastErrorMessage, lwerror]
    · simp [lwt_be_updateEdges, lwt_be_lastErrorMessage, lwerror]
    · simp only [lwt_ModEdgeSplit_notify]
      split_ifs <;>
      simp [lwt_be_updateEdges, lwt_be_lastErrorMessage, lwerror,
        lwt_be_updateTopoGeomEdgeSplit]
  by_cases h1 : t.upd_ret = -1
  · simp only [h1, if_true]
    refine ⟨by simp [h1] at hmem; simp [hmem], fun _ => ?_, ?_⟩
    · simp [List.filter_append, hf1, hf2, h1, List.filter,
        BeCall.isUpdateEdges, BeCall.isUpdateTopoGeomEdgeSplit]
    · simp only [List.mem_append, List.mem_singleton]
      constructor
      · rintro ⟨ret, h | h⟩
        · exact absurd h (hno ret)
        · simp at h
      · intro h
        omega
  · by_cases h0 : t.upd_ret = 0
    · simp only [h0, if_true, if_false]
      refine ⟨by simp [h0] at hmem; exact hmem, fun _ => ?_, ?_⟩
      · simp [hf1, hf2, h0]
      · constructor
        · rintro ⟨ret, h⟩
          exact absurd h (hno ret)
        · intro h
          omega
    · by_cases h2 : t.upd_ret > 1
      · simp only [h1, h0, h2, if_true, if_false]
        refine ⟨hmem, fun _ => ?_, ?_⟩
        · simp [hf1, hf2]
        · constructor
          · rintro ⟨ret, h⟩
            exact absurd h (hno ret)
          · intro h
            omega
      · simp only [h1, h0, h2, if_false]
        refine ⟨?_, fun h => ?_, ?_⟩
        · exact (hcalls ⟨t.s_upd, [], []⟩).subset hmem
        · simp [h1, h0, h2] at h
        · constructor
          · intro _
            omega
          · intro _
            simpa [SplitRun.seledge2, SplitRun.updedge2, SplitRun.excedge]
              using hrel

/-- C16 at a concrete input: edge 1 of the one-edge store is split at
abscissa 4 over the backend whose `updateEdges` updates nothing and reports
the count 0. -/
theorem C16_modEdgeSplit_update_count_witness :
    ((oneEdgeTrace (idleUpdateBackend 0)).ReachesUpdate (idleUpdateBackend 0) geo1Ops oneEdgeStore someLocals 1 (Geo1.point 4) 0) ∧
    (BeCall.updateEdges (oneEdgeTrace (idleUpdateBackend 0)).oldedge LWT_COL_EDGE_EDGE_ID ((oneEdgeTrace (idleUpdateBackend 0)).updedge1 someLocals)
         (LWT_COL_EDGE_GEOM ||| LWT_COL_EDGE_NEXT_LEFT |||
           LWT_COL_EDGE_END_NODE) none 0 (oneEdgeTrace (idleUpdateBackend 0)).upd_ret ∈
       (lwt_ModEdgeSplit (idleUpdateBackend 0) geo1Ops (World.init oneEdgeStore) someLocals 1 (Geo1.point 4)
         0).1.calls ∧
     (((oneEdgeTrace (idleUpdateBackend 0)).upd_ret = -1 ∨ (oneEdgeTrace (idleUpdateBackend 0)).upd_ret = 0 ∨ (oneEdgeTrace (idleUpdateBackend 0)).upd_ret > 1) →
       (lwt_ModEdgeSplit (idleUpdateBackend 0) geo1Ops (World.init oneEdgeStore) someLocals 1 (Geo1.point 4)
         0).1.errors =
         [if (oneEdgeTrace (idleUpdateBackend 0)).upd_ret = -1 then
           ⟨"Backend error: %s", [ErrArg.str ((idleUpdateBackend 0).lastErrorMessage (oneEdgeTrace (idleUpdateBackend 0)).s_upd)]⟩
          else if (oneEdgeTrace (idleUpdateBackend 0)).upd_ret = 0 then
           ⟨"Edge being splitted (%d) disappeared during operations?",
             [ErrArg.int (oneEdgeTrace (idleUpdateBackend 0)).oldedge.edge_id]⟩
          else
           ⟨"More than a single edge found with id %d !",
             [ErrArg.int (oneEdgeTrace (idleUpdateBackend 0)).oldedge.edge_id]⟩] ∧
       (lwt_ModEdgeSplit (idleUpdateBackend 0) geo1Ops (World.init oneEdgeStore) someLocals 1 (Geo1.point 4)
         0).2 = Outcome.ret (-1) ∧
       (lwt_ModEdgeSplit (idleUpdateBackend 0) geo1Ops (World.init oneEdgeStore) someLocals 1 (Geo1.point 4)
         0).1.be = (oneEdgeTrace (idleUpdateBackend 0)).s_upd ∧
       (lwt_ModEdgeSplit (idleUpdateBackend 0) geo1Ops (World.init oneEdgeStore) someLocals 1 (Geo1.point 4)
         0).1.calls.filter BeCall.isUpdateEdges =
         [BeCall.updateEdges (oneEdgeTrace (idleUpdateBackend 0)).oldedge LWT_COL_EDGE_EDGE_ID ((oneEdgeTrace (idleUpdateBackend 0)).updedge1 someLocals)
           (LWT_COL_EDGE_GEOM ||| LWT_COL_EDGE_NEXT_LEFT |||
             LWT_COL_EDGE_END_NODE) none 0 (oneEdgeTrace (idleUpdateBackend 0)).upd_ret] ∧
       (lwt_ModEdgeSplit (idleUpdateBackend 0) geo1Ops (World.init oneEdgeStore) someLocals 1 (Geo1.point 4)
         0).1.calls.filter BeCall.isUpdateTopoGeomEdgeSplit
         = []) ∧
     ((∃ ret, BeCall.updateEdges ((oneEdgeTrace (idleUpdateBackend 0)).seledge2 someLocals)
           (LWT_COL_EDGE_NEXT_RIGHT ||| LWT_COL_EDGE_START_NODE)
           ((oneEdgeTrace (idleUpdateBackend 0)).updedge2 someLocals) LWT_COL_EDGE_NEXT_RIGHT (some ((oneEdgeTrace (idleUpdateBackend 0)).excedge someLocals))
           LWT_COL_EDGE_EDGE_ID ret ∈
         (lwt_ModEdgeSplit (idleUpdateBackend 0) geo1Ops (World.init oneEdgeStore) someLocals 1 (Geo1.point 4)
           0).1.calls) ↔
       ((oneEdgeTrace (idleUpdateBackend 0)).upd_ret = 1 ∨ (oneEdgeTrace (idleUpdateBackend 0)).upd_ret < -1))) :=
  ⟨by unfold SplitRun.ReachesUpdate SplitRun.Reads; decide,
    C16_modEdgeSplit_update_count (idleUpdateBackend 0) geo1Ops oneEdgeStore
      someLocals 1 (Geo1.point 4) 0 (oneEdgeTrace (idleUpdateBackend 0)) (by
      unfold SplitRun.ReachesUpdate SplitRun.Reads; decide)⟩

/-- What the run of that input raises and returns: the edge disappeared, -1;
and what it raises when the count reported is 2 and when it is -1. -/
theorem lwt_ModEdgeSplit_update_count_runs :
    (lwt_ModEdgeSplit (idleUpdateBackend 0) geo1Ops (World.init oneEdgeStore)
      someLocals 1 (Geo1.point 4) 0).1.errors =
      [⟨"Edge being splitted (%d) disappeared during operations?",
        [ErrArg.int 1]⟩] ∧
    (lwt_ModEdgeSplit (idleUpdateBackend 0) geo1Ops (World.init oneEdgeStore)
      someLocals 1 (Geo1.point 4) 0).2 = Outcome.ret (-1) ∧
    (lwt_ModEdgeSplit (idleUpdateBackend 2) geo1Ops (World.init oneEdgeStore)
      someLocals 1 (Geo1.point 4) 0).1.errors =
      [⟨"More than a single edge found with id %d !", [ErrArg.int 1]⟩] ∧
    (lwt_ModEdgeSplit (idleUpdateBackend (-1)) geo1Ops
      (World.init oneEdgeStore) someLocals 1 (Geo1.point 4) 0).1.errors =
      [⟨"Backend error: %s", [ErrArg.str ""]⟩] := by
  decide

end SplitStops

section SplitFetchFaults

variable {σ G : Type}

/-- When `getEdgeById` answers no row and the count -1, `lwt_ModEdgeSplit`
raises the backend error alone and returns -1; after the fetch it asks the
backend for its last error message and nothing else. -/
theorem lwt_ModEdgeSplit_fetch_fault (cb : LWT_BE_CALLBACKS σ G)
    (geo : GeomOps G) (s s1 : σ) (loc : Locals G) (edge : LWT_ELEMID) (pt : G)
    (skipISOChecks : Int)
    (h : cb.getEdgeById s [edge] 1 LWT_COL_EDGE_ALL = (s1, none, -1)) :
    lwt_ModEdgeSplit cb geo (World.init s) loc edge pt skipISOChecks =
      (⟨s1, [BeCall.getEdgeById [edge] 1 LWT_COL_EDGE_ALL none (-1),
             BeCall.lastErrorMessage (cb.lastErrorMessage s1)],
        [⟨"Backend error: %s", [ErrArg.str (cb.lastErrorMessage s1)]⟩]⟩,
        Outcome.ret (-1)) := by
  simp [lwt_ModEdgeSplit, lwt_be_getEdgeById, lwt_be_lastErrorMessage,
    lwerror, World.init, h]

/-- When `getEdgeById` answers no row and a count other than -1 and 0,
`lwt_ModEdgeSplit` raises the coding error and goes on: with checks skipped it
reads the geometry of the edge it does not have; with checks enabled it first
asks the backend for a node at the point and, if there is none, reads the
geometry of the edge it does not have. -/
theorem lwt_ModEdgeSplit_stray_count (cb : LWT_BE_CALLBACKS σ G)
    (geo : GeomOps G) (s s1 : σ) (loc : Locals G) (edge : LWT_ELEMID) (pt : G)
    (skipISOChecks : Int) (i : Int)
    (h : cb.getEdgeById s [edge] 1 LWT_COL_EDGE_ALL = (s1, none, i))
    (h1 : i ≠ -1) (h0 : i ≠ 0) :
    (skipISOChecks ≠ 0 →
      lwt_ModEdgeSplit cb geo (World.init s) loc edge pt skipISOChecks =
        (⟨s1, [BeCall.getEdgeById [edge] 1 LWT_COL_EDGE_ALL none i],
          [⟨"Backend coding error: getEdgeById callback returned NULL " ++
            "but numelements output parameter has value %d " ++
            "(expected 0 or 1)", [ErrArg.int i]⟩]⟩, Outcome.nullDeref)) ∧
    (skipISOChecks = 0 →
      (lwt_ModEdgeSplit cb geo (World.init s) loc edge pt
        skipISOChecks).1.calls =
        [BeCall.getEdgeById [edge] 1 LWT_COL_EDGE_ALL none i,
         BeCall.getNodeWithinDistance2D pt 0 0 0 (-1)
          (cb.getNodeWithinDistance2D s1 pt 0 0 0 (-1)).2.1
          (cb.getNodeWithinDistance2D s1 pt 0 0 0 (-1)).2.2] ∧
      ((cb.getNodeWithinDistance2D s1 pt 0 0 0 (-1)).2.2 = 0 →
        (lwt_ModEdgeSplit cb geo (World.init s) loc edge pt
          skipISOChecks).2 = Outcome.nullDeref ∧
        (lwt_ModEdgeSplit cb geo (World.init s) loc edge pt
          skipISOChecks).1.errors =
          [⟨"Backend coding error: getEdgeById callback returned NULL " ++
            "but numelements output parameter has value %d " ++
            "(expected 0 or 1)", [ErrArg.int i]⟩]) ∧
      ((cb.getNodeWithinDistance2D s1 pt 0 0 0 (-1)).2.2 ≠ 0 →
        (lwt_ModEdgeSplit cb geo (World.init s) loc edge pt
          skipISOChecks).2 = Outcome.ret (-1) ∧
        (lwt_ModEdgeSplit cb geo (World.init s) loc edge pt
          skipISOChecks).1.errors =
          [⟨"Backend coding error: getEdgeById callback returned NULL " ++
            "but numelements output parameter has value %d " ++
            "(expected 0 or 1)", [ErrArg.int i]⟩,
           ⟨"SQL/MM Spatial exception - coincident node", []⟩])) := by
  constructor
  · intro hk
    simp [lwt_ModEdgeSplit, lwt_ModEdgeSplit_checks, lwt_ModEdgeSplit_split,
      lwt_be_getEdgeById, lwerror, World.init, h, h1, h0, hk]
  · intro hk
    by_cases hc : (cb.getNodeWithinDistance2D s1 pt 0 0 0 (-1)).2.2 = 0 <;>
    simp [lwt_ModEdgeSplit, lwt_ModEdgeSplit_checks, lwt_ModEdgeSplit_split,
      lwt_be_getEdgeById, lwt_be_ExistsCoincidentNode,
      lwt_be_getNodeWithinDistance2D, lwerror, World.init, h, h1, h0, hk, hc]

/-- C17: the run on which the code leaves what the claim says. Over the
backend whose `getEdgeById` answers no row and the count 5, the split of
edge 1 of the empty store at abscissa 6, checks enabled, raises the coding
error and does not stop: it makes a further backend call, the node query, and
ends reading the geometry of the edge it does not have. On the store with a
node at abscissa 5 the split at 5 raises a second message, that of the
coincident node. -/
theorem C17_modEdgeSplit_stray_count_run :
    (lwt_ModEdgeSplit strayCountBackend geo1Ops (World.init emptyStore)
      someLocals 1 (Geo1.point 6) 0).1.calls =
      [BeCall.getEdgeById [1] 1 LWT_COL_EDGE_ALL none 5,
       BeCall.getNodeWithinDistance2D (Geo1.point 6) 0 0 0 (-1) [] 0] ∧
    (lwt_ModEdgeSplit strayCountBackend geo1Ops (World.init emptyStore)
      someLocals 1 (Geo1.point 6) 0).1.errors =
      [⟨"Backend coding error: getEdgeById callback returned NULL " ++
        "but numelements output parameter has value %d " ++
        "(expected 0 or 1)", [ErrArg.int 5]⟩] ∧
    (lwt_ModEdgeSplit strayCountBackend geo1Ops (World.init emptyStore)
      someLocals 1 (Geo1.point 6) 0).2 = Outcome.nullDeref ∧
    (lwt_ModEdgeSplit strayCountBackend geo1Ops (World.init emptyStore)
      someLocals 1 (Geo1.point 6) 1).2 = Outcome.nullDeref ∧
    (lwt_ModEdgeSplit strayCountBackend geo1Ops (World.init oneNodeStore)
      someLocals 1 (Geo1.point 5) 0).1.errors =
      [⟨"Backend coding error: getEdgeById callback returned NULL " ++
        "but numelements output parameter has value %d " ++
        "(expected 0 or 1)", [ErrArg.int 5]⟩,
       ⟨"SQL/MM Spatial exception - coincident node", []⟩] ∧
    (lwt_ModEdgeSplit strayCountBackend geo1Ops (World.init oneNodeStore)
      someLocals 1 (Geo1.point 5) 0).2 = Outcome.ret (-1) := by
  decide

end SplitFetchFaults

section SplitNotification

variable {σ G : Type}

/-- A run whose steps up to the notification pass ends as the answer of the
notification decides. -/
theorem lwt_ModEdgeSplit_of_reachesNotify (cb : LWT_BE_CALLBACKS σ G)
    (geo : GeomOps G) (s : σ) (loc : Locals G) (edge : LWT_ELEMID) (pt : G)
    (skipISOChecks : Int) (t : SplitRun σ G)
    (ht : t.ReachesNotify cb geo s loc edge pt skipISOChecks) :
    lwt_ModEdgeSplit cb geo (World.init s) loc edge pt skipISOChecks =
      if t.notify_ret = 0 then
        (⟨t.s_final, t.calls loc edge pt skipISOChecks ++
            [BeCall.lastErrorMessage (cb.lastErrorMessage t.s_final)],
          [⟨"Backend error: %s",
            [ErrArg.str (cb.lastErrorMessage t.s_final)]⟩]⟩, Outcome.ret (-1))
      else
        (⟨t.s_final, t.calls loc edge pt skipISOChecks, []⟩,
          Outcome.ret t.node.node_id) := by
  obtain ⟨hu, h6, h7, h8, hr, h9, hl, h10, hf⟩ := ht
  rw [lwt_ModEdgeSplit_of_reachesUpdate cb geo s loc edge pt skipISOChecks t
    hu, if_neg h6, if_neg h7, if_neg h8]
  have hr0 := hr
  have hl00 := hl
  simp only [SplitRun.seledge2, SplitRun.updedge2, SplitRun.updedge1,
    SplitRun.excedge] at hr0
  simp only [SplitRun.seledge3, SplitRun.seledge2, SplitRun.updedge3,
    SplitRun.updedge2, SplitRun.updedge1, SplitRun.excedge] at hl00
  simp only [lwt_ModEdgeSplit_relink, lwt_ModEdgeSplit_notify,
    lwt_be_updateEdges, lwt_be_updateTopoGeomEdgeSplit,
    lwt_be_lastErrorMessage, lwerror, SplitRun.updedge1, hr0, h9, hl00, h10,
    hf, if_false, SplitRun.calls, SplitRun.callsToUpdate,
    SplitRun.writeCalls, SplitRun.updedge2, SplitRun.updedge3,
    SplitRun.excedge, SplitRun.seledge2, SplitRun.seledge3,
    List.append_assoc, List.singleton_append, List.cons_append,
    List.nil_append]

/-- The calls of a run that raises nothing hold one notification, the last
call, and one `insertNodes` call. -/
theorem splitRun_calls_filter (t : SplitRun σ G) (loc : Locals G)
    (edge : LWT_ELEMID) (pt : G) (skipISOChecks : Int) :
    (t.calls loc edge pt skipISOChecks).filter
        BeCall.isUpdateTopoGeomEdgeSplit =
      [BeCall.updateTopoGeomEdgeSplit t.oldedge.edge_id t.newedge1.edge_id
        (-1) t.notify_ret] ∧
    (t.calls loc edge pt skipISOChecks).filter BeCall.isInsertNodes =
      [BeCall.insertNodes ⟨-1, -1, pt⟩ 1 t.node t.node_ret] := by
  by_cases hk : skipISOChecks = 0 <;>
    simp [SplitRun.calls, SplitRun.writeCalls, SplitRun.readCalls, hk,
      List.filter, BeCall.isInsertNodes, BeCall.isUpdateTopoGeomEdgeSplit]

/-- C18: on a run of `lwt_ModEdgeSplit` whose steps up to the notification
pass, with `t.oldedge` the edge fetched, `t.node` the node record as
`insertNodes` hands it back and `t.newedge1` the edge record as `insertEdges`
hands it back: the one node inserted is passed with containing face -1 and
the point as geometry; `updateTopoGeomEdgeSplit` is called exactly once, with
the id of the old edge, the id of the new edge and -1; if it answers 0 the
run raises the backend error alone and returns -1, otherwise the run raises
nothing and returns the id found in the node record. -/
theorem C18_modEdgeSplit_notification (cb : LWT_BE_CALLBACKS σ G)
    (geo : GeomOps G) (s : σ) (loc : Locals G) (edge : LWT_ELEMID) (pt : G)
    (skipISOChecks : Int) (t : SplitRun σ G)
    (ht : t.ReachesNotify cb geo s loc edge pt skipISOChecks) :
    (cb.getEdgeById s [edge] 1 LWT_COL_EDGE_ALL).2.1 = some t.oldedge ∧
    (cb.insertNodes t.s_check ⟨-1, -1, pt⟩ 1).2.1 = t.node ∧
    (cb.insertEdges t.s_id t.newedge0 1).2.1 = t.newedge1 ∧
    (lwt_ModEdgeSplit cb geo (World.init s) loc edge pt
      skipISOChecks).1.calls.filter BeCall.isInsertNodes =
      [BeCall.insertNodes ⟨-1, -1, pt⟩ 1 t.node t.node_ret] ∧
    BeCall.insertEdges t.newedge0 1 t.newedge1 t.ins_ret ∈
      (lwt_ModEdgeSplit cb geo (World.init s) loc edge pt
        skipISOChecks).1.calls ∧
    (lwt_ModEdgeSplit cb geo (World.init s) loc edge pt
      skipISOChecks).1.calls.filter BeCall.isUpdateTopoGeomEdgeSplit =
      [BeCall.updateTopoGeomEdgeSplit t.oldedge.edge_id t.newedge1.edge_id
        (-1) t.notify_ret] ∧
    (t.notify_ret = 0 →
      (lwt_ModEdgeSplit cb geo (World.init s) loc edge pt
        skipISOChecks).1.errors =
        [⟨"Backend error: %s",
          [ErrArg.str (cb.lastErrorMessage t.s_final)]⟩] ∧
      (lwt_ModEdgeSplit cb geo (World.init s) loc edge pt
        skipISOChecks).2 = Outcome.ret (-1)) ∧
    (t.notify_ret ≠ 0 →
      (lwt_ModEdgeSplit cb geo (World.init s) loc edge pt
        skipISOChecks).1.errors = [] ∧
      (lwt_ModEdgeSplit cb geo (World.init s) loc edge pt
        skipISOChecks).2 = Outcome.ret t.node.node_id) := by
  rw [lwt_ModEdgeSplit_of_reachesNotify cb geo s loc edge pt skipISOChecks t
    ht]
  obtain ⟨hf1, hf2⟩ := splitRun_calls_filter t loc edge pt skipISOChecks
  obtain ⟨⟨⟨hq, -, -, -⟩, hn, -, -, -, -, -, hins, -⟩, -⟩ := ht
  have hmem : BeCall.insertEdges t.newedge0 1 t.newedge1 t.ins_ret ∈
      t.calls loc edge pt skipISOChecks := by
    simp [SplitRun.calls, SplitRun.writeCalls]
  refine ⟨by rw [hq], by rw [hn], by rw [hins], ?_⟩
  by_cases h0 : t.notify_ret = 0
  · rw [if_pos h0]
    refine ⟨?_, ?_, ?_, fun _ => ⟨rfl, rfl⟩, fun h => absurd h0 h⟩
    · show List.filter _ (_ ++ _) = _
      rw [List.filter_append, hf2]
      rfl
    · exact List.mem_append_left _ hmem
    · show List.filter _ (_ ++ _) = _
      rw [List.filter_append, hf1]
      rfl
  · rw [if_neg h0]
    exact ⟨hf2, hmem, hf1, fun h => absurd h h0, fun _ => ⟨rfl, rfl⟩⟩

/-- C18 at a concrete input: edge 1 of the one-edge store is split at
abscissa 4 over the reference backend, which accepts the notification. -/
theorem C18_modEdgeSplit_notification_witness :
    ((oneEdgeTrace (refBackend geo1Ref)).ReachesNotify (refBackend geo1Ref) geo1Ops oneEdgeStore someLocals 1 (Geo1.point 4) 0) ∧
    (((refBackend geo1Ref).getEdgeById oneEdgeStore [1] 1 LWT_COL_EDGE_ALL).2.1 = some (oneEdgeTrace (refBackend geo1Ref)).oldedge ∧
     ((refBackend geo1Ref).insertNodes (oneEdgeTrace (refBackend geo1Ref)).s_check ⟨-1, -1, (Geo1.point 4)⟩ 1).2.1 = (oneEdgeTrace (refBackend geo1Ref)).node ∧
     ((refBackend geo1Ref).insertEdges (oneEdgeTrace (refBackend geo1Ref)).s_id (oneEdgeTrace (refBackend geo1Ref)).newedge0 1).2.1 = (oneEdgeTrace (refBackend geo1Ref)).newedge1 ∧
     (lwt_ModEdgeSplit (refBackend geo1Ref) geo1Ops (World.init oneEdgeStore) someLocals 1 (Geo1.point 4)
       0).1.calls.filter BeCall.isInsertNodes =
       [BeCall.insertNodes ⟨-1, -1, (Geo1.point 4)⟩ 1 (oneEdgeTrace (refBackend geo1Ref)).node (oneEdgeTrace (refBackend geo1Ref)).node_ret] ∧
     BeCall.insertEdges (oneEdgeTrace (refBackend geo1Ref)).newedge0 1 (oneEdgeTrace (refBackend geo1Ref)).newedge1 (oneEdgeTrace (refBackend geo1Ref)).ins_ret ∈
       (lwt_ModEdgeSplit (refBackend geo1Ref) geo1Ops (World.init oneEdgeStore) someLocals 1 (Geo1.point 4)
         0).1.calls ∧
     (lwt_ModEdgeSplit (refBackend geo1Ref) geo1Ops (World.init oneEdgeStore) someLocals 1 (Geo1.point 4)
       0).1.calls.filter BeCall.isUpdateTopoGeomEdgeSplit =
       [BeCall.updateTopoGeomEdgeSplit (oneEdgeTrace (refBackend geo1Ref)).oldedge.edge_id (oneEdgeTrace (refBackend geo1Ref)).newedge1.edge_id
         (-1) (oneEdgeTrace (refBackend geo1Ref)).notify_ret] ∧
     ((oneEdgeTrace (refBackend geo1Ref)).notify_ret = 0 →
       (lwt_ModEdgeSplit (refBackend geo1Ref) geo1Ops (World.init oneEdgeStore) someLocals 1 (Geo1.point 4)
         0).1.errors =
         [⟨"Backend error: %s",
           [ErrArg.str ((refBackend geo1Ref).lastErrorMessage (oneEdgeTrace (refBackend geo1Ref)).s_final)]⟩] ∧
       (lwt_ModEdgeSplit (refBackend geo1Ref) geo1Ops (World.init oneEdgeStore) someLocals 1 (Geo1.point 4)
         0).2 = Outcome.ret (-1)) ∧
     ((oneEdgeTrace (refBackend geo1Ref)).notify_ret ≠ 0 →
       (lwt_ModEdgeSplit (refBackend geo1Ref) geo1Ops (World.init oneEdgeStore) someLocals 1 (Geo1.point 4)
         0).1.errors = [] ∧
       (lwt_ModEdgeSplit (refBackend geo1Ref) geo1Ops (World.init oneEdgeStore) someLocals 1 (Geo1.point 4)
         0).2 = Outcome.ret (oneEdgeTrace (refBackend geo1Ref)).node.node_id)) :=
  ⟨by unfold SplitRun.ReachesNotify SplitRun.ReachesUpdate SplitRun.Reads; decide,
    C18_modEdgeSplit_notification (refBackend geo1Ref) geo1Ops oneEdgeStore
      someLocals 1 (Geo1.point 4) 0 (oneEdgeTrace (refBackend geo1Ref)) (by
      unfold SplitRun.ReachesNotify SplitRun.ReachesUpdate SplitRun.Reads;
      decide)⟩

/-- The same split over the backend that reports failure of the notification:
the one notification names edge 1 and the new edge 2, the backend error is
raised and -1 returned. -/
theorem lwt_ModEdgeSplit_unnotified_run :
    (lwt_ModEdgeSplit unnotifiedBackend geo1Ops (World.init oneEdgeStore)
      someLocals 1 (Geo1.point 4) 0).1.calls.filter
        BeCall.isUpdateTopoGeomEdgeSplit =
      [BeCall.updateTopoGeomEdgeSplit 1 2 (-1) 0] ∧
    (lwt_ModEdgeSplit unnotifiedBackend geo1Ops (World.init oneEdgeStore)
      someLocals 1 (Geo1.point 4) 0).1.errors =
      [⟨"Backend error: %s", [ErrArg.str ""]⟩] ∧
    (lwt_ModEdgeSplit unnotifiedBackend geo1Ops (World.init oneEdgeStore)
      someLocals 1 (Geo1.point 4) 0).2 = Outcome.ret (-1) := by
  decide

end SplitNotification

section SplitExclusion

variable {σ G : Type} [DecidableEq G]

/-- Without exclusion record, the rows selected are the rows matching the
selector. -/
theorem edgeSelected_none (sel : LWT_ISO_EDGE G) (sf ef : EdgeFields)
    (row : LWT_ISO_EDGE G) :
    edgeSelected sel sf none ef row = edgeMatches sel sf row := by
  simp [edgeSelected]

/-- An exclusion by `edge_id` changes nothing for a row with another
`edge_id` than the exclusion record. -/
theorem edgeSelected_other_id (sel exc : LWT_ISO_EDGE G) (sf : EdgeFields)
    (row : LWT_ISO_EDGE G) (h : row.edge_id ≠ exc.edge_id) :
    edgeSelected sel sf (some exc) LWT_COL_EDGE_EDGE_ID row =
      edgeMatches sel sf row := by
  simp [edgeSelected, edgeMatches, LWT_COL_EDGE_EDGE_ID, h]

/-- An exclusion changes nothing for a row that does not match the
selector. -/
theorem edgeSelected_unmatched (sel : LWT_ISO_EDGE G) (sf : EdgeFields)
    (exc : Option (LWT_ISO_EDGE G)) (ef : EdgeFields)
    (row : LWT_ISO_EDGE G) (h : edgeMatches sel sf row = false) :
    edgeSelected sel sf exc ef row = false := by
  simp [edgeSelected, h]

/-- A conditional update whose update mask does not hold `edge_id` keeps the
`edge_id` of every row. -/
theorem updateEdgeRow_edge_id (sel upd : LWT_ISO_EDGE G) (sf uf : EdgeFields)
    (exc : Option (LWT_ISO_EDGE G)) (ef : EdgeFields) (row : LWT_ISO_EDGE G)
    (h : uf.edge_id = false) :
    (updateEdgeRow sel sf upd uf exc ef row).edge_id = row.edge_id := by
  unfold updateEdgeRow
  split_ifs <;> simp [edgeApply, h]

/-- With or without an exclusion by `edge_id`, a conditional update makes the
same of a row that has another `edge_id` than the exclusion record or does not
match the selector. -/
theorem updateEdgeRow_exclusion (sel upd exc : LWT_ISO_EDGE G)
    (sf uf : EdgeFields) (row : LWT_ISO_EDGE G)
    (h : row.edge_id ≠ exc.edge_id ∨ edgeMatches sel sf row = false) :
    updateEdgeRow sel sf upd uf (some exc) LWT_COL_EDGE_EDGE_ID row =
      updateEdgeRow sel sf upd uf none 0 row ∧
    edgeSelected sel sf (some exc) LWT_COL_EDGE_EDGE_ID row =
      edgeSelected sel sf none 0 row := by
  have hsel : edgeSelected sel sf (some exc) LWT_COL_EDGE_EDGE_ID row =
      edgeSelected sel sf none 0 row := by
    rcases h with h | h
    · rw [edgeSelected_other_id sel exc sf row h, edgeSelected_none]
    · rw [edgeSelected_unmatched sel sf _ _ row h,
        edgeSelected_unmatched sel sf _ _ row h]
  exact ⟨by unfold updateEdgeRow; rw [hsel], hsel⟩

/-- C19 as stated fails: over the reference backend on the store whose next
edge id, 2, is taken by an edge, the split of edge 1 at abscissa 4 raises
nothing; the node id 4 differs from the end node 2 of edge 1 and the
allocated edge id 2 differs from 1; the first re-pointing update is called
with the selector, update and exclusion records shown and updates no row; the
old edge 2, a row of the table before and after, is not selected with the
exclusion record and is selected without it. -/
theorem C19_counterexample :
    (lwt_ModEdgeSplit (refBackend geo1Ref) geo1Ops (World.init reusedIdStore)
      someLocals 1 (Geo1.point 4) 0).1.errors = [] ∧
    (lwt_ModEdgeSplit (refBackend geo1Ref) geo1Ops (World.init reusedIdStore)
      someLocals 1 (Geo1.point 4) 0).2 = Outcome.ret 4 ∧
    ((refBackend geo1Ref).getEdgeById reusedIdStore [1] 1
      LWT_COL_EDGE_ALL).2.1 =
      some { edge_id := 1, start_node := 1, end_node := 2, face_left := 0,
             face_right := 0, next_left := 2, next_right := 1,
             geom := Geo1.segment 0 10 } ∧
    BeCall.getNextEdgeId 2 ∈
      (lwt_ModEdgeSplit (refBackend geo1Ref) geo1Ops
        (World.init reusedIdStore) someLocals 1 (Geo1.point 4) 0).1.calls ∧
    BeCall.updateEdges
        { someLocals.seledge with next_right := -1, start_node := 2 }
        (LWT_COL_EDGE_NEXT_RIGHT ||| LWT_COL_EDGE_START_NODE)
        { someLocals.updedge with
          geom := Geo1.segment 0 4, next_left := 2, end_node := 4,
          next_right := -2 }
        LWT_COL_EDGE_NEXT_RIGHT
        (some { someLocals.excedge with edge_id := 2 })
        LWT_COL_EDGE_EDGE_ID 0 ∈
      (lwt_ModEdgeSplit (refBackend geo1Ref) geo1Ops
        (World.init reusedIdStore) someLocals 1 (Geo1.point 4) 0).1.calls ∧
    ({ edge_id := 2, start_node := 2, end_node := 3, face_left := 0,
       face_right := 0, next_left := -2, next_right := -1,
       geom := Geo1.segment 10 20 } : LWT_ISO_EDGE Geo1) ∈
      reusedIdStore.edges ∧
    ({ edge_id := 2, start_node := 2, end_node := 3, face_left := 0,
       face_right := 0, next_left := -2, next_right := -1,
       geom := Geo1.segment 10 20 } : LWT_ISO_EDGE Geo1) ∈
      (lwt_ModEdgeSplit (refBackend geo1Ref) geo1Ops
        (World.init reusedIdStore) someLocals 1 (Geo1.point 4) 0).1.be.edges ∧
    edgeSelected
        { someLocals.seledge with next_right := -1, start_node := 2 }
        (LWT_COL_EDGE_NEXT_RIGHT ||| LWT_COL_EDGE_START_NODE)
        (some { someLocals.excedge with edge_id := 2 })
        LWT_COL_EDGE_EDGE_ID
        { edge_id := 2, start_node := 2, end_node := 3, face_left := 0,
          face_right := 0, next_left := -2, next_right := -1,
          geom := Geo1.segment 10 20 } = false ∧
    edgeSelected
        { someLocals.seledge with next_right := -1, start_node := 2 }
        (LWT_COL_EDGE_NEXT_RIGHT ||| LWT_COL_EDGE_START_NODE)
        none 0
        { edge_id := 2, start_node := 2, end_node := 3, face_left := 0,
          face_right := 0, next_left := -2, next_right := -1,
          geom := Geo1.segment 10 20 } = true := by
  decide

/-- C19, amended: over a backend that implements the edge table, on a run of
`lwt_ModEdgeSplit` that raises nothing, with `E` the edge fetched, `node` the
node inserted, `newedge` the edge inserted and `exc` the exclusion record of
the two re-pointing updates, which carries the `edge_id` of `newedge`: when
the node id differs from the end node of `E` and the new edge id from the id
of `E`, the new edge is left as it is by the update of `E` and matches
neither selector; if moreover no row of the table before the split carries
the new edge id, then at each of the two re-pointing updates every row of the
table is selected with the exclusion record exactly when it is selected
without it, and the table after the run is the one the three updates give
when the two re-pointing updates are applied without exclusion. -/
theorem C19_modEdgeSplit_exclusion_redundant (cb : LWT_BE_CALLBACKS σ G)
    (edgesOf : σ → List (LWT_ISO_EDGE G))
    (hspec : ImplementsEdgeTable cb edgesOf) (geo : GeomOps G)
    (s : σ) (loc : Locals G) (edge : LWT_ELEMID) (pt : G)
    (skipISOChecks : Int)
    (h : (lwt_ModEdgeSplit cb geo (World.init s) loc edge pt
      skipISOChecks).1.errors = []) :
    ∃ (E newedge upd1 sel2 upd2 sel3 upd3 exc : LWT_ISO_EDGE G)
      (node : LWT_ISO_NODE G) (nret iret r1 r2 r3 : Int),
      (cb.getEdgeById s [edge] 1 LWT_COL_EDGE_ALL).2.1 = some E ∧
      BeCall.insertNodes ⟨-1, -1, pt⟩ 1 node nret ∈
        (lwt_ModEdgeSplit cb geo (World.init s) loc edge pt
          skipISOChecks).1.calls ∧
      BeCall.insertEdges newedge 1 newedge iret ∈
        (lwt_ModEdgeSplit cb geo (World.init s) loc edge pt
          skipISOChecks).1.calls ∧
      BeCall.updateEdges E LWT_COL_EDGE_EDGE_ID upd1
          (LWT_COL_EDGE_GEOM ||| LWT_COL_EDGE_NEXT_LEFT |||
            LWT_COL_EDGE_END_NODE) none 0 r1 ∈
        (lwt_ModEdgeSplit cb geo (World.init s) loc edge pt
          skipISOChecks).1.calls ∧
      BeCall.updateEdges sel2
          (LWT_COL_EDGE_NEXT_RIGHT ||| LWT_COL_EDGE_START_NODE) upd2
          LWT_COL_EDGE_NEXT_RIGHT (some exc) LWT_COL_EDGE_EDGE_ID r2 ∈
        (lwt_ModEdgeSplit cb geo (World.init s) loc edge pt
          skipISOChecks).1.calls ∧
      BeCall.updateEdges sel3
          (LWT_COL_EDGE_NEXT_LEFT ||| LWT_COL_EDGE_END_NODE) upd3
          LWT_COL_EDGE_NEXT_LEFT (some exc) LWT_COL_EDGE_EDGE_ID r3 ∈
        (lwt_ModEdgeSplit cb geo (World.init s) loc edge pt
          skipISOChecks).1.calls ∧
      exc.edge_id = newedge.edge_id ∧
      sel2.next_right = -E.edge_id ∧ sel2.start_node = E.end_node ∧
      sel3.next_left = -E.edge_id ∧ sel3.end_node = E.end_node ∧
      (node.node_id ≠ E.end_node → newedge.edge_id ≠ E.edge_id →
        updateEdgeRow E LWT_COL_EDGE_EDGE_ID upd1
          (LWT_COL_EDGE_GEOM ||| LWT_COL_EDGE_NEXT_LEFT |||
            LWT_COL_EDGE_END_NODE) none 0 newedge = newedge ∧
        edgeMatches sel2 (LWT_COL_EDGE_NEXT_RIGHT ||| LWT_COL_EDGE_START_NODE)
          newedge = false ∧
        edgeMatches sel3 (LWT_COL_EDGE_NEXT_LEFT ||| LWT_COL_EDGE_END_NODE)
          newedge = false ∧
        ((∀ row ∈ edgesOf s, row.edge_id ≠ newedge.edge_id) →
          (∀ row ∈ edgesOf s ++ [newedge],
            edgeSelected sel2
                (LWT_COL_EDGE_NEXT_RIGHT ||| LWT_COL_EDGE_START_NODE)
                (some exc) LWT_COL_EDGE_EDGE_ID
                (updateEdgeRow E LWT_COL_EDGE_EDGE_ID upd1
                  (LWT_COL_EDGE_GEOM ||| LWT_COL_EDGE_NEXT_LEFT |||
                    LWT_COL_EDGE_END_NODE) none 0 row) =
              edgeSelected sel2
                (LWT_COL_EDGE_NEXT_RIGHT ||| LWT_COL_EDGE_START_NODE)
                none 0
                (updateEdgeRow E LWT_COL_EDGE_EDGE_ID upd1
                  (LWT_COL_EDGE_GEOM ||| LWT_COL_EDGE_NEXT_LEFT |||
                    LWT_COL_EDGE_END_NODE) none 0 row) ∧
            edgeSelected sel3
                (LWT_COL_EDGE_NEXT_LEFT ||| LWT_COL_EDGE_END_NODE)
                (some exc) LWT_COL_EDGE_EDGE_ID
                (updateEdgeRow sel2
                  (LWT_COL_EDGE_NEXT_RIGHT ||| LWT_COL_EDGE_START_NODE) upd2
                  LWT_COL_EDGE_NEXT_RIGHT (some exc) LWT_COL_EDGE_EDGE_ID
                  (updateEdgeRow E LWT_COL_EDGE_EDGE_ID upd1
                    (LWT_COL_EDGE_GEOM ||| LWT_COL_EDGE_NEXT_LEFT |||
                      LWT_COL_EDGE_END_NODE) none 0 row)) =
              edgeSelected sel3
                (LWT_COL_EDGE_NEXT_LEFT ||| LWT_COL_EDGE_END_NODE)
                none 0
                (updateEdgeRow sel2
                  (LWT_COL_EDGE_NEXT_RIGHT ||| LWT_COL_EDGE_START_NODE) upd2
                  LWT_COL_EDGE_NEXT_RIGHT (some exc) LWT_COL_EDGE_EDGE_ID
                  (updateEdgeRow E LWT_COL_EDGE_EDGE_ID upd1
                    (LWT_COL_EDGE_GEOM ||| LWT_COL_EDGE_NEXT_LEFT |||
                      LWT_COL_EDGE_END_NODE) none 0 row))) ∧
          edgesOf (lwt_ModEdgeSplit cb geo (World.init s) loc edge pt
              skipISOChecks).1.be =
            (edgesOf s ++ [newedge]).map (fun row =>
              updateEdgeRow sel3
                (LWT_COL_EDGE_NEXT_LEFT ||| LWT_COL_EDGE_END_NODE) upd3
                LWT_COL_EDGE_NEXT_LEFT none 0
                (updateEdgeRow sel2
                  (LWT_COL_EDGE_NEXT_RIGHT ||| LWT_COL_EDGE_START_NODE) upd2
                  LWT_COL_EDGE_NEXT_RIGHT none 0
                  (updateEdgeRow E LWT_COL_EDGE_EDGE_ID upd1
                    (LWT_COL_EDGE_GEOM ||| LWT_COL_EDGE_NEXT_LEFT |||
                      LWT_COL_EDGE_END_NODE) none 0 row))))) := by
  obtain ⟨t, ht, hrun⟩ :=
    lwt_ModEdgeSplit_success cb geo s loc edge pt skipISOChecks h
  obtain ⟨-, -, hne, hedges⟩ :=
    follows_edges cb edgesOf hspec geo s loc edge pt skipISOChecks t ht
  have hq := ht.1.1
  rw [hrun]
  refine ⟨t.oldedge, t.newedge1, t.updedge1 loc, t.seledge2 loc,
    t.updedge2 loc, t.seledge3 loc, t.updedge3 loc, t.excedge loc, t.node,
    t.node_ret, t.ins_ret, t.upd_ret, t.right_ret, t.left_ret, by rw [hq],
    ?_, ?_, ?_, ?_, ?_, rfl, rfl, rfl, rfl, rfl, ?_⟩
  · simp [SplitRun.calls, SplitRun.writeCalls]
  · simp [SplitRun.calls, SplitRun.writeCalls, hne]
  · simp [SplitRun.calls, SplitRun.writeCalls]
  · simp [SplitRun.calls, SplitRun.writeCalls]
  · simp [SplitRun.calls, SplitRun.writeCalls]
  · intro hnode hid
    have hkeep : updateEdgeRow t.oldedge LWT_COL_EDGE_EDGE_ID (t.updedge1 loc)
        (LWT_COL_EDGE_GEOM ||| LWT_COL_EDGE_NEXT_LEFT |||
          LWT_COL_EDGE_END_NODE) none 0 t.newedge1 = t.newedge1 := by
      rw [updateEdgeRow_by_id, if_neg hid]
    have hm2 : edgeMatches (t.seledge2 loc)
        (LWT_COL_EDGE_NEXT_RIGHT ||| LWT_COL_EDGE_START_NODE) t.newedge1
        = false := by
      rw [mask_next_right_start_node, hne]
      simp [edgeMatches, SplitRun.seledge2, SplitRun.newedge0, hnode]
    have hm3 : edgeMatches (t.seledge3 loc)
        (LWT_COL_EDGE_NEXT_LEFT ||| LWT_COL_EDGE_END_NODE) t.newedge1
        = false := by
      have hid0 : t.new_id ≠ t.oldedge.edge_id := by
        rw [hne] at hid
        exact hid
      rw [mask_next_left_end_node, hne]
      by_cases hE : t.oldedge.next_left = -t.oldedge.edge_id
      · simp [edgeMatches, SplitRun.seledge3, SplitRun.newedge0, hE, hid0]
      · simp [edgeMatches, SplitRun.seledge3, SplitRun.newedge0, hE]
    refine ⟨hkeep, hm2, hm3, fun hfresh => ?_⟩
    have hrow : ∀ row ∈ edgesOf s ++ [t.newedge1],
        (row.edge_id ≠ (t.excedge loc).edge_id ∨
          edgeMatches (t.seledge2 loc)
            (LWT_COL_EDGE_NEXT_RIGHT ||| LWT_COL_EDGE_START_NODE)
            (updateEdgeRow t.oldedge LWT_COL_EDGE_EDGE_ID (t.updedge1 loc)
              (LWT_COL_EDGE_GEOM ||| LWT_COL_EDGE_NEXT_LEFT |||
                LWT_COL_EDGE_END_NODE) none 0 row) = false) ∧
        (row.edge_id ≠ (t.excedge loc).edge_id ∨
          edgeMatches (t.seledge3 loc)
            (LWT_COL_EDGE_NEXT_LEFT ||| LWT_COL_EDGE_END_NODE)
            (updateEdgeRow (t.seledge2 loc)
              (LWT_COL_EDGE_NEXT_RIGHT ||| LWT_COL_EDGE_START_NODE)
              (t.updedge2 loc) LWT_COL_EDGE_NEXT_RIGHT
              (some (t.excedge loc)) LWT_COL_EDGE_EDGE_ID
              (updateEdgeRow t.oldedge LWT_COL_EDGE_EDGE_ID (t.updedge1 loc)
                (LWT_COL_EDGE_GEOM ||| LWT_COL_EDGE_NEXT_LEFT |||
                  LWT_COL_EDGE_END_NODE) none 0 row)) = false) := by
      intro row hin
      rcases List.mem_append.1 hin with hin | hin
      · exact ⟨Or.inl (hfresh row hin), Or.inl (hfresh row hin)⟩
      · rw [List.mem_singleton] at hin
        subst hin
        refine ⟨Or.inr (by rw [hkeep]; exact hm2), Or.inr ?_⟩
        rw [hkeep]
        have : updateEdgeRow (t.seledge2 loc)
            (LWT_COL_EDGE_NEXT_RIGHT ||| LWT_COL_EDGE_START_NODE)
            (t.updedge2 loc) LWT_COL_EDGE_NEXT_RIGHT
            (some (t.excedge loc)) LWT_COL_EDGE_EDGE_ID t.newedge1 =
            t.newedge1 := by
          unfold updateEdgeRow
          rw [edgeSelected_unmatched _ _ _ _ _ hm2]
          rfl
        rw [this]
        exact hm3
    have hid1 : ∀ row : LWT_ISO_EDGE G,
        (updateEdgeRow t.oldedge LWT_COL_EDGE_EDGE_ID (t.updedge1 loc)
          (LWT_COL_EDGE_GEOM ||| LWT_COL_EDGE_NEXT_LEFT |||
            LWT_COL_EDGE_END_NODE) none 0 row).edge_id = row.edge_id :=
      fun row => updateEdgeRow_edge_id _ _ _ _ _ _ row
        (by rw [mask_geom_next_left_end_node])
    have hid2 : ∀ row : LWT_ISO_EDGE G,
        (updateEdgeRow (t.seledge2 loc)
          (LWT_COL_EDGE_NEXT_RIGHT ||| LWT_COL_EDGE_START_NODE)
          (t.updedge2 loc) LWT_COL_EDGE_NEXT_RIGHT
          (some (t.excedge loc)) LWT_COL_EDGE_EDGE_ID row).edge_id =
          row.edge_id :=
      fun row => updateEdgeRow_edge_id _ _ _ _ _ _ row rfl
    have hstep : ∀ row ∈ edgesOf s ++ [t.newedge1],
        (updateEdgeRow (t.seledge2 loc)
            (LWT_COL_EDGE_NEXT_RIGHT ||| LWT_COL_EDGE_START_NODE)
            (t.updedge2 loc) LWT_COL_EDGE_NEXT_RIGHT
            (some (t.excedge loc)) LWT_COL_EDGE_EDGE_ID
            (updateEdgeRow t.oldedge LWT_COL_EDGE_EDGE_ID (t.updedge1 loc)
              (LWT_COL_EDGE_GEOM ||| LWT_COL_EDGE_NEXT_LEFT |||
                LWT_COL_EDGE_END_NODE) none 0 row) =
          updateEdgeRow (t.seledge2 loc)
            (LWT_COL_EDGE_NEXT_RIGHT ||| LWT_COL_EDGE_START_NODE)
            (t.updedge2 loc) LWT_COL_EDGE_NEXT_RIGHT none 0
            (updateEdgeRow t.oldedge LWT_COL_EDGE_EDGE_ID (t.updedge1 loc)
              (LWT_COL_EDGE_GEOM ||| LWT_COL_EDGE_NEXT_LEFT |||
                LWT_COL_EDGE_END_NODE) none 0 row) ∧
          edgeSelected (t.seledge2 loc)
            (LWT_COL_EDGE_NEXT_RIGHT ||| LWT_COL_EDGE_START_NODE)
            (some (t.excedge loc)) LWT_COL_EDGE_EDGE_ID
            (updateEdgeRow t.oldedge LWT_COL_EDGE_EDGE_ID (t.updedge1 loc)
              (LWT_COL_EDGE_GEOM ||| LWT_COL_EDGE_NEXT_LEFT |||
                LWT_COL_EDGE_END_NODE) none 0 row) =
          edgeSelected (t.seledge2 loc)
            (LWT_COL_EDGE_NEXT_RIGHT ||| LWT_COL_EDGE_START_NODE)
            none 0
            (updateEdgeRow t.oldedge LWT_COL_EDGE_EDGE_ID (t.updedge1 loc)
              (LWT_COL_EDGE_GEOM ||| LWT_COL_EDGE_NEXT_LEFT |||
                LWT_COL_EDGE_END_NODE) none 0 row)) ∧
        (updateEdgeRow (t.seledge3 loc)
            (LWT_COL_EDGE_NEXT_LEFT ||| LWT_COL_EDGE_END_NODE)
            (t.updedge3 loc) LWT_COL_EDGE_NEXT_LEFT
            (some (t.excedge loc)) LWT_COL_EDGE_EDGE_ID
            (updateEdgeRow (t.seledge2 loc)
              (LWT_COL_EDGE_NEXT_RIGHT ||| LWT_COL_EDGE_START_NODE)
              (t.updedge2 loc) LWT_COL_EDGE_NEXT_RIGHT
              (some (t.excedge loc)) LWT_COL_EDGE_EDGE_ID
              (updateEdgeRow t.oldedge LWT_COL_EDGE_EDGE_ID (t.updedge1 loc)
                (LWT_COL_EDGE_GEOM ||| LWT_COL_EDGE_NEXT_LEFT |||
                  LWT_COL_EDGE_END_NODE) none 0 row)) =
          updateEdgeRow (t.seledge3 loc)
            (LWT_COL_EDGE_NEXT_LEFT ||| LWT_COL_EDGE_END_NODE)
            (t.updedge3 loc) LWT_COL_EDGE_NEXT_LEFT none 0
            (updateEdgeRow (t.seledge2 loc)
              (LWT_COL_EDGE_NEXT_RIGHT ||| LWT_COL_EDGE_START_NODE)
              (t.updedge2 loc) LWT_COL_EDGE_NEXT_RIGHT
              (some (t.excedge loc)) LWT_COL_EDGE_EDGE_ID
              (updateEdgeRow t.oldedge LWT_COL_EDGE_EDGE_ID (t.updedge1 loc)
                (LWT_COL_EDGE_GEOM ||| LWT_COL_EDGE_NEXT_LEFT |||
                  LWT_COL_EDGE_END_NODE) none 0 row)) ∧
          edgeSelected (t.seledge3 loc)
            (LWT_COL_EDGE_NEXT_LEFT ||| LWT_COL_EDGE_END_NODE)
            (some (t.excedge loc)) LWT_COL_EDGE_EDGE_ID
            (updateEdgeRow (t.seledge2 loc)
              (LWT_COL_EDGE_NEXT_RIGHT ||| LWT_COL_EDGE_START_NODE)
              (t.updedge2 loc) LWT_COL_EDGE_NEXT_RIGHT
              (some (t.excedge loc)) LWT_COL_EDGE_EDGE_ID
              (updateEdgeRow t.oldedge LWT_COL_EDGE_EDGE_ID (t.updedge1 loc)
                (LWT_COL_EDGE_GEOM ||| LWT_COL_EDGE_NEXT_LEFT |||
                  LWT_COL_EDGE_END_NODE) none 0 row)) =
          edgeSelected (t.seledge3 loc)
            (LWT_COL_EDGE_NEXT_LEFT ||| LWT_COL_EDGE_END_NODE)
            none 0
            (updateEdgeRow (t.seledge2 loc)
              (LWT_COL_EDGE_NEXT_RIGHT ||| LWT_COL_EDGE_START_NODE)
              (t.updedge2 loc) LWT_COL_EDGE_NEXT_RIGHT
              (some (t.excedge loc)) LWT_COL_EDGE_EDGE_ID
              (updateEdgeRow t.oldedge LWT_COL_EDGE_EDGE_ID (t.updedge1 loc)
                (LWT_COL_EDGE_GEOM ||| LWT_COL_EDGE_NEXT_LEFT |||
                  LWT_COL_EDGE_END_NODE) none 0 row))) := by
      intro row hin
      obtain ⟨ha, hb⟩ := hrow row hin
      constructor
      · apply updateEdgeRow_exclusion
        rcases ha with ha | ha
        · exact Or.inl (by rw [hid1]; exact ha)
        · exact Or.inr ha
      · apply updateEdgeRow_exclusion
        rcases hb with hb | hb
        · exact Or.inl (by rw [hid2, hid1]; exact hb)
        · exact Or.inr hb
    refine ⟨fun row hin => ⟨(hstep row hin).1.2, (hstep row hin).2.2⟩, ?_⟩
    rw [hedges, ← hne]
    apply List.map_congr_left
    intro row hin
    rw [SplitRun.rowAfter, (hstep row hin).2.1, (hstep row hin).1.1]

/-- C19 at a concrete input: edge 1 of the two-edge store is split at
abscissa 4 over the reference backend; the run raises nothing. -/
theorem C19_modEdgeSplit_exclusion_redundant_witness :
    (ImplementsEdgeTable (refBackend geo1Ref) RefStore.edges) ∧
    ((lwt_ModEdgeSplit (refBackend geo1Ref) geo1Ops (World.init twoEdgeStore) someLocals 1 (Geo1.point 4)
       0).1.errors = []) ∧
    (∃ (E newedge upd1 sel2 upd2 sel3 upd3 exc : LWT_ISO_EDGE Geo1)
       (node : LWT_ISO_NODE Geo1) (nret iret r1 r2 r3 : Int),
       ((refBackend geo1Ref).getEdgeById twoEdgeStore [1] 1 LWT_COL_EDGE_ALL).2.1 = some E ∧
       BeCall.insertNodes ⟨-1, -1, (Geo1.point 4)⟩ 1 node nret ∈
         (lwt_ModEdgeSplit (refBackend geo1Ref) geo1Ops (World.init twoEdgeStore) someLocals 1 (Geo1.point 4)
           0).1.calls ∧
       BeCall.insertEdges newedge 1 newedge iret ∈
         (lwt_ModEdgeSplit (refBackend geo1Ref) geo1Ops (World.init twoEdgeStore) someLocals 1 (Geo1.point 4)
           0).1.calls ∧
       BeCall.updateEdges E LWT_COL_EDGE_EDGE_ID upd1
           (LWT_COL_EDGE_GEOM ||| LWT_COL_EDGE_NEXT_LEFT |||
             LWT_COL_EDGE_END_NODE) none 0 r1 ∈
         (lwt_ModEdgeSplit (refBackend geo1Ref) geo1Ops (World.init twoEdgeStore) someLocals 1 (Geo1.point 4)
           0).1.calls ∧
       BeCall.updateEdges sel2
           (LWT_COL_EDGE_NEXT_RIGHT ||| LWT_COL_EDGE_START_NODE) upd2
           LWT_COL_EDGE_NEXT_RIGHT (some exc) LWT_COL_EDGE_EDGE_ID r2 ∈
         (lwt_ModEdgeSplit (refBackend geo1Ref) geo1Ops (World.init twoEdgeStore) someLocals 1 (Geo1.point 4)
           0).1.calls ∧
       BeCall.updateEdges sel3
           (LWT_COL_EDGE_NEXT_LEFT ||| LWT_COL_EDGE_END_NODE) upd3
           LWT_COL_EDGE_NEXT_LEFT (some exc) LWT_COL_EDGE_EDGE_ID r3 ∈
         (lwt_ModEdgeSplit (refBackend geo1Ref) geo1Ops (World.init twoEdgeStore) someLocals 1 (Geo1.point 4)
           0).1.calls ∧
       exc.edge_id = newedge.edge_id ∧
       sel2.next_right = -E.edge_id ∧ sel2.start_node = E.end_node ∧
       sel3.next_left = -E.edge_id ∧ sel3.end_node = E.end_node ∧
       (node.node_id ≠ E.end_node → newedge.edge_id ≠ E.edge_id →
         updateEdgeRow E LWT_COL_EDGE_EDGE_ID upd1
           (LWT_COL_EDGE_GEOM ||| LWT_COL_EDGE_NEXT_LEFT |||
             LWT_COL_EDGE_END_NODE) none 0 newedge = newedge ∧
         edgeMatches sel2 (LWT_COL_EDGE_NEXT_RIGHT ||| LWT_COL_EDGE_START_NODE)
           newedge = false ∧
         edgeMatches sel3 (LWT_COL_EDGE_NEXT_LEFT ||| LWT_COL_EDGE_END_NODE)
           newedge = false ∧
         ((∀ row ∈ RefStore.edges twoEdgeStore, row.edge_id ≠ newedge.edge_id) →
           (∀ row ∈ RefStore.edges twoEdgeStore ++ [newedge],
             edgeSelected sel2
                 (LWT_COL_EDGE_NEXT_RIGHT ||| LWT_COL_EDGE_START_NODE)
                 (some exc) LWT_COL_EDGE_EDGE_ID
                 (updateEdgeRow E LWT_COL_EDGE_EDGE_ID upd1
                   (LWT_COL_EDGE_GEOM ||| LWT_COL_EDGE_NEXT_LEFT |||
                     LWT_COL_EDGE_END_NODE) none 0 row) =
               edgeSelected sel2
                 (LWT_COL_EDGE_NEXT_RIGHT ||| LWT_COL_EDGE_START_NODE)
                 none 0
                 (updateEdgeRow E LWT_COL_EDGE_EDGE_ID upd1
                   (LWT_COL_EDGE_GEOM ||| LWT_COL_EDGE_NEXT_LEFT |||
                     LWT_COL_EDGE_END_NODE) none 0 row) ∧
             edgeSelected sel3
                 (LWT_COL_EDGE_NEXT_LEFT ||| LWT_COL_EDGE_END_NODE)
                 (some exc) LWT_COL_EDGE_EDGE_ID
                 (updateEdgeRow sel2
                   (LWT_COL_EDGE_NEXT_RIGHT ||| LWT_COL_EDGE_START_NODE) upd2
                   LWT_COL_EDGE_NEXT_RIGHT (some exc) LWT_COL_EDGE_EDGE_ID
                   (updateEdgeRow E LWT_COL_EDGE_EDGE_ID upd1
                     (LWT_COL_EDGE_GEOM ||| LWT_COL_EDGE_NEXT_LEFT |||
                       LWT_COL_EDGE_END_NODE) none 0 row)) =
               edgeSelected sel3
                 (LWT_COL_EDGE_NEXT_LEFT ||| LWT_COL_EDGE_END_NODE)
                 none 0
                 (updateEdgeRow sel2
                   (LWT_COL_EDGE_NEXT_RIGHT ||| LWT_COL_EDGE_START_NODE) upd2
                   LWT_COL_EDGE_NEXT_RIGHT (some exc) LWT_COL_EDGE_EDGE_ID
                   (updateEdgeRow E LWT_COL_EDGE_EDGE_ID upd1
                     (LWT_COL_EDGE_GEOM ||| LWT_COL_EDGE_NEXT_LEFT |||
                       LWT_COL_EDGE_END_NODE) none 0 row))) ∧
           RefStore.edges (lwt_ModEdgeSplit (refBackend geo1Ref) geo1Ops (World.init twoEdgeStore) someLocals 1 (Geo1.point 4)
               0).1.be =
             (RefStore.edges twoEdgeStore ++ [newedge]).map (fun row =>
               updateEdgeRow sel3
                 (LWT_COL_EDGE_NEXT_LEFT ||| LWT_COL_EDGE_END_NODE) upd3
                 LWT_COL_EDGE_NEXT_LEFT none 0
                 (updateEdgeRow sel2
                   (LWT_COL_EDGE_NEXT_RIGHT ||| LWT_COL_EDGE_START_NODE) upd2
                   LWT_COL_EDGE_NEXT_RIGHT none 0
                   (updateEdgeRow E LWT_COL_EDGE_EDGE_ID upd1
                     (LWT_COL_EDGE_GEOM ||| LWT_COL_EDGE_NEXT_LEFT |||
                       LWT_COL_EDGE_END_NODE) none 0 row)))))) :=
  ⟨refBackend_implements geo1Ref, by decide,
    C19_modEdgeSplit_exclusion_redundant (refBackend geo1Ref) RefStore.edges
      (refBackend_implements geo1Ref) geo1Ops twoEdgeStore someLocals 1
      (Geo1.point 4) 0 (by decide)⟩

end SplitExclusion

section ExistenceWrappers

variable {σ G : Type}

/-- C20: `lwt_be_ExistsCoincidentNode` and `lwt_be_ExistsEdgeIntersectingPoint`
make one call of the distance query, with distance 0, the count 0 on entry,
field mask 0 and limit -1, and return the count the callback hands back, which
is 0 when the callback hands back the count it was passed. When the node query
hands back a negative count, `lwt_AddIsoNode` with checks enabled returns -1
with the coincident node message alone and makes no mutating call; so does
`lwt_ModEdgeSplit` with checks enabled once it is past the fetch of the edge
(a row was fetched, or none with a count other than -1 and 0, in which case
the coding error has been raised before): the coincident node message is the
last one raised, no backend error is raised, -1 is returned and no mutating
call is made. -/
theorem C20_exists_wrappers_count (cb : LWT_BE_CALLBACKS σ G)
    (geo : GeomOps G) (s : σ) (w : World σ G) (loc : Locals G)
    (face edge : LWT_ELEMID) (pt : G) :
    (lwt_be_ExistsCoincidentNode cb w pt).2 =
      (cb.getNodeWithinDistance2D w.be pt 0 0 0 (-1)).2.2 ∧
    (lwt_be_ExistsCoincidentNode cb w pt).1.calls = w.calls ++
      [BeCall.getNodeWithinDistance2D pt 0 0 0 (-1)
        (cb.getNodeWithinDistance2D w.be pt 0 0 0 (-1)).2.1
        (cb.getNodeWithinDistance2D w.be pt 0 0 0 (-1)).2.2] ∧
    (lwt_be_ExistsEdgeIntersectingPoint cb w pt).2 =
      (cb.getEdgeWithinDistance2D w.be pt 0 0 0 (-1)).2.2 ∧
    (lwt_be_ExistsEdgeIntersectingPoint cb w pt).1.calls = w.calls ++
      [BeCall.getEdgeWithinDistance2D pt 0 0 0 (-1)
        (cb.getEdgeWithinDistance2D w.be pt 0 0 0 (-1)).2.1
        (cb.getEdgeWithinDistance2D w.be pt 0 0 0 (-1)).2.2] ∧
    ((∀ s0 p d n f l, (cb.getNodeWithinDistance2D s0 p d n f l).2.2 = n) →
      (lwt_be_ExistsCoincidentNode cb w pt).2 = 0) ∧
    ((∀ s0 p d n f l, (cb.getEdgeWithinDistance2D s0 p d n f l).2.2 = n) →
      (lwt_be_ExistsEdgeIntersectingPoint cb w pt).2 = 0) ∧
    ((cb.getNodeWithinDistance2D s pt 0 0 0 (-1)).2.2 < 0 →
      (lwt_AddIsoNode cb (World.init s) face pt 0).1.errors =
        [⟨"SQL/MM Spatial exception - coincident node", []⟩] ∧
      (lwt_AddIsoNode cb (World.init s) face pt 0).2 = -1 ∧
      mutationCalls (lwt_AddIsoNode cb (World.init s) face pt 0).1.calls
        = 0) ∧
    (((cb.getEdgeById s [edge] 1 LWT_COL_EDGE_ALL).2.1 = none →
        (cb.getEdgeById s [edge] 1 LWT_COL_EDGE_ALL).2.2 ≠ -1 ∧
        (cb.getEdgeById s [edge] 1 LWT_COL_EDGE_ALL).2.2 ≠ 0) →
      (cb.getNodeWithinDistance2D
        (cb.getEdgeById s [edge] 1 LWT_COL_EDGE_ALL).1 pt 0 0 0 (-1)).2.2
        < 0 →
      (lwt_ModEdgeSplit cb geo (World.init s) loc edge pt 0).1.errors.getLast?
        = some ⟨"SQL/MM Spatial exception - coincident node", []⟩ ∧
      (∀ args, (⟨"Backend error: %s", args⟩ : LwError) ∉
        (lwt_ModEdgeSplit cb geo (World.init s) loc edge pt 0).1.errors) ∧
      ((cb.getEdgeById s [edge] 1 LWT_COL_EDGE_ALL).2.1 ≠ none →
        (lwt_ModEdgeSplit cb geo (World.init s) loc edge pt 0).1.errors =
          [⟨"SQL/MM Spatial exception - coincident node", []⟩]) ∧
      (lwt_ModEdgeSplit cb geo (World.init s) loc edge pt 0).2 =
        Outcome.ret (-1) ∧
      mutationCalls
        (lwt_ModEdgeSplit cb geo (World.init s) loc edge pt 0).1.calls
        = 0) := by
  refine ⟨rfl, rfl, rfl, rfl, ?_, ?_, ?_, ?_⟩
  · intro hn
    exact hn _ _ _ _ _ _
  · intro hn
    exact hn _ _ _ _ _ _
  · intro hneg
    have hne : (cb.getNodeWithinDistance2D s pt 0 0 0 (-1)).2.2 ≠ 0 := by
      omega
    simp [lwt_AddIsoNode, lwt_be_ExistsCoincidentNode,
      lwt_be_getNodeWithinDistance2D, World.init, lwerror, hne,
      mutationCalls, BeCall.isMutation]
  · rcases hf : cb.getEdgeById s [edge] 1 LWT_COL_EDGE_ALL with ⟨s1, o, i⟩
    intro hpast hneg
    have hne : (cb.getNodeWithinDistance2D s1 pt 0 0 0 (-1)).2.2 ≠ 0 := by
      simp only at hneg
      omega
    cases o with
    | none =>
      obtain ⟨h1, h0⟩ := hpast rfl
      simp only at h1 h0
      simp [lwt_ModEdgeSplit, lwt_ModEdgeSplit_checks, lwt_be_getEdgeById,
        lwt_be_ExistsCoincidentNode, lwt_be_getNodeWithinDistance2D,
        World.init, lwerror, hf, h1, h0, hne, mutationCalls,
        BeCall.isMutation]
    | some E =>
      simp [lwt_ModEdgeSplit, lwt_ModEdgeSplit_checks, lwt_be_getEdgeById,
        lwt_be_ExistsCoincidentNode, lwt_be_getNodeWithinDistance2D,
        World.init, lwerror, hf, hne, mutationCalls, BeCall.isMutation]

/-- Two runs over the backend whose node query reports the count -1: both
operations, checks enabled, raise the coincident node message alone and
return -1, having asked the backend nothing that changes it. -/
theorem failingQueryBackend_runs :
    (lwt_AddIsoNode failingQueryBackend (World.init oneEdgeStore) (-1)
      (Geo1.point 30) 0).1.calls =
      [BeCall.getNodeWithinDistance2D (Geo1.point 30) 0 0 0 (-1) [] (-1)] ∧
    (lwt_AddIsoNode failingQueryBackend (World.init oneEdgeStore) (-1)
      (Geo1.point 30) 0).1.errors =
      [⟨"SQL/MM Spatial exception - coincident node", []⟩] ∧
    (lwt_AddIsoNode failingQueryBackend (World.init oneEdgeStore) (-1)
      (Geo1.point 30) 0).2 = -1 ∧
    (lwt_ModEdgeSplit failingQueryBackend geo1Ops (World.init oneEdgeStore)
      someLocals 1 (Geo1.point 4) 0).1.calls.map BeCall.isMutation =
      [false, false] ∧
    (lwt_ModEdgeSplit failingQueryBackend geo1Ops (World.init oneEdgeStore)
      someLocals 1 (Geo1.point 4) 0).1.errors =
      [⟨"SQL/MM Spatial exception - coincident node", []⟩] ∧
    (lwt_ModEdgeSplit failingQueryBackend geo1Ops (World.init oneEdgeStore)
      someLocals 1 (Geo1.point 4) 0).2 = Outcome.ret (-1) := by
  decide

end ExistenceWrappers

end LwTopo

/-! # Theorems on the minimum bounding circle -/

namespace LwBoundingCircle

section CircleFacts

variable {F : Type}

/-- A support holds at most three points. -/
theorem num_supporting_points_le (support : SUPPORTING_POINTS F) :
    num_supporting_points support ≤ 3 := by
  simp only [num_supporting_points]
  split_ifs <;> omega

/-- The four shapes of a support that is filled in order. -/
theorem filled_cases (support : SUPPORTING_POINTS F) (h : support.Filled) :
    (support = ⟨none, none, none⟩ ∧ num_supporting_points support = 0) ∨
    (∃ a, support = ⟨some a, none, none⟩ ∧
      num_supporting_points support = 1) ∨
    (∃ a b, support = ⟨some a, some b, none⟩ ∧
      num_supporting_points support = 2) ∨
    (∃ a b c, support = ⟨some a, some b, some c⟩ ∧
      num_supporting_points support = 3) := by
  obtain ⟨p1, p2, p3⟩ := support
  cases p1 <;> cases p2 <;> cases p3 <;>
    simp [SUPPORTING_POINTS.Filled, num_supporting_points] at h ⊢

/-- The empty support is filled in order and holds no point. -/
theorem supporting_points_create_filled :
    (supporting_points_create : SUPPORTING_POINTS F).Filled ∧
    num_supporting_points (supporting_points_create : SUPPORTING_POINTS F)
      = 0 := by
  simp [SUPPORTING_POINTS.Filled, supporting_points_create,
    num_supporting_points]

/-- On a support that is filled in order `calculate_mbc_from_support` reads
no NULL pointer and returns `LW_SUCCESS`. -/
theorem calculate_mbc_from_support_filled (env : Liblwgeom F)
    (support : SUPPORTING_POINTS F) (mbc : LW_BOUNDINGCIRCLE F)
    (h : support.Filled) :
    (calculate_mbc_from_support env support mbc).2 =
      Ending.ret env.LW_SUCCESS := by
  rcases filled_cases support h with ⟨hs, hn⟩ | ⟨a, hs, hn⟩ |
    ⟨a, b, hs, hn⟩ | ⟨a, b, c, hs, hn⟩ <;>
    simp only [calculate_mbc_from_support, hn] <;> subst hs <;>
    simp [calculate_mbc_1, calculate_mbc_2, calculate_mbc_3]

/-- On whatever support, `calculate_mbc_from_support` does not reach its
failure branch: it ends returning `LW_SUCCESS` or reading a NULL pointer. -/
theorem calculate_mbc_from_support_ending (env : Liblwgeom F)
    (support : SUPPORTING_POINTS F) (mbc : LW_BOUNDINGCIRCLE F) :
    (calculate_mbc_from_support env support mbc).2 =
      Ending.ret env.LW_SUCCESS ∨
    (calculate_mbc_from_support env support mbc).2 = Ending.nullDeref := by
  obtain ⟨p1, p2, p3⟩ := support
  cases p1 <;> cases p2 <;> cases p3 <;>
    simp [calculate_mbc_from_support, num_supporting_points, calculate_mbc_1,
      calculate_mbc_2, calculate_mbc_3]

/-- On a support of fewer than three points that is filled in order,
`add_supporting_point` returns `LW_SUCCESS` and makes a support of one point
more that is filled in order. -/
theorem add_supporting_point_filled (env : Liblwgeom F)
    (support : SUPPORTING_POINTS F) (p : POINT2D F) (h : support.Filled)
    (hn : num_supporting_points support < 3) :
    (add_supporting_point env support p).2 = env.LW_SUCCESS ∧
    (add_supporting_point env support p).1.Filled ∧
    num_supporting_points (add_supporting_point env support p).1 =
      num_supporting_points support + 1 := by
  rcases filled_cases support h with ⟨hs, hk⟩ | ⟨a, hs, hk⟩ |
    ⟨a, b, hs, hk⟩ | ⟨a, b, c, hs, hk⟩
  · simp only [add_supporting_point, hk]
    subst hs
    simp [SUPPORTING_POINTS.Filled, num_supporting_points]
  · simp only [add_supporting_point, hk]
    subst hs
    simp [SUPPORTING_POINTS.Filled, num_supporting_points]
  · simp only [add_supporting_point, hk]
    subst hs
    simp [SUPPORTING_POINTS.Filled, num_supporting_points]
  · omega

end CircleFacts

section CircleRuns

variable {F : Type}

/-- The loop of `calculate_mbc` over indices below `max_n`, when each
recursive call it makes returns `LW_SUCCESS` and leaves sound events: the loop
runs to its end and leaves sound events. -/
theorem calculate_mbc_body_foldl (env : Liblwgeom F)
    (hs : env.LW_SUCCESS ≠ 0)
    (recur : Nat → SUPPORTING_POINTS F → MbcWorld F →
      Option (MbcWorld F × Ending))
    (points : List (POINT2D F)) (max_n : Nat) (support : SUPPORTING_POINTS F)
    (hfill : support.Filled) (hnum : num_supporting_points support < 3)
    (hlen : max_n ≤ points.length)
    (hrec : ∀ i next w, i < max_n → next.Filled →
      num_supporting_points next = num_supporting_points support + 1 →
      ∃ w2 es, recur i next w = some (w2, Ending.ret env.LW_SUCCESS) ∧
        w2.log = w.log ++ es ∧ ∀ e ∈ es, MbcEvent.Sound env e) :
    ∀ (l : List Nat), (∀ i ∈ l, i < max_n) → ∀ w : MbcWorld F,
      ∃ w2 es,
        l.foldl (calculate_mbc_body env recur points max_n support)
          (some (w, none)) = some (w2, none) ∧
        w2.log = w.log ++ es ∧ ∀ e ∈ es, MbcEvent.Sound env e := by
  intro l
  induction l with
  | nil =>
    intro _ w
    exact ⟨w, [], rfl, by simp, by simp⟩
  | cons i l ih =>
    intro hl w
    have hi : i < max_n := hl i (List.mem_cons_self i l)
    have hl2 : ∀ j ∈ l, j < max_n := fun j hj =>
      hl j (List.mem_cons_of_mem i hj)
    obtain ⟨p, hp⟩ : ∃ p, points[i]? = some p :=
      ⟨_, List.getElem?_eq_getElem (by omega)⟩
    rw [List.foldl_cons]
    by_cases hin : point_inside_circle env p (some w.mbc) = 0
    · obtain ⟨ha, hf, hk⟩ := add_supporting_point_filled env support p hfill
        hnum
      obtain ⟨w1, es1, hr, hlog1, hs1⟩ := hrec i
        (add_supporting_point env support p).1
        { w with log := w.log ++ [MbcEvent.recurse max_n i support
          (add_supporting_point env support p).2
          (add_supporting_point env support p).1] }
        hi hf hk
      have hb : calculate_mbc_body env recur points max_n support
          (some (w, none)) i = some (w1, none) := by
        simp only [calculate_mbc_body, hp, hin, if_true, hr, hs, if_false]
      rw [hb]
      obtain ⟨w2, es2, hfold, hlog2, hs2⟩ := ih hl2 w1
      refine ⟨w2, MbcEvent.recurse max_n i support
        (add_supporting_point env support p).2
        (add_supporting_point env support p).1 ::
        (es1 ++ es2), hfold, ?_, ?_⟩
      · rw [hlog2, hlog1]
        simp
      · intro e he
        rcases List.mem_cons.1 he with he | he
        · subst he
          exact ⟨hi, hnum, ha, hk⟩
        · rcases List.mem_append.1 he with he | he
          · exact hs1 e he
          · exact hs2 e he
    · have hb : calculate_mbc_body env recur points max_n support
          (some (w, none)) i = some (w, none) := by
        simp only [calculate_mbc_body, hp, hin, if_false]
      rw [hb]
      exact ih hl2 w

/-- With fuel for the depth of the recursion, which is at most `max_n + 1`
and at most four less the points the support holds, `calculate_mbc` on a
support that is filled in order returns `LW_SUCCESS` and leaves sound
events. -/
theorem calculate_mbc_total (env : Liblwgeom F) (hs : env.LW_SUCCESS ≠ 0) :
    ∀ (fuel : Nat) (points : List (POINT2D F)) (max_n : Nat)
      (support : SUPPORTING_POINTS F) (w : MbcWorld F),
      support.Filled → max_n ≤ points.length →
      min (max_n + 1) (4 - num_supporting_points support) ≤ fuel →
      ∃ w2 es,
        calculate_mbc env fuel points max_n support w =
          some (w2, Ending.ret env.LW_SUCCESS) ∧
        w2.log = w.log ++ es ∧ ∀ e ∈ es, MbcEvent.Sound env e := by
  intro fuel
  induction fuel with
  | zero =>
    intro points max_n support w _ _ hfuel
    have := num_supporting_points_le support
    omega
  | succ fuel ih =>
    intro points max_n support w hfill hlen hfuel
    have hfs := calculate_mbc_from_support_filled env support w.mbc hfill
    have hle := num_supporting_points_le support
    rcases hr : calculate_mbc_from_support env support w.mbc with ⟨m, e⟩
    rw [hr] at hfs
    simp only at hfs
    subst hfs
    have hev : MbcEvent.Sound env (MbcEvent.fromSupport support
        (Ending.ret env.LW_SUCCESS)) := ⟨hle, rfl⟩
    by_cases h3 : num_supporting_points support = 3
    · refine ⟨{ mbc := m, log := w.log ++ [MbcEvent.fromSupport support
          (Ending.ret env.LW_SUCCESS)] },
        [MbcEvent.fromSupport support (Ending.ret env.LW_SUCCESS)], ?_, rfl,
        ?_⟩
      · simp only [calculate_mbc, hr, hs, if_false, h3, if_true]
      · intro e he
        rw [List.mem_singleton] at he
        subst he
        exact hev
    · have hnum : num_supporting_points support < 3 := by omega
      obtain ⟨w2, es, hfold, hlog, hsound⟩ :=
        calculate_mbc_body_foldl env hs (calculate_mbc env fuel points) points
          max_n support hfill hnum hlen
          (fun i next w0 hi hf hk =>
            ih points i next w0 hf (by omega) (by omega))
          (List.range max_n) (fun i hi => List.mem_range.1 hi)
          { mbc := m
            log := w.log ++ [MbcEvent.fromSupport support
              (Ending.ret env.LW_SUCCESS)] }
      refine ⟨w2, MbcEvent.fromSupport support
        (Ending.ret env.LW_SUCCESS) :: es, ?_, ?_, ?_⟩
      · simp only [calculate_mbc, hr, hs, if_false, h3, hfold]
      · rw [hlog]
        simp
      · intro e he
        rcases List.mem_cons.1 he with he | he
        · subst he
          exact hev
        · exact hsound e he

end CircleRuns

section CircleFuel

variable {F : Type}

/-- Once a recursive call has run out of fuel the loop gives no result. -/
theorem calculate_mbc_body_foldl_none (env : Liblwgeom F)
    (recur : Nat → SUPPORTING_POINTS F → MbcWorld F →
      Option (MbcWorld F × Ending))
    (points : List (POINT2D F)) (max_n : Nat) (support : SUPPORTING_POINTS F)
    (l : List Nat) :
    l.foldl (calculate_mbc_body env recur points max_n support) none
      = none := by
  induction l with
  | nil => rfl
  | cons i l ih =>
    rw [List.foldl_cons]
    exact ih

/-- A pass through the loop body that gives a result gives the same result
with a recursive call that gives the same results and more. -/
theorem calculate_mbc_body_mono (env : Liblwgeom F)
    (recur1 recur2 : Nat → SUPPORTING_POINTS F → MbcWorld F →
      Option (MbcWorld F × Ending))
    (h : ∀ i s w r, recur1 i s w = some r → recur2 i s w = some r)
    (points : List (POINT2D F)) (max_n : Nat) (support : SUPPORTING_POINTS F)
    (st : Option (MbcWorld F × Option Ending)) (i : Nat)
    (r : MbcWorld F × Option Ending)
    (hr : calculate_mbc_body env recur1 points max_n support st i = some r) :
    calculate_mbc_body env recur2 points max_n support st i = some r := by
  unfold calculate_mbc_body at hr ⊢
  rcases st with _ | ⟨w, _ | e⟩
  · exact hr
  · dsimp only at hr ⊢
    rcases hp : points[i]? with _ | p
    · rw [hp] at hr
      exact hr
    · rw [hp] at hr
      dsimp only at hr ⊢
      split_ifs at hr ⊢ with hin
      · rcases h1 : recur1 i (add_supporting_point env support p).1
            { w with log := w.log ++ [MbcEvent.recurse max_n i support
              (add_supporting_point env support p).2
              (add_supporting_point env support p).1] } with _ | x
        · rw [h1] at hr
          exact absurd hr (by simp)
        · rw [h1] at hr
          rw [h _ _ _ _ h1]
          exact hr
      · exact hr
  · exact hr

/-- A loop that gives a result gives the same result with a recursive call
that gives the same results and more. -/
theorem calculate_mbc_body_foldl_mono (env : Liblwgeom F)
    (recur1 recur2 : Nat → SUPPORTING_POINTS F → MbcWorld F →
      Option (MbcWorld F × Ending))
    (h : ∀ i s w r, recur1 i s w = some r → recur2 i s w = some r)
    (points : List (POINT2D F)) (max_n : Nat) (support : SUPPORTING_POINTS F)
    (l : List Nat) :
    ∀ (st : Option (MbcWorld F × Option Ending))
      (r : MbcWorld F × Option Ending),
      l.foldl (calculate_mbc_body env recur1 points max_n support) st
        = some r →
      l.foldl (calculate_mbc_body env recur2 points max_n support) st
        = some r := by
  induction l with
  | nil =>
    intro st r hr
    exact hr
  | cons i l ih =>
    intro st r hr
    rw [List.foldl_cons] at hr ⊢
    rcases hb : calculate_mbc_body env recur1 points max_n support st i
      with _ | x
    · rw [hb, calculate_mbc_body_foldl_none] at hr
      exact absurd hr (by simp)
    · rw [hb] at hr
      rw [calculate_mbc_body_mono env recur1 recur2 h points max_n support st
        i x hb]
      exact ih _ r hr

/-- More fuel does not change a result. -/
theorem calculate_mbc_fuel_succ (env : Liblwgeom F) :
    ∀ (fuel : Nat) (points : List (POINT2D F)) (max_n : Nat)
      (support : SUPPORTING_POINTS F) (w : MbcWorld F)
      (r : MbcWorld F × Ending),
      calculate_mbc env fuel points max_n support w = some r →
      calculate_mbc env (fuel + 1) points max_n support w = some r := by
  intro fuel
  induction fuel with
  | zero =>
    intro points max_n support w r hr
    simp [calculate_mbc] at hr
  | succ fuel ih =>
    intro points max_n support w r hr
    rw [calculate_mbc] at hr ⊢
    rcases he : (calculate_mbc_from_support env support w.mbc).2
      with v | _ | _
    · rw [he] at hr
      dsimp only at hr ⊢
      split_ifs at hr ⊢ with hv h3
      · exact hr
      · exact hr
      · rcases hf : (List.range max_n).foldl
            (calculate_mbc_body env (calculate_mbc env fuel points) points
              max_n support)
            (some ({ mbc := (calculate_mbc_from_support env support w.mbc).1
                     log := w.log ++ [MbcEvent.fromSupport support
                       (Ending.ret v)] }, none)) with _ | x
        · rw [hf] at hr
          exact absurd hr (by simp)
        · rw [hf] at hr
          rw [calculate_mbc_body_foldl_mono env (calculate_mbc env fuel points)
            (calculate_mbc env (fuel + 1) points)
            (fun i s w0 r0 h0 => ih points i s w0 r0 h0) points max_n support
            (List.range max_n) _ x hf]
          exact hr
    · rw [he] at hr
      exact hr
    · rw [he] at hr
      exact hr

/-- More fuel does not change a result. -/
theorem calculate_mbc_fuel_le (env : Liblwgeom F) (fuel fuel2 : Nat)
    (hle : fuel ≤ fuel2) (points : List (POINT2D F)) (max_n : Nat)
    (support : SUPPORTING_POINTS F) (w : MbcWorld F)
    (r : MbcWorld F × Ending)
    (hr : calculate_mbc env fuel points max_n support w = some r) :
    calculate_mbc env fuel2 points max_n support w = some r := by
  induction hle with
  | refl => exact hr
  | step _ ih => exact calculate_mbc_fuel_succ env _ points max_n support w r ih

/-- C21: whatever the constants, the arithmetic and the distance are, with
`LW_SUCCESS` other than 0: `calculate_mbc` on the first `max_n` of the points
given, started with the empty support, returns `LW_SUCCESS`, and leaves the
same circle and the same log, as soon as the fuel allows a recursion of depth
four, or of depth `max_n + 1` if that is less. In the log of the run every
evaluation of `calculate_mbc_from_support` was given at most three points and
returned `LW_SUCCESS`, and every recursive call was made at an index `i`
below the `max_n` of the calling activation, from a support of fewer than
three points, to which `add_supporting_point` added the point, returning
`LW_SUCCESS`, so that the support passed on holds one point more and at most
three. -/
theorem C21_calculate_mbc_terminates (env : Liblwgeom F)
    (points : List (POINT2D F)) (max_n : Nat) (mbc : LW_BOUNDINGCIRCLE F)
    (hs : env.LW_SUCCESS ≠ 0) (hn : max_n ≤ points.length) :
    ∃ w : MbcWorld F,
      (∀ fuel, min (max_n + 1) 4 ≤ fuel →
        calculate_mbc env fuel points max_n supporting_points_create
          { mbc := mbc, log := [] } =
          some (w, Ending.ret env.LW_SUCCESS)) ∧
      (∀ support ending, MbcEvent.fromSupport support ending ∈ w.log →
        num_supporting_points support ≤ 3 ∧
        ending = Ending.ret env.LW_SUCCESS) ∧
      (∀ n i support added next,
        MbcEvent.recurse n i support added next ∈ w.log →
        i < n ∧ num_supporting_points support < 3 ∧
        added = env.LW_SUCCESS ∧
        num_supporting_points next = num_supporting_points support + 1 ∧
        num_supporting_points next ≤ 3) := by
  obtain ⟨hfill, h0⟩ := supporting_points_create_filled (F := F)
  obtain ⟨w, es, hrun, hlog, hsound⟩ :=
    calculate_mbc_total env hs (min (max_n + 1) 4) points max_n
      supporting_points_create { mbc := mbc, log := [] } hfill hn
      (by rw [h0])
  refine ⟨w, fun fuel hfuel => ?_, ?_, ?_⟩
  · exact calculate_mbc_fuel_le env _ fuel hfuel points max_n _ _ _ hrun
  · intro support ending hmem
    rw [hlog, List.nil_append] at hmem
    exact hsound _ hmem
  · intro n i support added next hmem
    rw [hlog, List.nil_append] at hmem
    obtain ⟨h1, h2, h3, h4⟩ := hsound _ hmem
    exact ⟨h1, h2, h3, h4, num_supporting_points_le next⟩

/-- C21 at a concrete input: the four points, over exact fractions, from the
circle that `lwboundingcircle_clear` leaves. -/
theorem C21_calculate_mbc_terminates_witness :
    (fracEnv.LW_SUCCESS ≠ 0) ∧
    (4 ≤ fourPoints.length) ∧
    (∃ w : MbcWorld Frac,
       (∀ fuel, min (4 + 1) 4 ≤ fuel →
         calculate_mbc fracEnv fuel fourPoints 4 supporting_points_create
           { mbc := clearWorld.mbc, log := [] } =
           some (w, Ending.ret fracEnv.LW_SUCCESS)) ∧
       (∀ support ending, MbcEvent.fromSupport support ending ∈ w.log →
         num_supporting_points support ≤ 3 ∧
         ending = Ending.ret fracEnv.LW_SUCCESS) ∧
       (∀ n i support added next,
         MbcEvent.recurse n i support added next ∈ w.log →
         i < n ∧ num_supporting_points support < 3 ∧
         added = fracEnv.LW_SUCCESS ∧
         num_supporting_points next = num_supporting_points support + 1 ∧
         num_supporting_points next ≤ 3)) :=
  ⟨by decide, by decide,
    C21_calculate_mbc_terminates fracEnv fourPoints 4 clearWorld.mbc
      (by decide) (by decide)⟩

end CircleFuel

/-- A run on four points over exact fractions: with fuel for a recursion of
depth four `calculate_mbc` returns `LW_SUCCESS` and leaves the circle of
centre (2, -1/2) and squared radius 25/4, through the points above and below
the segment; with fuel for a depth of three only, the recursion runs out of
fuel. -/
theorem fourPoints_run :
    (calculate_mbc fracEnv 4 fourPoints 4 supporting_points_create
      clearWorld).map (fun r => (r.1.mbc, r.2)) =
      some ({ center := { x := { num := 4, den := 2 },
                          y := { num := -1, den := 2 } }
              radius := { num := 100, den := 16 } }, Ending.ret 1) ∧
    calculate_mbc fracEnv 3 fourPoints 4 supporting_points_create clearWorld
      = none := by
  decide

end LwBoundingCircle
